import Mathlib

/-!
# Tessellate projects: handlers over the relational store

A shallow embedding of the HTTP handlers in `internal/api` and of the data
model in `internal/db` and `internal/models`.

* Time is a natural number of ticks; the zero time is `0`.
* A Go pointer field (`*string`, `*uint`, `*int`) is an `Option`.
* A table of the relational store is the list of its rows in insertion order
  together with its autoincrement sequence.  The entity structures below hold
  the columns of a row.  The relation fields of the Go structs (`Users`,
  `Client`, `Requirements`, ...) are filled only by `Preload`; every value a
  handler of this development hands to `Create` or `Save` has them nil, and
  the converters receive them as separate arguments.
* The store engine is reached through `First`, `Find`, `Preload`, `Create`,
  `Save`, `Delete` and the association calls.  The outcome of a write or of a
  `Find` depends on the request environment `Env`: the clock read by each
  write and whether the engine fails the call.
* A Go `uint` is a natural number below `2 ^ 64`; the decoder of a request
  body yields no other number, and a larger one in a request structure is
  treated like one whose bit 63 is set.  The engine keeps integers
  in signed 64-bit columns: the driver writes a `uint` as the signed integer
  with the same bit pattern (`int64`), and reading a negative column back into
  a `uint` is an error (`scanUint`).  The columns `client_id` of users and of
  projects are the integer columns that a request fills with a number of its
  choice; ids come from the autoincrement sequence and parent ids from path
  parameters of at most 32 bits or from the zero value.  A stored row keeps
  the `uint` that was written, which stands for its bit pattern; a row whose
  `client_id` has bit 63 set cannot be read: `First` fails on it like on a
  missing row, and a `Find` or `Preload` that selects it fails as a whole.
-/

namespace Tessellate

/-! ## Data model (`internal/db/models.go`) -/

/-- Columns of the embedded `gorm.Model`. -/
structure Model where
  ID : Nat
  CreatedAt : Nat
  UpdatedAt : Nat
  DeletedAt : Option Nat
deriving DecidableEq, Repr

/-- Zero value of `gorm.Model`. -/
def Model.zero : Model := ⟨0, 0, 0, none⟩

def RoleAdmin : String := "ADMIN"
def RoleConsultant : String := "CONSULTANT"
def RoleClient : String := "CLIENT"

def RequirementStatusMet : String := "MET"
def RequirementStatusNotMet : String := "NOT_MET"

/-- Columns of `db.User`. -/
structure User extends Model where
  Name : String
  Email : String
  Password : String
  Role : String
  ClientID : Option Nat
deriving DecidableEq, Repr

/-- Columns of `db.Project`. -/
structure Project extends Model where
  Name : String
  ClientName : String
  Status : String
  ClientID : Option Nat
deriving DecidableEq, Repr

/-- Columns of `db.Requirement`. -/
structure Requirement extends Model where
  ProjectID : Nat
  Text : String
  Category : Option String
  Status : String
deriving DecidableEq, Repr

/-- Columns of `db.AuditTask`. -/
structure AuditTask extends Model where
  RequirementID : Nat
  Text : String
  Status : String
  Notes : Option String
deriving DecidableEq, Repr

/-- Columns of `db.Issue` (`IssueType` is the Go field `Type`). -/
structure Issue extends Model where
  AuditTaskID : Nat
  Title : String
  Description : Option String
  Priority : Option String
  Phase : Option String
  EstimateHrs : Option Int
  Status : String
  IssueType : String
deriving DecidableEq, Repr

/-- Columns of `db.Client`. -/
structure Client extends Model where
  Name : String
  Industry : Option String
  ContactName : Option String
  ContactEmail : Option String
deriving DecidableEq, Repr

/-! ## The store -/

/-- The signed 64-bit integer that has the bit pattern of the Go `uint` `v`:
what the driver hands to the engine, and the column holds, when `v` is
written. -/
def int64 (v : Nat) : Int :=
  if v % 2 ^ 64 < 2 ^ 63 then ((v % 2 ^ 64 : Nat) : Int) else ((v % 2 ^ 64 : Nat) : Int) - 2 ^ 64

/-- Reading a signed integer column into a Go `uint`: a negative value is an
error. -/
def scanUint (c : Int) : Option Nat :=
  if 0 ≤ c then some c.toNat else none

/-- Whether a `*uint` column written as `v` is read back as `v`: a NULL is,
and a number is when its bit 63 is clear. -/
def scansUint : Option Nat → Bool
  | none => true
  | some v => decide (scanUint (int64 v) = some v)

/-- Value that the signed column `client_id` holds for a row whose `ClientID`
was written as `v`; `none` is NULL. -/
def clientIDColumn (v : Option Nat) : Option Int :=
  v.map int64

/-- Row types that embed `gorm.Model`.  `scans` tells whether the engine can
read the row back into its Go struct; it does not depend on the columns of
`gorm.Model`. -/
class Entity (α : Type) where
  model : α → Model
  withModel : α → Model → α
  model_withModel : ∀ a m, model (withModel a m) = m
  scans : α → Bool
  scans_withModel : ∀ a m, scans (withModel a m) = scans a

instance : Entity User :=
  ⟨fun r => r.toModel, fun r m => { r with toModel := m }, fun _ _ => rfl,
    fun r => scansUint r.ClientID, fun _ _ => rfl⟩
instance : Entity Project :=
  ⟨fun r => r.toModel, fun r m => { r with toModel := m }, fun _ _ => rfl,
    fun r => scansUint r.ClientID, fun _ _ => rfl⟩
instance : Entity Requirement :=
  ⟨fun r => r.toModel, fun r m => { r with toModel := m }, fun _ _ => rfl,
    fun _ => true, fun _ _ => rfl⟩
instance : Entity AuditTask :=
  ⟨fun r => r.toModel, fun r m => { r with toModel := m }, fun _ _ => rfl,
    fun _ => true, fun _ _ => rfl⟩
instance : Entity Issue :=
  ⟨fun r => r.toModel, fun r m => { r with toModel := m }, fun _ _ => rfl,
    fun _ => true, fun _ _ => rfl⟩
instance : Entity Client :=
  ⟨fun r => r.toModel, fun r m => { r with toModel := m }, fun _ _ => rfl,
    fun _ => true, fun _ _ => rfl⟩

/-- One table: its rows in insertion order and the largest id the
autoincrement sequence has handed out. -/
structure Table (α : Type) where
  rows : List α
  seq : Nat
deriving DecidableEq, Repr

/-- The relational store: six entity tables and the join table
`project_users` of the many2many relation between projects and users, whose
rows are pairs (project id, user id). -/
structure Store where
  clients : Table Client
  users : Table User
  projects : Table Project
  requirements : Table Requirement
  auditTasks : Table AuditTask
  issues : Table Issue
  projectUsers : List (Nat × Nat)
deriving DecidableEq, Repr

/-- What a request sees of the world outside the store contents.  The store
calls whose failure a handler answers with 500 (the writes and the `Find` of
a list handler) are counted from zero within the request: `now k` is the
clock read by the k-th of them, and `dbErr k` tells whether the engine fails
it. -/
structure Env where
  now : Nat → Nat
  dbErr : Nat → Bool

/-- A row is visible to queries when it is not marked as deleted. -/
def live {α : Type} [Entity α] (id : Nat) (r : α) : Bool :=
  decide ((Entity.model r).ID = id) && (Entity.model r).DeletedAt.isNone

/-- The row that a query by primary key selects: the first visible row with
that key. -/
def Table.row {α : Type} [Entity α] (t : Table α) (id : Nat) : Option α :=
  t.rows.find? (live id)

/-- Result of `db.First(&x, id)`: the row selected by the key, when there is
one and it can be read.  `none` is any error of `First`; the handlers do not
tell a missing row from a row that cannot be read. -/
def Table.first {α : Type} [Entity α] (t : Table α) (id : Nat) : Option α :=
  match t.row id with
  | some r => if Entity.scans r then some r else none
  | none => none

/-- Id given to the next inserted row: one more than the largest id in use or
ever handed out. -/
def Table.nextID {α : Type} [Entity α] (t : Table α) : Nat :=
  max t.seq ((t.rows.map (fun r => (Entity.model r).ID)).foldr max 0) + 1

/-- The value `db.Create(&x)` leaves in `x` for a struct whose `gorm.Model`
is zero: the fresh id and both timestamps set to the current time. -/
def Table.stamp {α : Type} [Entity α] (t : Table α) (now : Nat) (x : α) : α :=
  Entity.withModel x ⟨t.nextID, now, now, none⟩

/-- Table after `db.Create(&x)`. -/
def Table.create {α : Type} [Entity α] (t : Table α) (now : Nat) (x : α) : Table α :=
  ⟨t.rows ++ [t.stamp now x], t.nextID⟩

/-- The value `db.Save(&x)` leaves in `x`: the update time is refreshed. -/
def touch {α : Type} [Entity α] (now : Nat) (x : α) : α :=
  Entity.withModel x { Entity.model x with UpdatedAt := now }

/-- Table after `db.Save(&x)` for a struct read by `First`: every column of
the visible row with that primary key is overwritten. -/
def Table.save {α : Type} [Entity α] (t : Table α) (now : Nat) (x : α) : Table α :=
  ⟨t.rows.map (fun r => if live (Entity.model x).ID r then touch now x else r), t.seq⟩

/-! ## Response and request models (`internal/models/responses.go`) -/

/-- `models.IssueResponse`. -/
structure IssueResponse where
  ID : Nat
  AuditTaskID : Nat
  Title : String
  Description : Option String
  Priority : Option String
  Phase : Option String
  EstimateHrs : Option Int
  Status : String
  IssueType : String
  CreatedAt : Nat
  UpdatedAt : Nat
deriving DecidableEq, Repr

/-- `models.AuditTaskResponse`. -/
structure AuditTaskResponse where
  ID : Nat
  RequirementID : Nat
  Text : String
  Status : String
  Notes : Option String
  Issue : Option IssueResponse
  CreatedAt : Nat
  UpdatedAt : Nat
deriving DecidableEq, Repr

/-- `models.RequirementResponse`.  A slice field is `none` when the Go slice
is nil. -/
structure RequirementResponse where
  ID : Nat
  ProjectID : Nat
  Text : String
  Category : Option String
  Status : String
  AuditTasks : Option (List AuditTaskResponse)
  CreatedAt : Nat
  UpdatedAt : Nat
deriving DecidableEq, Repr

mutual
/-- `models.ProjectResponse`. -/
inductive ProjectResponse where
  | mk (ID : Nat) (Name : String) (ClientName : String) (Status : String)
      (ClientID : Option Nat) (Client : Option ClientResponse)
      (Users : Option (List UserResponse))
      (Requirements : Option (List RequirementResponse))
      (Issues : Option (List IssueResponse)) (CreatedAt : Nat) (UpdatedAt : Nat)
/-- `models.UserResponse`. -/
inductive UserResponse where
  | mk (ID : Nat) (Name : String) (Email : String) (Role : String) (ClientID : Option Nat)
      (Client : Option ClientResponse) (Projects : Option (List ProjectResponse))
      (CreatedAt : Nat) (UpdatedAt : Nat)
/-- `models.ClientResponse`. -/
inductive ClientResponse where
  | mk (ID : Nat) (Name : String) (Industry : Option String) (ContactName : Option String)
      (ContactEmail : Option String) (Users : Option (List UserResponse))
      (Projects : Option (List ProjectResponse)) (CreatedAt : Nat) (UpdatedAt : Nat)
end

/-- Field `Status` of a project projection. -/
def ProjectResponse.Status : ProjectResponse → String
  | .mk _ _ _ st _ _ _ _ _ _ _ => st

/-- `models.ErrorResponse`. -/
structure ErrorResponse where
  Error : String
  Message : String
  Code : Nat
deriving DecidableEq, Repr

/-- What a handler sends as JSON. -/
inductive Body where
  | error (e : ErrorResponse)
  | message (text : String)
  | client (r : ClientResponse)
  | user (r : UserResponse)
  | project (r : ProjectResponse)
  | requirement (r : RequirementResponse)
  | auditTask (r : AuditTaskResponse)
  | issue (r : IssueResponse)
  | clients (rs : List ClientResponse)
  | users (rs : List UserResponse)
  | projects (rs : List ProjectResponse)
  | requirements (rs : List RequirementResponse)
  | auditTasks (rs : List AuditTaskResponse)
  | issues (rs : List IssueResponse)
  | login (token : String) (user : UserResponse)
  | info (text : String) (endpoints : List (String × String))
  | uploaded (text : String) (count : Nat) (requirements : List RequirementResponse)

/-- Outcome of `c.JSON(status, body)`. -/
structure Response where
  status : Nat
  body : Body

def StatusOK : Nat := 200
def StatusCreated : Nat := 201
def StatusBadRequest : Nat := 400
def StatusUnauthorized : Nat := 401
def StatusNotFound : Nat := 404
def StatusInternalServerError : Nat := 500

/-- Error answer whose code mirrors the status and whose message is empty. -/
def errorJSON (status : Nat) (err : String) : Response :=
  ⟨status, .error ⟨err, "", status⟩⟩

/-- Error answer that also carries the text of the underlying error. -/
def errorJSONWith (status : Nat) (err msg : String) : Response :=
  ⟨status, .error ⟨err, msg, status⟩⟩


/-- `models.CreateProjectRequest`. -/
structure CreateProjectRequest where
  Name : String
  ClientName : String
  ClientID : Option Nat
deriving DecidableEq, Repr

/-- `models.UpdateProjectRequest`. -/
structure UpdateProjectRequest where
  Name : Option String
  ClientName : Option String
  Status : Option String
  ClientID : Option Nat
deriving DecidableEq, Repr

/-- `models.UpdateUserRequest`. -/
structure UpdateUserRequest where
  Name : Option String
  Email : Option String
  Role : Option String
  ClientID : Option Nat
deriving DecidableEq, Repr

/-- `models.UpdateClientRequest`. -/
structure UpdateClientRequest where
  Name : Option String
  Industry : Option String
  ContactName : Option String
  ContactEmail : Option String
deriving DecidableEq, Repr

/-- `models.CreateRequirementRequest`. -/
structure CreateRequirementRequest where
  ProjectID : Nat
  Text : String
  Category : Option String
  Status : Option String
deriving DecidableEq, Repr

/-- `models.UpdateRequirementRequest`. -/
structure UpdateRequirementRequest where
  Text : Option String
  Category : Option String
  Status : Option String
deriving DecidableEq, Repr

/-- Request type declared inside `CreateAuditTask`. -/
structure CreateAuditTaskRequest where
  Text : String
  Status : Option String
  Notes : Option String
deriving DecidableEq, Repr

/-- Request type declared inside `UpdateAuditTask`. -/
structure UpdateAuditTaskRequest where
  Text : Option String
  Status : Option String
  Notes : Option String
deriving DecidableEq, Repr

/-- Request type declared inside `CreateIssue`. -/
structure CreateIssueRequest where
  Title : String
  Description : Option String
  Priority : Option String
  Phase : Option String
  EstimateHrs : Option Int
  Status : Option String
  IssueType : Option String
deriving DecidableEq, Repr

/-- Request type declared inside `UpdateIssue`. -/
structure UpdateIssueRequest where
  Title : Option String
  Description : Option String
  Priority : Option String
  Phase : Option String
  EstimateHrs : Option Int
  Status : Option String
  IssueType : Option String
deriving DecidableEq, Repr

/-! ## Request parsing -/

/-- `strconv.ParseUint(s, 10, bitSize)`: a non-empty string of decimal digits
whose value fits in `bitSize` bits; anything else is an error. -/
def ParseUint (s : String) (bitSize : Nat) : Option Nat :=
  if s.data.isEmpty then none
  else if s.data.all Char.isDigit then
    let n := s.data.foldl (fun acc c => 10 * acc + (c.toNat - 48)) 0
    if n < 2 ^ bitSize then some n else none
  else none

/-- Text of one failed validation tag, as the validator prints it. -/
def fieldError (ns field tag : String) : String :=
  "Key: \x27" ++ ns ++ "." ++ field ++ "\x27 Error:Field validation for \x27" ++ field ++
    "\x27 failed on the \x27" ++ tag ++ "\x27 tag"

/-- Validation step of `ShouldBindJSON`: each check is a flag telling whether
the field failed its `binding` tag, with the text to report.  The value is
accepted when no check fails; otherwise the texts are joined by newlines. -/
def validate {R : Type} (r : R) (checks : List (Bool × String)) : Except String R :=
  match (checks.filter (fun c => c.1)).map (fun c => c.2) with
  | [] => .ok r
  | errs => .error ("\n".intercalate errs)

/-- `c.ShouldBindJSON(&req)` for `CreateRequirementRequest`: `body` is the
outcome of decoding the JSON body; `projectId` and `text` are `required`,
that is, different from the zero value. -/
def bindCreateRequirementRequest (body : Except String CreateRequirementRequest) :
    Except String CreateRequirementRequest :=
  match body with
  | .error msg => .error msg
  | .ok r => validate r
      [(decide (r.ProjectID = 0), fieldError "CreateRequirementRequest" "ProjectID" "required"),
       (decide (r.Text = ""), fieldError "CreateRequirementRequest" "Text" "required")]

/-- `c.ShouldBindJSON(&req)` for `CreateAuditTaskRequest`: `text` is `required`. -/
def bindCreateAuditTaskRequest (body : Except String CreateAuditTaskRequest) :
    Except String CreateAuditTaskRequest :=
  match body with
  | .error msg => .error msg
  | .ok r => validate r
      [(decide (r.Text = ""), fieldError "CreateAuditTaskRequest" "Text" "required")]

/-- `c.ShouldBindJSON(&req)` for `CreateIssueRequest`: `title` is `required`. -/
def bindCreateIssueRequest (body : Except String CreateIssueRequest) :
    Except String CreateIssueRequest :=
  match body with
  | .error msg => .error msg
  | .ok r => validate r
      [(decide (r.Title = ""), fieldError "CreateIssueRequest" "Title" "required")]

/-- `c.ShouldBindJSON(&req)` for `CreateProjectRequest`: `name` and
`clientName` are `required`. -/
def bindCreateProjectRequest (body : Except String CreateProjectRequest) :
    Except String CreateProjectRequest :=
  match body with
  | .error msg => .error msg
  | .ok r => validate r
      [(decide (r.Name = ""), fieldError "CreateProjectRequest" "Name" "required"),
       (decide (r.ClientName = ""), fieldError "CreateProjectRequest" "ClientName" "required")]

/-- `c.ShouldBindJSON(&req)` for a request type without `binding` tags (the
update requests): the decoded value is accepted as it is. -/
def bindUntagged {R : Type} (body : Except String R) : Except String R :=
  match body with
  | .error msg => .error msg
  | .ok r => validate r []

/-! ## Store calls as the handlers see them -/

/-- `h.db.Create(&x)` as the k-th write of a request: `none` when the engine
fails, otherwise the new table and the value left in `x`. -/
def dbCreate {α : Type} [Entity α] (env : Env) (k : Nat) (t : Table α) (x : α) :
    Option (Table α × α) :=
  if env.dbErr k then none else some (t.create (env.now k) x, t.stamp (env.now k) x)

/-- `h.db.Save(&x)` as the k-th write of a request. -/
def dbSave {α : Type} [Entity α] (env : Env) (k : Nat) (t : Table α) (x : α) :
    Option (Table α × α) :=
  if env.dbErr k then none else some (t.save (env.now k) x, touch (env.now k) x)

/-- Reading the selected rows into Go structs: an error when one of them
cannot be read. -/
def scanRows {α : Type} [Entity α] (rows : List α) : Option (List α) :=
  if rows.all Entity.scans then some rows else none

/-- `query.Find(&xs)` as the k-th counted store call of a request, `rows`
being the rows the query selects: `none` when the engine fails the call or
one of the rows cannot be read. -/
def dbFind {α : Type} [Entity α] (env : Env) (k : Nat) (rows : List α) : Option (List α) :=
  if env.dbErr k then none else scanRows rows

/-- Join table after an insert of the pair that does nothing on a conflict
with the primary key (project id, user id). -/
def linked (rows : List (Nat × Nat)) (pid uid : Nat) : List (Nat × Nat) :=
  if (pid, uid) ∈ rows then rows else rows ++ [(pid, uid)]

/-- Join table after the rows of the pair are deleted. -/
def unlinked (rows : List (Nat × Nat)) (pid uid : Nat) : List (Nat × Nat) :=
  rows.filter (fun pu => !decide (pu = (pid, uid)))

/-- Number of rows the join table holds for the pair. -/
def linkCount (rows : List (Nat × Nat)) (pid uid : Nat) : Nat :=
  (rows.filter (fun pu => decide (pu = (pid, uid)))).length

/-- `h.db.Model(&project).Association("Users").Append(&user)` as the k-th
write: the join row is inserted unless it is already there (the insert is
`ON CONFLICT DO NOTHING` on the primary key of the join table), the user row,
which exists, is left alone by its own `ON CONFLICT DO NOTHING` insert, and the
update time of the project row is refreshed. -/
def associationAppend (env : Env) (k : Nat) (s : Store) (project : Project) (user : User) :
    Option Store :=
  if env.dbErr k then none
  else some { s with
    projects := ⟨s.projects.rows.map
      (fun r => if live project.ID r then touch (env.now k) r else r), s.projects.seq⟩
    projectUsers := linked s.projectUsers project.ID user.ID }

/-- `h.db.Model(&project).Association("Users").Delete(&user)` as the k-th
write: the join rows of the pair are deleted. -/
def associationDelete (env : Env) (k : Nat) (s : Store) (project : Project) (user : User) :
    Option Store :=
  if env.dbErr k then none
  else some { s with projectUsers := unlinked s.projectUsers project.ID user.ID }

/-! ## Converters -/

/-- `convertToIssueResponse`. -/
def convertToIssueResponse (issue : Issue) : IssueResponse :=
  { ID := issue.ID, AuditTaskID := issue.AuditTaskID, Title := issue.Title,
    Description := issue.Description, Priority := issue.Priority, Phase := issue.Phase,
    EstimateHrs := issue.EstimateHrs, Status := issue.Status, IssueType := issue.IssueType,
    CreatedAt := issue.CreatedAt, UpdatedAt := issue.UpdatedAt }

/-- `convertToAuditTaskResponse`; `loadedIssue` is the field `task.Issue`. -/
def convertToAuditTaskResponse (task : AuditTask) (loadedIssue : Option Issue) :
    AuditTaskResponse :=
  { ID := task.ID, RequirementID := task.RequirementID, Text := task.Text,
    Status := task.Status, Notes := task.Notes,
    Issue := match loadedIssue with
      | some i => some
          { ID := i.ID, AuditTaskID := i.AuditTaskID, Title := i.Title,
            Description := i.Description, Priority := i.Priority, Phase := i.Phase,
            EstimateHrs := i.EstimateHrs, Status := i.Status, IssueType := i.IssueType,
            CreatedAt := i.CreatedAt, UpdatedAt := i.UpdatedAt }
      | none => none,
    CreatedAt := task.CreatedAt, UpdatedAt := task.UpdatedAt }

/-- `convertToRequirementResponse`; `loadedAuditTasks` is the field
`requirement.AuditTasks`. -/
def convertToRequirementResponse (requirement : Requirement)
    (loadedAuditTasks : List AuditTask) : RequirementResponse :=
  { ID := requirement.ID, ProjectID := requirement.ProjectID, Text := requirement.Text,
    Category := requirement.Category, Status := requirement.Status,
    AuditTasks :=
      if loadedAuditTasks.length > 0 then
        some (loadedAuditTasks.map (fun task =>
          { ID := task.ID, RequirementID := task.RequirementID, Text := task.Text,
            Status := task.Status, Notes := task.Notes, Issue := none,
            CreatedAt := task.CreatedAt, UpdatedAt := task.UpdatedAt }))
      else none,
    CreatedAt := requirement.CreatedAt, UpdatedAt := requirement.UpdatedAt }

/-- `convertToProjectResponse`; `loadedClient` and `loadedUsers` are the
fields `project.Client` and `project.Users`. -/
def convertToProjectResponse (project : Project) (loadedClient : Option Client)
    (loadedUsers : List User) : ProjectResponse :=
  .mk project.ID project.Name project.ClientName project.Status project.ClientID
    (match loadedClient with
      | some c => some (.mk c.ID c.Name c.Industry c.ContactName c.ContactEmail none none
          c.CreatedAt c.UpdatedAt)
      | none => none)
    (if loadedUsers.length > 0 then
        some (loadedUsers.map (fun user =>
          .mk user.ID user.Name user.Email user.Role user.ClientID none none
            user.CreatedAt user.UpdatedAt))
      else none)
    none none project.CreatedAt project.UpdatedAt

/-- `convertToUserResponse`; `loadedClient` and `loadedProjects` are the
fields `user.Client` and `user.Projects`. -/
def convertToUserResponse (user : User) (loadedClient : Option Client)
    (loadedProjects : List Project) : UserResponse :=
  .mk user.ID user.Name user.Email user.Role user.ClientID
    (match loadedClient with
      | some c => some (.mk c.ID c.Name c.Industry c.ContactName c.ContactEmail none none
          c.CreatedAt c.UpdatedAt)
      | none => none)
    (if loadedProjects.length > 0 then
        some (loadedProjects.map (fun project =>
          .mk project.ID project.Name project.ClientName project.Status project.ClientID
            none none none none project.CreatedAt project.UpdatedAt))
      else none)
    user.CreatedAt user.UpdatedAt

/-- `convertToClientResponse`; `loadedUsers` and `loadedProjects` are the
fields `client.Users` and `client.Projects`. -/
def convertToClientResponse (client : Client) (loadedUsers : List User)
    (loadedProjects : List Project) : ClientResponse :=
  .mk client.ID client.Name client.Industry client.ContactName client.ContactEmail
    (if loadedUsers.length > 0 then
        some (loadedUsers.map (fun user =>
          .mk user.ID user.Name user.Email user.Role user.ClientID none none
            user.CreatedAt user.UpdatedAt))
      else none)
    (if loadedProjects.length > 0 then
        some (loadedProjects.map (fun project =>
          .mk project.ID project.Name project.ClientName project.Status project.ClientID
            none none none none project.CreatedAt project.UpdatedAt))
      else none)
    client.CreatedAt client.UpdatedAt


/-! ## Handlers (`internal/api`)

Every handler takes the store, the request environment, the raw path
parameters and the outcome of decoding the JSON body, and returns the store
it leaves together with the answer it sends. -/

/-- `RequirementHandler.CreateRequirement`. -/
def CreateRequirement (s : Store) (env : Env) (id : String)
    (body : Except String CreateRequirementRequest) : Store × Response :=
  match ParseUint id 32 with
  | none => (s, errorJSON StatusBadRequest "Invalid project ID")
  | some projectID =>
    match bindCreateRequirementRequest body with
    | .error msg => (s, errorJSONWith StatusBadRequest "Invalid request" msg)
    | .ok req =>
      match s.projects.first projectID with
      | none => (s, errorJSON StatusNotFound "Project not found")
      | some _ =>
        let status := match req.Status with
          | some st => st
          | none => RequirementStatusNotMet
        let requirement : Requirement :=
          { toModel := Model.zero, ProjectID := projectID, Text := req.Text,
            Category := req.Category, Status := status }
        match dbCreate env 0 s.requirements requirement with
        | none => (s, errorJSON StatusInternalServerError "Failed to create requirement")
        | some (t, requirement) =>
          ({ s with requirements := t },
            ⟨StatusCreated, .requirement (convertToRequirementResponse requirement [])⟩)

/-- `AuditTaskHandler.CreateAuditTask`. -/
def CreateAuditTask (s : Store) (env : Env) (id : String)
    (body : Except String CreateAuditTaskRequest) : Store × Response :=
  match ParseUint id 32 with
  | none => (s, errorJSON StatusBadRequest "Invalid requirement ID")
  | some requirementID =>
    match bindCreateAuditTaskRequest body with
    | .error msg => (s, errorJSONWith StatusBadRequest "Invalid request" msg)
    | .ok req =>
      match s.requirements.first requirementID with
      | none => (s, errorJSON StatusNotFound "Requirement not found")
      | some _ =>
        let status := match req.Status with
          | some st => st
          | none => "PENDING"
        let task : AuditTask :=
          { toModel := Model.zero, RequirementID := requirementID, Text := req.Text,
            Status := status, Notes := req.Notes }
        match dbCreate env 0 s.auditTasks task with
        | none => (s, errorJSON StatusInternalServerError "Failed to create audit task")
        | some (t, task) =>
          ({ s with auditTasks := t },
            ⟨StatusCreated, .auditTask (convertToAuditTaskResponse task none)⟩)

/-- `IssueHandler.CreateIssue`. -/
def CreateIssue (s : Store) (env : Env) (id : String)
    (body : Except String CreateIssueRequest) : Store × Response :=
  match ParseUint id 32 with
  | none => (s, errorJSON StatusBadRequest "Invalid audit task ID")
  | some auditTaskID =>
    match bindCreateIssueRequest body with
    | .error msg => (s, errorJSONWith StatusBadRequest "Invalid request" msg)
    | .ok req =>
      match s.auditTasks.first auditTaskID with
      | none => (s, errorJSON StatusNotFound "Audit task not found")
      | some _ =>
        let status := match req.Status with
          | some st => st
          | none => "OPEN"
        let issueType := match req.IssueType with
          | some ty => ty
          | none => "DEFECT"
        let issue : Issue :=
          { toModel := Model.zero, AuditTaskID := auditTaskID, Title := req.Title,
            Description := req.Description, Priority := req.Priority, Phase := req.Phase,
            EstimateHrs := req.EstimateHrs, Status := status, IssueType := issueType }
        match dbCreate env 0 s.issues issue with
        | none => (s, errorJSON StatusInternalServerError "Failed to create issue")
        | some (t, issue) =>
          ({ s with issues := t }, ⟨StatusCreated, .issue (convertToIssueResponse issue)⟩)

/-- `UserHandler.AssignUserToProject`. -/
def AssignUserToProject (s : Store) (env : Env) (id userId : String) : Store × Response :=
  match ParseUint id 32 with
  | none => (s, errorJSON StatusBadRequest "Invalid project ID")
  | some projectID =>
    match ParseUint userId 32 with
    | none => (s, errorJSON StatusBadRequest "Invalid user ID")
    | some userID =>
      match s.projects.first projectID with
      | none => (s, errorJSON StatusNotFound "Project not found")
      | some project =>
        match s.users.first userID with
        | none => (s, errorJSON StatusNotFound "User not found")
        | some user =>
          match associationAppend env 0 s project user with
          | none => (s, errorJSON StatusInternalServerError "Failed to assign user to project")
          | some s1 => (s1, ⟨StatusOK, .message "User assigned to project successfully"⟩)

/-- `UserHandler.RemoveUserFromProject`. -/
def RemoveUserFromProject (s : Store) (env : Env) (id userId : String) : Store × Response :=
  match ParseUint id 32 with
  | none => (s, errorJSON StatusBadRequest "Invalid project ID")
  | some projectID =>
    match ParseUint userId 32 with
    | none => (s, errorJSON StatusBadRequest "Invalid user ID")
    | some userID =>
      match s.projects.first projectID with
      | none => (s, errorJSON StatusNotFound "Project not found")
      | some project =>
        match s.users.first userID with
        | none => (s, errorJSON StatusNotFound "User not found")
        | some user =>
          match associationDelete env 0 s project user with
          | none =>
            (s, errorJSON StatusInternalServerError "Failed to remove user from project")
          | some s1 => (s1, ⟨StatusOK, .message "User removed from project successfully"⟩)

/-- `ProjectHandler.CreateProject`. -/
def CreateProject (s : Store) (env : Env) (body : Except String CreateProjectRequest) :
    Store × Response :=
  match bindCreateProjectRequest body with
  | .error msg => (s, errorJSONWith StatusBadRequest "Invalid request" msg)
  | .ok req =>
    let project : Project :=
      { toModel := Model.zero, Name := req.Name, ClientName := req.ClientName,
        Status := "NEW", ClientID := req.ClientID }
    match dbCreate env 0 s.projects project with
    | none => (s, errorJSON StatusInternalServerError "Failed to create project")
    | some (t, project) =>
      ({ s with projects := t },
        ⟨StatusCreated, .project (convertToProjectResponse project none [])⟩)

/-- Field assignments of `UpdateProject` ("Update fields if provided"). -/
def applyUpdateProject (project : Project) (req : UpdateProjectRequest) : Project :=
  let project := match req.Name with
    | some v => { project with Name := v }
    | none => project
  let project := match req.ClientName with
    | some v => { project with ClientName := v }
    | none => project
  let project := match req.Status with
    | some v => { project with Status := v }
    | none => project
  match req.ClientID with
  | some v => { project with ClientID := some v }
  | none => project

/-- `ProjectHandler.UpdateProject`. -/
def UpdateProject (s : Store) (env : Env) (id : String)
    (body : Except String UpdateProjectRequest) : Store × Response :=
  match ParseUint id 32 with
  | none => (s, errorJSON StatusBadRequest "Invalid project ID")
  | some id =>
    match bindUntagged body with
    | .error msg => (s, errorJSONWith StatusBadRequest "Invalid request" msg)
    | .ok req =>
      match s.projects.first id with
      | none => (s, errorJSON StatusNotFound "Project not found")
      | some project =>
        match dbSave env 0 s.projects (applyUpdateProject project req) with
        | none => (s, errorJSON StatusInternalServerError "Failed to update project")
        | some (t, project) =>
          ({ s with projects := t },
            ⟨StatusOK, .project (convertToProjectResponse project none [])⟩)

/-- `ProjectHandler.ArchiveProject`. -/
def ArchiveProject (s : Store) (env : Env) (id : String) : Store × Response :=
  match ParseUint id 32 with
  | none => (s, errorJSON StatusBadRequest "Invalid project ID")
  | some id =>
    match s.projects.first id with
    | none => (s, errorJSON StatusNotFound "Project not found")
    | some project =>
      match dbSave env 0 s.projects { project with Status := "ARCHIVED" } with
      | none => (s, errorJSON StatusInternalServerError "Failed to archive project")
      | some (t, project) =>
        ({ s with projects := t },
          ⟨StatusOK, .project (convertToProjectResponse project none [])⟩)


/-- Field assignments of `UpdateClient`. -/
def applyUpdateClient (client : Client) (req : UpdateClientRequest) : Client :=
  let client := match req.Name with
    | some v => { client with Name := v }
    | none => client
  let client := match req.Industry with
    | some v => { client with Industry := some v }
    | none => client
  let client := match req.ContactName with
    | some v => { client with ContactName := some v }
    | none => client
  match req.ContactEmail with
  | some v => { client with ContactEmail := some v }
  | none => client

/-- `ClientHandler.UpdateClient`. -/
def UpdateClient (s : Store) (env : Env) (id : String)
    (body : Except String UpdateClientRequest) : Store × Response :=
  match ParseUint id 32 with
  | none => (s, errorJSON StatusBadRequest "Invalid client ID")
  | some id =>
    match bindUntagged body with
    | .error msg => (s, errorJSONWith StatusBadRequest "Invalid request" msg)
    | .ok req =>
      match s.clients.first id with
      | none => (s, errorJSON StatusNotFound "Client not found")
      | some client =>
        match dbSave env 0 s.clients (applyUpdateClient client req) with
        | none => (s, errorJSON StatusInternalServerError "Failed to update client")
        | some (t, client) =>
          ({ s with clients := t },
            ⟨StatusOK, .client (convertToClientResponse client [] [])⟩)

/-- Field assignments of `UpdateUser`. -/
def applyUpdateUser (user : User) (req : UpdateUserRequest) : User :=
  let user := match req.Name with
    | some v => { user with Name := v }
    | none => user
  let user := match req.Email with
    | some v => { user with Email := v }
    | none => user
  let user := match req.Role with
    | some v => { user with Role := v }
    | none => user
  match req.ClientID with
  | some v => { user with ClientID := some v }
  | none => user

/-- `UserHandler.UpdateUser`. -/
def UpdateUser (s : Store) (env : Env) (id : String)
    (body : Except String UpdateUserRequest) : Store × Response :=
  match ParseUint id 32 with
  | none => (s, errorJSON StatusBadRequest "Invalid user ID")
  | some id =>
    match bindUntagged body with
    | .error msg => (s, errorJSONWith StatusBadRequest "Invalid request" msg)
    | .ok req =>
      match s.users.first id with
      | none => (s, errorJSON StatusNotFound "User not found")
      | some user =>
        match dbSave env 0 s.users (applyUpdateUser user req) with
        | none => (s, errorJSON StatusInternalServerError "Failed to update user")
        | some (t, user) =>
          ({ s with users := t }, ⟨StatusOK, .user (convertToUserResponse user none [])⟩)

/-- Field assignments of `UpdateRequirement`. -/
def applyUpdateRequirement (requirement : Requirement) (req : UpdateRequirementRequest) :
    Requirement :=
  let requirement := match req.Text with
    | some v => { requirement with Text := v }
    | none => requirement
  let requirement := match req.Category with
    | some v => { requirement with Category := some v }
    | none => requirement
  match req.Status with
  | some v => { requirement with Status := v }
  | none => requirement

/-- `RequirementHandler.UpdateRequirement`. -/
def UpdateRequirement (s : Store) (env : Env) (id : String)
    (body : Except String UpdateRequirementRequest) : Store × Response :=
  match ParseUint id 32 with
  | none => (s, errorJSON StatusBadRequest "Invalid requirement ID")
  | some id =>
    match bindUntagged body with
    | .error msg => (s, errorJSONWith StatusBadRequest "Invalid request" msg)
    | .ok req =>
      match s.requirements.first id with
      | none => (s, errorJSON StatusNotFound "Requirement not found")
      | some requirement =>
        match dbSave env 0 s.requirements (applyUpdateRequirement requirement req) with
        | none => (s, errorJSON StatusInternalServerError "Failed to update requirement")
        | some (t, requirement) =>
          ({ s with requirements := t },
            ⟨StatusOK, .requirement (convertToRequirementResponse requirement [])⟩)

/-- Field assignments of `UpdateAuditTask`. -/
def applyUpdateAuditTask (task : AuditTask) (req : UpdateAuditTaskRequest) : AuditTask :=
  let task := match req.Text with
    | some v => { task with Text := v }
    | none => task
  let task := match req.Status with
    | some v => { task with Status := v }
    | none => task
  match req.Notes with
  | some v => { task with Notes := some v }
  | none => task

/-- `AuditTaskHandler.UpdateAuditTask`. -/
def UpdateAuditTask (s : Store) (env : Env) (id : String)
    (body : Except String UpdateAuditTaskRequest) : Store × Response :=
  match ParseUint id 32 with
  | none => (s, errorJSON StatusBadRequest "Invalid audit task ID")
  | some id =>
    match bindUntagged body with
    | .error msg => (s, errorJSONWith StatusBadRequest "Invalid request" msg)
    | .ok req =>
      match s.auditTasks.first id with
      | none => (s, errorJSON StatusNotFound "Audit task not found")
      | some task =>
        match dbSave env 0 s.auditTasks (applyUpdateAuditTask task req) with
        | none => (s, errorJSON StatusInternalServerError "Failed to update audit task")
        | some (t, task) =>
          ({ s with auditTasks := t },
            ⟨StatusOK, .auditTask (convertToAuditTaskResponse task none)⟩)

/-- Field assignments of `UpdateIssue`. -/
def applyUpdateIssue (issue : Issue) (req : UpdateIssueRequest) : Issue :=
  let issue := match req.Title with
    | some v => { issue with Title := v }
    | none => issue
  let issue := match req.Description with
    | some v => { issue with Description := some v }
    | none => issue
  let issue := match req.Priority with
    | some v => { issue with Priority := some v }
    | none => issue
  let issue := match req.Phase with
    | some v => { issue with Phase := some v }
    | none => issue
  let issue := match req.EstimateHrs with
    | some v => { issue with EstimateHrs := some v }
    | none => issue
  let issue := match req.Status with
    | some v => { issue with Status := v }
    | none => issue
  match req.IssueType with
  | some v => { issue with IssueType := v }
  | none => issue

/-- `IssueHandler.UpdateIssue`. -/
def UpdateIssue (s : Store) (env : Env) (id : String)
    (body : Except String UpdateIssueRequest) : Store × Response :=
  match ParseUint id 32 with
  | none => (s, errorJSON StatusBadRequest "Invalid issue ID")
  | some id =>
    match bindUntagged body with
    | .error msg => (s, errorJSONWith StatusBadRequest "Invalid request" msg)
    | .ok req =>
      match s.issues.first id with
      | none => (s, errorJSON StatusNotFound "Issue not found")
      | some issue =>
        match dbSave env 0 s.issues (applyUpdateIssue issue req) with
        | none => (s, errorJSON StatusInternalServerError "Failed to update issue")
        | some (t, issue) =>
          ({ s with issues := t }, ⟨StatusOK, .issue (convertToIssueResponse issue)⟩)

/-! ### CSV import -/

/-- Outcome of one `reader.Read()` of the CSV reader before end of stream: a
record (the list of its fields) or the text of a read error.  The reader of
`encoding/csv` is outside this repository; with the settings used here it
never returns a record without fields and it reports a record whose number of
fields differs from that of the first record as a read error.  The handler is
modelled on every stream of read results, those included that this reader
cannot produce. -/
abbrev ReadResult := Except String (List String)

/-- The `db.Requirement` built from one CSV record in `UploadRequirementsCSV`. -/
def requirementOfRecord (projectID : Nat) (record : List String) : Requirement :=
  let text := record.getD 0 ""
  let category : Option String :=
    if record.length > 1 ∧ record.getD 1 "" ≠ "" then some (record.getD 1 "") else none
  { toModel := Model.zero, ProjectID := projectID, Text := text, Category := category,
    Status := RequirementStatusNotMet }

/-- The read loop of `UploadRequirementsCSV`.  `reads` is what the successive
calls of `reader.Read()` return before `io.EOF`; `created` is
`createdRequirements`.  The k-th `Create` of the request is its k-th store
write.  The loop ends with the list of created requirements, or with the
error answer it has sent. -/
def uploadLoop (env : Env) (projectID : Nat) :
    List ReadResult → Store → List Requirement → Store × Except Response (List Requirement)
  | [], s, created => (s, .ok created)
  | .error msg :: _, s, _ =>
    (s, .error (errorJSONWith StatusBadRequest "Error reading CSV" msg))
  | .ok record :: rest, s, created =>
    if record.length = 0 then uploadLoop env projectID rest s created
    else
      match dbCreate env created.length s.requirements
          (requirementOfRecord projectID record) with
      | none =>
        (s, .error (errorJSON StatusInternalServerError "Failed to create requirement from CSV"))
      | some (t, requirement) =>
        uploadLoop env projectID rest { s with requirements := t } (created ++ [requirement])

/-- `RequirementHandler.UploadRequirementsCSV`.  `file` is `none` when the
multipart form has no field `file`. -/
def UploadRequirementsCSV (s : Store) (env : Env) (projectId : String)
    (file : Option (List ReadResult)) : Store × Response :=
  match ParseUint projectId 32 with
  | none => (s, errorJSON StatusBadRequest "Invalid project ID")
  | some projectID =>
    match s.projects.first projectID with
    | none => (s, errorJSON StatusNotFound "Project not found")
    | some _ =>
      match file with
      | none => (s, errorJSON StatusBadRequest "No file uploaded")
      | some reads =>
        match uploadLoop env projectID reads s [] with
        | (s1, .error resp) => (s1, resp)
        | (s1, .ok created) =>
          (s1, ⟨StatusCreated, .uploaded "Requirements uploaded successfully" created.length
            (created.map (fun requirement => convertToRequirementResponse requirement []))⟩)


/-! ## Existence of records and sample data -/

/-- A record with primary key `id` exists for the handlers: `First` returns
it, that is, a row carries the id, is not marked as deleted and can be read. -/
def Table.has {α : Type} [Entity α] (t : Table α) (id : Nat) : Prop :=
  (t.first id).isSome = true

instance {α : Type} [Entity α] (t : Table α) (id : Nat) : Decidable (t.has id) := by
  unfold Table.has
  infer_instance

/-- A row with primary key `id` is stored and not marked as deleted, whether
or not it can be read. -/
def Table.stored {α : Type} [Entity α] (t : Table α) (id : Nat) : Prop :=
  ∃ r ∈ t.rows, (Entity.model r).ID = id ∧ (Entity.model r).DeletedAt = none

instance {α : Type} [Entity α] (t : Table α) (id : Nat) : Decidable (t.stored id) := by
  unfold Table.stored
  infer_instance

/-- Sample store: one client, one user, two projects (the second one
archived), one requirement, one audit task and one issue, written at time 5,
and no assignment of the user to a project. -/
def demoStore : Store :=
  { clients := ⟨[⟨⟨1, 5, 5, none⟩, "Demo Client Org", none, some "Ann", none⟩], 1⟩
    users := ⟨[⟨⟨1, 5, 5, none⟩, "Alice", "alice@example.com", "hash", RoleConsultant, none⟩], 1⟩
    projects := ⟨[⟨⟨1, 5, 5, none⟩, "Demo Project", "Demo Client", "NEW", some 1⟩,
      ⟨⟨2, 5, 5, none⟩, "Old Project", "Demo Client", "ARCHIVED", none⟩], 2⟩
    requirements := ⟨[⟨⟨1, 5, 5, none⟩, 1, "Must support single sign-on",
      some "Authentication", "DRAFT"⟩], 1⟩
    auditTasks := ⟨[⟨⟨1, 5, 5, none⟩, 1, "Check login audit", "PENDING", some "Review"⟩], 1⟩
    issues := ⟨[⟨⟨1, 5, 5, none⟩, 1, "Login fails on Safari", some "Broken in Safari", none,
      none, some 3, "OPEN", "DEFECT"⟩], 1⟩
    projectUsers := [] }

/-- Sample environment: the k-th write of the request happens at time
`10 + k` and the engine fails no write. -/
def demoEnv : Env := ⟨fun k => 10 + k, fun _ => false⟩

/-! ## Sequences of project operations -/

/-- One request among `CreateProject`, `UpdateProject` and `ArchiveProject`,
with its environment and its inputs. -/
inductive ProjectOp where
  | create (env : Env) (body : Except String CreateProjectRequest)
  | update (env : Env) (id : String) (body : Except String UpdateProjectRequest)
  | archive (env : Env) (id : String)

/-- Store left by one project operation. -/
def ProjectOp.run (s : Store) : ProjectOp → Store
  | .create env body => (CreateProject s env body).1
  | .update env id body => (UpdateProject s env id body).1
  | .archive env id => (ArchiveProject s env id).1

/-- Store left by a sequence of project operations, run in order. -/
def runProjectOps (s : Store) (ops : List ProjectOp) : Store :=
  ops.foldl ProjectOp.run s

/-- Status column of the project row stored under `pid`, if there is one. -/
def projectStatus (s : Store) (pid : Nat) : Option String :=
  (s.projects.row pid).map (fun p => p.Status)

/-- The operation is an `UpdateProject` addressed to project `pid` whose
patch supplies a status other than ARCHIVED. -/
def ProjectOp.reopens (pid : Nat) : ProjectOp → Bool
  | .update _ id (.ok req) =>
    decide (ParseUint id 32 = some pid) &&
      (match req.Status with
        | some st => decide (st ≠ "ARCHIVED")
        | none => false)
  | _ => false

/-! ## Reads, deletion and preloads -/

/-- Field `ID` of a project projection. -/
def ProjectResponse.ID : ProjectResponse → Nat
  | .mk id _ _ _ _ _ _ _ _ _ _ => id

/-- Field `Client` of a project projection. -/
def ProjectResponse.Client : ProjectResponse → Option ClientResponse
  | .mk _ _ _ _ _ c _ _ _ _ _ => c

/-- Field `Users` of a project projection. -/
def ProjectResponse.Users : ProjectResponse → Option (List UserResponse)
  | .mk _ _ _ _ _ _ us _ _ _ _ => us

/-- Field `Requirements` of a project projection. -/
def ProjectResponse.Requirements : ProjectResponse → Option (List RequirementResponse)
  | .mk _ _ _ _ _ _ _ rs _ _ _ => rs

/-- Field `ID` of a user projection. -/
def UserResponse.ID : UserResponse → Nat
  | .mk id _ _ _ _ _ _ _ _ => id

/-- Field `Role` of a user projection. -/
def UserResponse.Role : UserResponse → String
  | .mk _ _ _ role _ _ _ _ _ => role

/-- Field `ID` of a client projection. -/
def ClientResponse.ID : ClientResponse → Nat
  | .mk id _ _ _ _ _ _ _ _ => id

/-- Field `Users` of a client projection. -/
def ClientResponse.Users : ClientResponse → Option (List UserResponse)
  | .mk _ _ _ _ _ us _ _ _ => us

/-- Field `Projects` of a client projection. -/
def ClientResponse.Projects : ClientResponse → Option (List ProjectResponse)
  | .mk _ _ _ _ _ _ ps _ _ => ps

/-- Rows that `db.Find(&xs)` selects without a filter: the rows not marked as
deleted, in table order. -/
def Table.find {α : Type} [Entity α] (t : Table α) : List α :=
  t.rows.filter (fun r => (Entity.model r).DeletedAt.isNone)

/-- The row with its deletion mark set. -/
def markDeleted {α : Type} [Entity α] (now : Nat) (r : α) : α :=
  Entity.withModel r { Entity.model r with DeletedAt := some now }

/-- Table after `db.Delete(&T{}, id)`.  Every entity embeds `gorm.Model`, whose
`DeletedAt` column turns the delete into an update that marks the visible rows
with that primary key as deleted; no row is taken out of the table. -/
def Table.softDelete {α : Type} [Entity α] (t : Table α) (now id : Nat) : Table α :=
  ⟨t.rows.map (fun r => if live id r then markDeleted now r else r), t.seq⟩

/-- `h.db.Delete(&T{}, id)` as the k-th write of a request: `none` when the
engine fails; a delete that matches no row is not a failure. -/
def dbDelete {α : Type} [Entity α] (env : Env) (k : Nat) (t : Table α) (id : Nat) :
    Option (Table α) :=
  if env.dbErr k then none else some (t.softDelete (env.now k) id)

/-- `Preload("Client")` for a project or a user with that `ClientID`. -/
def preloadClient (s : Store) (clientID : Option Nat) : Option Client :=
  match clientID with
  | some cid => s.clients.first cid
  | none => none

/-- `Preload("Users")` for the project: the visible users that the join table
links to it, in the order of the users table. -/
def preloadProjectUsers (s : Store) (projectID : Nat) : List User :=
  s.users.find.filter (fun u => decide ((projectID, u.ID) ∈ s.projectUsers))

/-- `Preload("Projects")` for the user: the visible projects that the join
table links to the user. -/
def preloadUserProjects (s : Store) (userID : Nat) : List Project :=
  s.projects.find.filter (fun p => decide ((p.ID, userID) ∈ s.projectUsers))

/-- `Preload("Requirements")` for the project. -/
def preloadRequirements (s : Store) (projectID : Nat) : List Requirement :=
  s.requirements.find.filter (fun r => decide (r.ProjectID = projectID))

/-- `Preload("AuditTasks")` for the requirement. -/
def preloadAuditTasks (s : Store) (requirementID : Nat) : List AuditTask :=
  s.auditTasks.find.filter (fun t => decide (t.RequirementID = requirementID))

/-- `Preload("Issue")` for the audit task: the relation holds one issue, and
when several visible issues name the task the preload keeps the one it assigns
last. -/
def preloadIssue (s : Store) (auditTaskID : Nat) : Option Issue :=
  (s.issues.find.filter (fun i => decide (i.AuditTaskID = auditTaskID))).getLast?

/-- `Preload("Users")` for the client. -/
def preloadClientUsers (s : Store) (clientID : Nat) : List User :=
  s.users.find.filter (fun u => decide (u.ClientID = some clientID))

/-- `Preload("Projects")` for the client. -/
def preloadClientProjects (s : Store) (clientID : Nat) : List Project :=
  s.projects.find.filter (fun p => decide (p.ClientID = some clientID))

/-! ## Read handlers -/

/-- `ProjectHandler.GetProject`.  The call
`Preload("Client").Preload("Users").Preload("Requirements").First(&project, id)`
returns an error, answered with 404, when the project is not found or cannot
be read and when a user selected by the preload cannot be read.  The preload
fills `project.Requirements`, which `convertToProjectResponse` does not
read. -/
def GetProject (s : Store) (id : String) : Store × Response :=
  match ParseUint id 32 with
  | none => (s, errorJSON StatusBadRequest "Invalid project ID")
  | some id =>
    match s.projects.first id with
    | none => (s, errorJSON StatusNotFound "Project not found")
    | some project =>
      match scanRows (preloadProjectUsers s project.ID) with
      | none => (s, errorJSON StatusNotFound "Project not found")
      | some loadedUsers =>
        let loadedClient := preloadClient s project.ClientID
        let _loadedRequirements := preloadRequirements s project.ID
        (s, ⟨StatusOK, .project (convertToProjectResponse project loadedClient loadedUsers)⟩)

/-- `UserHandler.GetUser`.  The call
`Preload("Client").Preload("Projects").First(&user, id)` also returns an
error when a project selected by the preload cannot be read. -/
def GetUser (s : Store) (id : String) : Store × Response :=
  match ParseUint id 32 with
  | none => (s, errorJSON StatusBadRequest "Invalid user ID")
  | some id =>
    match s.users.first id with
    | none => (s, errorJSON StatusNotFound "User not found")
    | some user =>
      match scanRows (preloadUserProjects s user.ID) with
      | none => (s, errorJSON StatusNotFound "User not found")
      | some loadedProjects =>
        (s, ⟨StatusOK, .user (convertToUserResponse user (preloadClient s user.ClientID)
          loadedProjects)⟩)

/-- `ClientHandler.GetClient`.  The call
`Preload("Users").Preload("Projects").First(&client, id)` also returns an
error when a row selected by a preload cannot be read. -/
def GetClient (s : Store) (id : String) : Store × Response :=
  match ParseUint id 32 with
  | none => (s, errorJSON StatusBadRequest "Invalid client ID")
  | some id =>
    match s.clients.first id with
    | none => (s, errorJSON StatusNotFound "Client not found")
    | some client =>
      match scanRows (preloadClientUsers s client.ID) with
      | none => (s, errorJSON StatusNotFound "Client not found")
      | some loadedUsers =>
        match scanRows (preloadClientProjects s client.ID) with
        | none => (s, errorJSON StatusNotFound "Client not found")
        | some loadedProjects =>
          (s, ⟨StatusOK, .client (convertToClientResponse client loadedUsers loadedProjects)⟩)

/-- `RequirementHandler.GetRequirement`. -/
def GetRequirement (s : Store) (id : String) : Store × Response :=
  match ParseUint id 32 with
  | none => (s, errorJSON StatusBadRequest "Invalid requirement ID")
  | some id =>
    match s.requirements.first id with
    | none => (s, errorJSON StatusNotFound "Requirement not found")
    | some requirement =>
      (s, ⟨StatusOK, .requirement (convertToRequirementResponse requirement
        (preloadAuditTasks s requirement.ID))⟩)

/-- `AuditTaskHandler.GetAuditTask`. -/
def GetAuditTask (s : Store) (id : String) : Store × Response :=
  match ParseUint id 32 with
  | none => (s, errorJSON StatusBadRequest "Invalid audit task ID")
  | some id =>
    match s.auditTasks.first id with
    | none => (s, errorJSON StatusNotFound "Audit task not found")
    | some task =>
      (s, ⟨StatusOK, .auditTask (convertToAuditTaskResponse task (preloadIssue s task.ID))⟩)

/-- `IssueHandler.GetIssue`. -/
def GetIssue (s : Store) (id : String) : Store × Response :=
  match ParseUint id 32 with
  | none => (s, errorJSON StatusBadRequest "Invalid issue ID")
  | some id =>
    match s.issues.first id with
    | none => (s, errorJSON StatusNotFound "Issue not found")
    | some issue => (s, ⟨StatusOK, .issue (convertToIssueResponse issue)⟩)

/-! ## List handlers

The `Find` of a list handler is the store call number 0 of its request.  It
returns an error, answered with 500, when the engine fails the call or when a
row it selects, by itself or through a preload, cannot be read.  Rows of
clients, requirements, audit tasks and issues have no column whose reading
can fail.  The filters on an integer column receive the query parameter as
text; how the engine compares the two is the argument `colEq`. -/

/-- `ProjectHandler.GetProjects`; `status` is the query parameter, empty when
absent. -/
def GetProjects (s : Store) (env : Env) (status : String) : Store × Response :=
  let selected :=
    if status ≠ "" then s.projects.find.filter (fun p => decide (p.Status = status))
    else s.projects.find
  match dbFind env 0 selected with
  | none => (s, errorJSON StatusInternalServerError "Failed to fetch projects")
  | some projects =>
    (s, ⟨StatusOK, .projects (projects.map (fun project =>
      .mk project.ID project.Name project.ClientName project.Status project.ClientID
        none none none none project.CreatedAt project.UpdatedAt))⟩)

/-- `UserHandler.GetUsers`. -/
def GetUsers (s : Store) (env : Env) : Store × Response :=
  match dbFind env 0 s.users.find with
  | none => (s, errorJSON StatusInternalServerError "Failed to fetch users")
  | some users =>
    (s, ⟨StatusOK, .users (users.map (fun user =>
      convertToUserResponse user (preloadClient s user.ClientID) []))⟩)

/-- `ClientHandler.GetClients`.  The two preloads read, for all the listed
clients together, the users and the projects that name one of them. -/
def GetClients (s : Store) (env : Env) : Store × Response :=
  match dbFind env 0 s.clients.find with
  | none => (s, errorJSON StatusInternalServerError "Failed to fetch clients")
  | some clients =>
    match scanRows (clients.flatMap (fun client => preloadClientUsers s client.ID)) with
    | none => (s, errorJSON StatusInternalServerError "Failed to fetch clients")
    | some _ =>
      match scanRows (clients.flatMap (fun client => preloadClientProjects s client.ID)) with
      | none => (s, errorJSON StatusInternalServerError "Failed to fetch clients")
      | some _ =>
        (s, ⟨StatusOK, .clients (clients.map (fun client =>
          convertToClientResponse client (preloadClientUsers s client.ID)
            (preloadClientProjects s client.ID)))⟩)

/-- `RequirementHandler.GetRequirements`; `projectID` is the query parameter
`projectId`, empty when absent. -/
def GetRequirements (colEq : Nat → String → Bool) (s : Store) (env : Env)
    (projectID : String) : Store × Response :=
  let selected :=
    if projectID ≠ "" then s.requirements.find.filter (fun r => colEq r.ProjectID projectID)
    else s.requirements.find
  match dbFind env 0 selected with
  | none => (s, errorJSON StatusInternalServerError "Failed to fetch requirements")
  | some requirements =>
    (s, ⟨StatusOK, .requirements (requirements.map (fun requirement =>
      convertToRequirementResponse requirement (preloadAuditTasks s requirement.ID)))⟩)

/-- `AuditTaskHandler.GetAuditTasks`; `requirementID` is the query parameter
`requirementId`, empty when absent. -/
def GetAuditTasks (colEq : Nat → String → Bool) (s : Store) (env : Env)
    (requirementID : String) : Store × Response :=
  let selected :=
    if requirementID ≠ "" then
      s.auditTasks.find.filter (fun t => colEq t.RequirementID requirementID)
    else s.auditTasks.find
  match dbFind env 0 selected with
  | none => (s, errorJSON StatusInternalServerError "Failed to fetch audit tasks")
  | some tasks =>
    (s, ⟨StatusOK, .auditTasks (tasks.map (fun task =>
      convertToAuditTaskResponse task (preloadIssue s task.ID)))⟩)

/-- `IssueHandler.GetIssues`; `auditTaskID` is the query parameter
`auditTaskId`, empty when absent. -/
def GetIssues (colEq : Nat → String → Bool) (s : Store) (env : Env) (auditTaskID : String) :
    Store × Response :=
  let selected :=
    if auditTaskID ≠ "" then s.issues.find.filter (fun i => colEq i.AuditTaskID auditTaskID)
    else s.issues.find
  match dbFind env 0 selected with
  | none => (s, errorJSON StatusInternalServerError "Failed to fetch issues")
  | some issues =>
    (s, ⟨StatusOK, .issues (issues.map (fun issue => convertToIssueResponse issue))⟩)

/-! ## Delete handlers -/

/-- `ProjectHandler.DeleteProject`. -/
def DeleteProject (s : Store) (env : Env) (id : String) : Store × Response :=
  match ParseUint id 32 with
  | none => (s, errorJSON StatusBadRequest "Invalid project ID")
  | some id =>
    match dbDelete env 0 s.projects id with
    | none => (s, errorJSON StatusInternalServerError "Failed to delete project")
    | some t => ({ s with projects := t }, ⟨StatusOK, .message "Project deleted successfully"⟩)

/-- `UserHandler.DeleteUser`. -/
def DeleteUser (s : Store) (env : Env) (id : String) : Store × Response :=
  match ParseUint id 32 with
  | none => (s, errorJSON StatusBadRequest "Invalid user ID")
  | some id =>
    match dbDelete env 0 s.users id with
    | none => (s, errorJSON StatusInternalServerError "Failed to delete user")
    | some t => ({ s with users := t }, ⟨StatusOK, .message "User deleted successfully"⟩)

/-- `ClientHandler.DeleteClient`. -/
def DeleteClient (s : Store) (env : Env) (id : String) : Store × Response :=
  match ParseUint id 32 with
  | none => (s, errorJSON StatusBadRequest "Invalid client ID")
  | some id =>
    match dbDelete env 0 s.clients id with
    | none => (s, errorJSON StatusInternalServerError "Failed to delete client")
    | some t => ({ s with clients := t }, ⟨StatusOK, .message "Client deleted successfully"⟩)

/-- `RequirementHandler.DeleteRequirement`. -/
def DeleteRequirement (s : Store) (env : Env) (id : String) : Store × Response :=
  match ParseUint id 32 with
  | none => (s, errorJSON StatusBadRequest "Invalid requirement ID")
  | some id =>
    match dbDelete env 0 s.requirements id with
    | none => (s, errorJSON StatusInternalServerError "Failed to delete requirement")
    | some t =>
      ({ s with requirements := t }, ⟨StatusOK, .message "Requirement deleted successfully"⟩)

/-- `AuditTaskHandler.DeleteAuditTask`. -/
def DeleteAuditTask (s : Store) (env : Env) (id : String) : Store × Response :=
  match ParseUint id 32 with
  | none => (s, errorJSON StatusBadRequest "Invalid audit task ID")
  | some id =>
    match dbDelete env 0 s.auditTasks id with
    | none => (s, errorJSON StatusInternalServerError "Failed to delete audit task")
    | some t =>
      ({ s with auditTasks := t }, ⟨StatusOK, .message "Audit task deleted successfully"⟩)

/-- `IssueHandler.DeleteIssue`. -/
def DeleteIssue (s : Store) (env : Env) (id : String) : Store × Response :=
  match ParseUint id 32 with
  | none => (s, errorJSON StatusBadRequest "Invalid issue ID")
  | some id =>
    match dbDelete env 0 s.issues id with
    | none => (s, errorJSON StatusInternalServerError "Failed to delete issue")
    | some t => ({ s with issues := t }, ⟨StatusOK, .message "Issue deleted successfully"⟩)

/-! ## User creation -/

/-- `models.CreateUserRequest`. -/
structure CreateUserRequest where
  Name : String
  Email : String
  Role : String
  ClientID : Option Nat
deriving DecidableEq, Repr

/-- `c.ShouldBindJSON(&req)` for `CreateUserRequest`: `name` is `required`,
`email` is `required,email` and `role` is
`required,oneof=ADMIN CONSULTANT CLIENT`.  For each field the first tag that
fails is reported.  `isEmail` is the test behind the `email` tag of the
validator library. -/
def bindCreateUserRequest (isEmail : String → Bool) (body : Except String CreateUserRequest) :
    Except String CreateUserRequest :=
  match body with
  | .error msg => .error msg
  | .ok r => validate r
      [(decide (r.Name = ""), fieldError "CreateUserRequest" "Name" "required"),
       (decide (r.Email = ""), fieldError "CreateUserRequest" "Email" "required"),
       (decide (r.Email ≠ "") && !isEmail r.Email,
         fieldError "CreateUserRequest" "Email" "email"),
       (decide (r.Role = ""), fieldError "CreateUserRequest" "Role" "required"),
       (decide (r.Role ≠ "") && !decide (r.Role ∈ [RoleAdmin, RoleConsultant, RoleClient]),
         fieldError "CreateUserRequest" "Role" "oneof")]

/-- `UserHandler.CreateUser`. -/
def CreateUser (isEmail : String → Bool) (s : Store) (env : Env)
    (body : Except String CreateUserRequest) : Store × Response :=
  match bindCreateUserRequest isEmail body with
  | .error msg => (s, errorJSONWith StatusBadRequest "Invalid request" msg)
  | .ok req =>
    let user : User :=
      { toModel := Model.zero, Name := req.Name, Email := req.Email, Password := "",
        Role := req.Role, ClientID := req.ClientID }
    match dbCreate env 0 s.users user with
    | none => (s, errorJSON StatusInternalServerError "Failed to create user")
    | some (t, user) =>
      ({ s with users := t }, ⟨StatusCreated, .user (convertToUserResponse user none [])⟩)

/-! ## Remaining handlers -/

/-- `models.CreateClientRequest`. -/
structure CreateClientRequest where
  Name : String
  Industry : Option String
  ContactName : Option String
  ContactEmail : Option String
deriving DecidableEq, Repr

/-- `c.ShouldBindJSON(&req)` for `CreateClientRequest`: `name` is `required`. -/
def bindCreateClientRequest (body : Except String CreateClientRequest) :
    Except String CreateClientRequest :=
  match body with
  | .error msg => .error msg
  | .ok r => validate r [(decide (r.Name = ""), fieldError "CreateClientRequest" "Name" "required")]

/-- `ClientHandler.CreateClient`. -/
def CreateClient (s : Store) (env : Env) (body : Except String CreateClientRequest) :
    Store × Response :=
  match bindCreateClientRequest body with
  | .error msg => (s, errorJSONWith StatusBadRequest "Invalid request" msg)
  | .ok req =>
    let client : Client :=
      { toModel := Model.zero, Name := req.Name, Industry := req.Industry,
        ContactName := req.ContactName, ContactEmail := req.ContactEmail }
    match dbCreate env 0 s.clients client with
    | none => (s, errorJSON StatusInternalServerError "Failed to create client")
    | some (t, client) =>
      ({ s with clients := t }, ⟨StatusCreated, .client (convertToClientResponse client [] [])⟩)

/-- `UserHandler.GetProjectUsers`: the users of the project are loaded with
their clients.  The call
`Preload("Users").Preload("Users.Client").First(&project, projectID)` also
returns an error when a user selected by the preload cannot be read. -/
def GetProjectUsers (s : Store) (id : String) : Store × Response :=
  match ParseUint id 32 with
  | none => (s, errorJSON StatusBadRequest "Invalid project ID")
  | some projectID =>
    match s.projects.first projectID with
    | none => (s, errorJSON StatusNotFound "Project not found")
    | some project =>
      match scanRows (preloadProjectUsers s project.ID) with
      | none => (s, errorJSON StatusNotFound "Project not found")
      | some users =>
        (s, ⟨StatusOK, .users (users.map (fun user =>
          convertToUserResponse user (preloadClient s user.ClientID) []))⟩)

/-- `ProjectHandler.GetUserProjects`.  The call
`Preload("Projects").First(&user, userID)` also returns an error when a
project selected by the preload cannot be read. -/
def GetUserProjects (s : Store) (id : String) : Store × Response :=
  match ParseUint id 32 with
  | none => (s, errorJSON StatusBadRequest "Invalid user ID")
  | some userID =>
    match s.users.first userID with
    | none => (s, errorJSON StatusNotFound "User not found")
    | some user =>
      match scanRows (preloadUserProjects s user.ID) with
      | none => (s, errorJSON StatusNotFound "User not found")
      | some projects =>
        (s, ⟨StatusOK, .projects (projects.map (fun project =>
          convertToProjectResponse project none []))⟩)

/-- `ProjectHandler.GetClientProjects`. -/
def GetClientProjects (s : Store) (env : Env) (id : String) : Store × Response :=
  match ParseUint id 32 with
  | none => (s, errorJSON StatusBadRequest "Invalid client ID")
  | some clientID =>
    match dbFind env 0 (s.projects.find.filter (fun p => decide (p.ClientID = some clientID))) with
    | none => (s, errorJSON StatusInternalServerError "Failed to fetch client projects")
    | some projects =>
      (s, ⟨StatusOK, .projects
        (projects.map (fun project => convertToProjectResponse project none []))⟩)

/-- `UserHandler.GetClientUsers`. -/
def GetClientUsers (s : Store) (env : Env) (id : String) : Store × Response :=
  match ParseUint id 32 with
  | none => (s, errorJSON StatusBadRequest "Invalid client ID")
  | some clientID =>
    match dbFind env 0 (s.users.find.filter (fun u => decide (u.ClientID = some clientID))) with
    | none => (s, errorJSON StatusInternalServerError "Failed to fetch client users")
    | some users =>
      (s, ⟨StatusOK, .users (users.map (fun user => convertToUserResponse user none []))⟩)

/-- `RequirementHandler.GetProjectRequirements`. -/
def GetProjectRequirements (s : Store) (env : Env) (id : String) : Store × Response :=
  match ParseUint id 32 with
  | none => (s, errorJSON StatusBadRequest "Invalid project ID")
  | some projectID =>
    match dbFind env 0
        (s.requirements.find.filter (fun r => decide (r.ProjectID = projectID))) with
    | none => (s, errorJSON StatusInternalServerError "Failed to fetch project requirements")
    | some requirements =>
      (s, ⟨StatusOK, .requirements (requirements.map (fun requirement =>
        convertToRequirementResponse requirement (preloadAuditTasks s requirement.ID)))⟩)

/-- `AuditTaskHandler.GetRequirementAuditTasks`. -/
def GetRequirementAuditTasks (s : Store) (env : Env) (id : String) : Store × Response :=
  match ParseUint id 32 with
  | none => (s, errorJSON StatusBadRequest "Invalid requirement ID")
  | some requirementID =>
    match dbFind env 0
        (s.auditTasks.find.filter (fun t => decide (t.RequirementID = requirementID))) with
    | none => (s, errorJSON StatusInternalServerError "Failed to fetch requirement audit tasks")
    | some tasks =>
      (s, ⟨StatusOK, .auditTasks
        (tasks.map (fun task => convertToAuditTaskResponse task (preloadIssue s task.ID)))⟩)

/-- Rows of the query of `GetAuditTaskIssues`: the visible issues whose
`audit_task_id` is the given id. -/
def issuesOfTask (s : Store) (auditTaskID : Nat) : List Issue :=
  s.issues.find.filter (fun i => decide (i.AuditTaskID = auditTaskID))

/-- `IssueHandler.GetAuditTaskIssues`. -/
def GetAuditTaskIssues (s : Store) (env : Env) (id : String) : Store × Response :=
  match ParseUint id 32 with
  | none => (s, errorJSON StatusBadRequest "Invalid audit task ID")
  | some auditTaskID =>
    match dbFind env 0 (issuesOfTask s auditTaskID) with
    | none => (s, errorJSON StatusInternalServerError "Failed to fetch audit task issues")
    | some issues =>
      (s, ⟨StatusOK, .issues (issues.map (fun issue => convertToIssueResponse issue))⟩)

/-- `IssueHandler.GetProjectIssues`: the visible issues joined with the rows of
`audit_tasks` and of `requirements`, one result per matching pair of joined
rows.  The joins are written by hand in the source and do not filter the
joined tables on their deletion mark. -/
def GetProjectIssues (s : Store) (env : Env) (id : String) : Store × Response :=
  match ParseUint id 32 with
  | none => (s, errorJSON StatusBadRequest "Invalid project ID")
  | some projectID =>
    let selected := s.issues.find.flatMap (fun issue =>
      (s.auditTasks.rows.filter (fun t => decide (t.ID = issue.AuditTaskID))).flatMap (fun t =>
        (s.requirements.rows.filter (fun r =>
          decide (r.ID = t.RequirementID) && decide (r.ProjectID = projectID))).map
          (fun _ => issue)))
    match dbFind env 0 selected with
    | none => (s, errorJSON StatusInternalServerError "Failed to fetch project issues")
    | some issues =>
      (s, ⟨StatusOK, .issues (issues.map (fun issue => convertToIssueResponse issue))⟩)

/-- Request type declared inside `Login`. -/
structure LoginRequest where
  Email : String
  Password : String
deriving DecidableEq, Repr

/-- `c.ShouldBindJSON(&req)` for `LoginRequest`: `email` is `required,email`
and `password` is `required`. -/
def bindLoginRequest (isEmail : String → Bool) (body : Except String LoginRequest) :
    Except String LoginRequest :=
  match body with
  | .error msg => .error msg
  | .ok r => validate r
      [(decide (r.Email = ""), fieldError "LoginRequest" "Email" "required"),
       (decide (r.Email ≠ "") && !isEmail r.Email, fieldError "LoginRequest" "Email" "email"),
       (decide (r.Password = ""), fieldError "LoginRequest" "Password" "required")]

/-- `h.db.Where("email = ?", email).First(&user)`: the first visible user with
that email, when there is one and its row can be read. -/
def firstUserByEmail (s : Store) (email : String) : Option User :=
  match s.users.find.find? (fun u => decide (u.Email = email)) with
  | some u => if Entity.scans u then some u else none
  | none => none

/-- `UserHandler.Login`.  `CheckPasswordHash` is `auth.CheckPasswordHash`, of
the package `internal/auth`; it receives the password of the request and the
stored hash. -/
def Login (isEmail : String → Bool) (CheckPasswordHash : String → String → Bool) (s : Store)
    (body : Except String LoginRequest) : Store × Response :=
  match bindLoginRequest isEmail body with
  | .error msg => (s, errorJSONWith StatusBadRequest "Invalid request" msg)
  | .ok req =>
    match firstUserByEmail s req.Email with
    | none => (s, errorJSON StatusUnauthorized "Invalid credentials")
    | some user =>
      if !CheckPasswordHash req.Password user.Password then
        (s, errorJSON StatusUnauthorized "Invalid credentials")
      else
        (s, ⟨StatusOK, .login ("mock-token-" ++ toString user.ID)
          (convertToUserResponse user none [])⟩)

/-- The documentation endpoint registered in `SetupRoutes`. -/
def apiInfo (s : Store) : Store × Response :=
  (s, ⟨200, .info "Tessellate Projects API v1"
    [("projects", "/api/v1/projects"), ("users", "/api/v1/users"),
      ("clients", "/api/v1/clients"), ("requirements", "/api/v1/requirements"),
      ("audit-tasks", "/api/v1/audit-tasks"), ("issues", "/api/v1/issues"),
      ("uploads", "/api/v1/uploads"), ("auth", "/api/v1/auth")]⟩)

/-! ## Boot-time seeding (`internal/db/db.go`) -/

/-- Store with no row in any table. -/
def emptyStore : Store :=
  ⟨⟨[], 0⟩, ⟨[], 0⟩, ⟨[], 0⟩, ⟨[], 0⟩, ⟨[], 0⟩, ⟨[], 0⟩, []⟩

/-- One seeding step of `InitDB`: when the count of visible rows of the table
is zero the sample row is created, as the k-th write; the result of `Create`
is not checked.  Returns the table and the index of the next write. -/
def seedIfEmpty {α : Type} [Entity α] (env : Env) (k : Nat) (t : Table α) (x : α) :
    Table α × Nat :=
  if t.find.length = 0 then
    match dbCreate env k t x with
    | some (t1, _) => (t1, k + 1)
    | none => (t, k + 1)
  else (t, k)

/-- The seeding part of `InitDB`, run on the store found at boot.  The sample
project has no `Status`, so the column default NEW of the tag on
`Project.Status` is what is stored.  The sample requirement, audit task and
issue are built without `ProjectID`, `RequirementID` and `AuditTaskID`, which
therefore have the zero value. -/
def InitDB (s : Store) (env : Env) : Store :=
  let (users, k) := seedIfEmpty env 0 s.users
    { toModel := Model.zero, Name := "Alice", Email := "alice@example.com", Password := "",
      Role := "CONSULTANT", ClientID := none }
  let (projects, k) := seedIfEmpty env k s.projects
    { toModel := Model.zero, Name := "Demo Project", ClientName := "Demo Client",
      Status := "NEW", ClientID := none }
  let (clients, k) := seedIfEmpty env k s.clients
    { toModel := Model.zero, Name := "Demo Client Org", Industry := none, ContactName := none,
      ContactEmail := none }
  let (requirements, k) := seedIfEmpty env k s.requirements
    { toModel := Model.zero, ProjectID := 0, Text := "Must support single sign-on",
      Category := some "Authentication", Status := "DRAFT" }
  let (auditTasks, k) := seedIfEmpty env k s.auditTasks
    { toModel := Model.zero, RequirementID := 0, Text := "Check login audit",
      Status := "PENDING", Notes := some "Review all login-related requirements" }
  let (issues, _) := seedIfEmpty env k s.issues
    { toModel := Model.zero, AuditTaskID := 0, Title := "Login fails on Safari",
      Description := some "Users report login page broken in Safari", Priority := none,
      Phase := none, EstimateHrs := none, Status := "", IssueType := "" }
  { clients := clients, users := users, projects := projects, requirements := requirements,
    auditTasks := auditTasks, issues := issues, projectUsers := s.projectUsers }

/-! ## Routes (`internal/api/routes.go`) -/

/-- One request to a route registered in `SetupRoutes`, with the inputs of
its handler. -/
inductive Request where
  | GetProjects (env : Env) (status : String)
  | CreateProject (env : Env) (body : Except String CreateProjectRequest)
  | GetProject (id : String)
  | UpdateProject (env : Env) (id : String) (body : Except String UpdateProjectRequest)
  | DeleteProject (env : Env) (id : String)
  | ArchiveProject (env : Env) (id : String)
  | GetProjectRequirements (env : Env) (id : String)
  | CreateRequirement (env : Env) (id : String) (body : Except String CreateRequirementRequest)
  | GetProjectUsers (id : String)
  | AssignUserToProject (env : Env) (id userId : String)
  | RemoveUserFromProject (env : Env) (id userId : String)
  | GetProjectIssues (env : Env) (id : String)
  | GetUsers (env : Env)
  | CreateUser (env : Env) (body : Except String CreateUserRequest)
  | GetUser (id : String)
  | UpdateUser (env : Env) (id : String) (body : Except String UpdateUserRequest)
  | DeleteUser (env : Env) (id : String)
  | GetUserProjects (id : String)
  | GetClients (env : Env)
  | CreateClient (env : Env) (body : Except String CreateClientRequest)
  | GetClient (id : String)
  | UpdateClient (env : Env) (id : String) (body : Except String UpdateClientRequest)
  | DeleteClient (env : Env) (id : String)
  | GetClientUsers (env : Env) (id : String)
  | GetClientProjects (env : Env) (id : String)
  | GetRequirements (env : Env) (projectID : String)
  | GetRequirement (id : String)
  | UpdateRequirement (env : Env) (id : String) (body : Except String UpdateRequirementRequest)
  | DeleteRequirement (env : Env) (id : String)
  | GetRequirementAuditTasks (env : Env) (id : String)
  | CreateAuditTask (env : Env) (id : String) (body : Except String CreateAuditTaskRequest)
  | GetAuditTasks (env : Env) (requirementID : String)
  | GetAuditTask (id : String)
  | UpdateAuditTask (env : Env) (id : String) (body : Except String UpdateAuditTaskRequest)
  | DeleteAuditTask (env : Env) (id : String)
  | GetAuditTaskIssues (env : Env) (id : String)
  | CreateIssue (env : Env) (id : String) (body : Except String CreateIssueRequest)
  | GetIssues (env : Env) (auditTaskID : String)
  | GetIssue (id : String)
  | UpdateIssue (env : Env) (id : String) (body : Except String UpdateIssueRequest)
  | DeleteIssue (env : Env) (id : String)
  | UploadRequirementsCSV (env : Env) (projectId : String) (file : Option (List ReadResult))
  | Login (body : Except String LoginRequest)
  | apiInfo

/-- The route table of `SetupRoutes`: the handler each request is given to. -/
def SetupRoutes (isEmail : String → Bool) (CheckPasswordHash : String → String → Bool)
    (colEq : Nat → String → Bool) (s : Store) : Request → Store × Response
  | .GetProjects env status => GetProjects s env status
  | .CreateProject env body => CreateProject s env body
  | .GetProject id => GetProject s id
  | .UpdateProject env id body => UpdateProject s env id body
  | .DeleteProject env id => DeleteProject s env id
  | .ArchiveProject env id => ArchiveProject s env id
  | .GetProjectRequirements env id => GetProjectRequirements s env id
  | .CreateRequirement env id body => CreateRequirement s env id body
  | .GetProjectUsers id => GetProjectUsers s id
  | .AssignUserToProject env id userId => AssignUserToProject s env id userId
  | .RemoveUserFromProject env id userId => RemoveUserFromProject s env id userId
  | .GetProjectIssues env id => GetProjectIssues s env id
  | .GetUsers env => GetUsers s env
  | .CreateUser env body => CreateUser isEmail s env body
  | .GetUser id => GetUser s id
  | .UpdateUser env id body => UpdateUser s env id body
  | .DeleteUser env id => DeleteUser s env id
  | .GetUserProjects id => GetUserProjects s id
  | .GetClients env => GetClients s env
  | .CreateClient env body => CreateClient s env body
  | .GetClient id => GetClient s id
  | .UpdateClient env id body => UpdateClient s env id body
  | .DeleteClient env id => DeleteClient s env id
  | .GetClientUsers env id => GetClientUsers s env id
  | .GetClientProjects env id => GetClientProjects s env id
  | .GetRequirements env projectID => GetRequirements colEq s env projectID
  | .GetRequirement id => GetRequirement s id
  | .UpdateRequirement env id body => UpdateRequirement s env id body
  | .DeleteRequirement env id => DeleteRequirement s env id
  | .GetRequirementAuditTasks env id => GetRequirementAuditTasks s env id
  | .CreateAuditTask env id body => CreateAuditTask s env id body
  | .GetAuditTasks env requirementID => GetAuditTasks colEq s env requirementID
  | .GetAuditTask id => GetAuditTask s id
  | .UpdateAuditTask env id body => UpdateAuditTask s env id body
  | .DeleteAuditTask env id => DeleteAuditTask s env id
  | .GetAuditTaskIssues env id => GetAuditTaskIssues s env id
  | .CreateIssue env id body => CreateIssue s env id body
  | .GetIssues env auditTaskID => GetIssues colEq s env auditTaskID
  | .GetIssue id => GetIssue s id
  | .UpdateIssue env id body => UpdateIssue s env id body
  | .DeleteIssue env id => DeleteIssue s env id
  | .UploadRequirementsCSV env projectId file => UploadRequirementsCSV s env projectId file
  | .Login body => Login isEmail CheckPasswordHash s body
  | .apiInfo => apiInfo s

/-- Shape of an answer: an error body has a code equal to the status it is
sent with, which is one of 400, 401, 404 and 500; any other body is sent with
200 or 201. -/
def Response.shaped (r : Response) : Prop :=
  match r.body with
  | .error e =>
    e.Code = r.status ∧ (r.status = 400 ∨ r.status = 401 ∨ r.status = 404 ∨ r.status = 500)
  | _ => r.status = 200 ∨ r.status = 201

/-! ## Facts about the store calls -/

theorem live_iff {α : Type} [Entity α] (id : Nat) (r : α) :
    live id r = true ↔ (Entity.model r).ID = id ∧ (Entity.model r).DeletedAt = none := by
  simp [live, Option.isNone_iff_eq_none]

theorem scansUint_iff (o : Option Nat) :
    scansUint o = true ↔ ∀ c, o = some c → c < 2 ^ 63 := by
  cases o with
  | none => simp [scansUint]
  | some v =>
    simp only [scansUint, decide_eq_true_eq, Option.some.injEq, forall_eq']
    unfold scanUint int64
    constructor
    · intro h
      by_contra hv
      split at h
      · split at h
        · simp only [Option.some.injEq, Int.toNat_ofNat] at h
          omega
        · simp at h
      · split at h
        · simp only [Option.some.injEq] at h
          omega
        · simp at h
    · intro h
      have h1 : v % 2 ^ 64 = v := Nat.mod_eq_of_lt (by omega)
      rw [h1, if_pos h, if_pos (Int.ofNat_nonneg v)]
      simp

theorem scans_touch {α : Type} [Entity α] (now : Nat) (x : α) :
    Entity.scans (touch now x) = Entity.scans x := by
  simp [touch, Entity.scans_withModel]

theorem scans_markDeleted {α : Type} [Entity α] (now : Nat) (x : α) :
    Entity.scans (markDeleted now x) = Entity.scans x := by
  simp [markDeleted, Entity.scans_withModel]

/-- `First` returns a record exactly when the key selects a row and that row
can be read. -/
theorem first_some_iff {α : Type} [Entity α] {t : Table α} {id : Nat} {r : α} :
    t.first id = some r ↔ t.row id = some r ∧ Entity.scans r = true := by
  unfold Table.first
  cases h : t.row id with
  | none => simp
  | some a =>
    by_cases hs : Entity.scans a = true
    · simp only [hs, if_true, Option.some.injEq]
      constructor
      · rintro rfl
        exact ⟨rfl, hs⟩
      · rintro ⟨rfl, -⟩
        rfl
    · simp only [hs, if_false]
      constructor
      · intro h
        cases h
      · rintro ⟨h1, h2⟩
        cases h1
        exact absurd h2 hs

theorem first_congr {α : Type} [Entity α] {t t1 : Table α} {id : Nat}
    (h : t1.row id = t.row id) : t1.first id = t.first id := by
  unfold Table.first
  rw [h]

theorem first_eq_none_iff {α : Type} [Entity α] (t : Table α) (id : Nat) :
    t.first id = none ↔ ¬ t.has id := by
  unfold Table.has
  cases t.first id <;> simp

theorem has_iff_first {α : Type} [Entity α] (t : Table α) (id : Nat) :
    t.has id ↔ ∃ r, t.first id = some r := by
  unfold Table.has
  cases t.first id <;> simp

theorem row_eq_none_iff {α : Type} [Entity α] (t : Table α) (id : Nat) :
    t.row id = none ↔ ¬ t.stored id := by
  unfold Table.row Table.stored
  rw [List.find?_eq_none]
  constructor
  · rintro h ⟨r, hr, hl⟩
    exact h r hr ((live_iff id r).2 hl)
  · intro h r hr hl
    exact h ⟨r, hr, (live_iff id r).1 hl⟩

theorem stored_iff_row {α : Type} [Entity α] (t : Table α) (id : Nat) :
    t.stored id ↔ ∃ r, t.row id = some r := by
  rw [← not_iff_not, ← row_eq_none_iff]
  cases t.row id <;> simp

/-- A record that `First` finds is a stored row. -/
theorem stored_of_has {α : Type} [Entity α] {t : Table α} {id : Nat} (h : t.has id) :
    t.stored id := by
  obtain ⟨r, hr⟩ := (has_iff_first t id).1 h
  exact (stored_iff_row t id).2 ⟨r, (first_some_iff.1 hr).1⟩

theorem row_some_live {α : Type} [Entity α] {t : Table α} {id : Nat} {r : α}
    (h : t.row id = some r) :
    (Entity.model r).ID = id ∧ (Entity.model r).DeletedAt = none :=
  (live_iff id r).1 (List.find?_some h)

theorem first_some_live {α : Type} [Entity α] {t : Table α} {id : Nat} {r : α}
    (h : t.first id = some r) :
    (Entity.model r).ID = id ∧ (Entity.model r).DeletedAt = none :=
  row_some_live (first_some_iff.1 h).1

theorem first_some_scans {α : Type} [Entity α] {t : Table α} {id : Nat} {r : α}
    (h : t.first id = some r) : Entity.scans r = true :=
  (first_some_iff.1 h).2

theorem model_touch {α : Type} [Entity α] (now : Nat) (x : α) :
    Entity.model (touch now x) = { Entity.model x with UpdatedAt := now } := by
  simp [touch, Entity.model_withModel]

theorem live_touch {α : Type} [Entity α] (id now : Nat) (x : α) :
    live id (touch now x) = live id x := by
  simp [live, model_touch]

/-- Looking up a key commutes with a row-wise rewrite that keeps the
visibility of every row under that key. -/
theorem find_map_of_live {α : Type} [Entity α] (id : Nat) (f : α → α)
    (hf : ∀ r, live id (f r) = live id r) (l : List α) :
    (l.map f).find? (live id) = (l.find? (live id)).map f := by
  induction l with
  | nil => rfl
  | cons a l ih =>
    simp only [List.map_cons, List.find?_cons, hf a]
    cases live id a <;> simp [ih]

/-- After `Save` the row under the key of the saved value is the saved value
with its refreshed update time. -/
theorem row_save {α : Type} [Entity α] (t : Table α) (now id : Nat) (old x : α)
    (hold : t.row id = some old) (hx : (Entity.model x).ID = id)
    (hd : (Entity.model x).DeletedAt = none) :
    (t.save now x).row id = some (touch now x) := by
  have hlx : live id (touch now x) = true := by
    rw [live_touch]; exact (live_iff id x).2 ⟨hx, hd⟩
  unfold Table.row Table.save
  simp only
  rw [hx, find_map_of_live id]
  · unfold Table.row at hold
    rw [hold]
    have := List.find?_some hold
    simp [this]
  · intro r
    by_cases h : live id r = true
    · simp [h, hlx]
    · simp [h]

/-- After `Save` of a value that can be read back, the record read under its
key is the saved value with its refreshed update time. -/
theorem first_save {α : Type} [Entity α] (t : Table α) (now id : Nat) (old x : α)
    (hold : t.first id = some old) (hx : (Entity.model x).ID = id)
    (hd : (Entity.model x).DeletedAt = none) (hs : Entity.scans x = true) :
    (t.save now x).first id = some (touch now x) :=
  first_some_iff.2 ⟨row_save t now id old x (first_some_iff.1 hold).1 hx hd,
    by rw [scans_touch]; exact hs⟩

/-- After `Save` of a value that cannot be read back, `First` finds nothing
under its key. -/
theorem first_save_unreadable {α : Type} [Entity α] (t : Table α) (now id : Nat) (old x : α)
    (hold : t.row id = some old) (hx : (Entity.model x).ID = id)
    (hd : (Entity.model x).DeletedAt = none) (hs : Entity.scans x = false) :
    (t.save now x).first id = none := by
  unfold Table.first
  rw [row_save t now id old x hold hx hd]
  simp [scans_touch, hs]


theorem scanRows_eq_some_iff {α : Type} [Entity α] {rows l : List α} :
    scanRows rows = some l ↔ (∀ r ∈ rows, Entity.scans r = true) ∧ l = rows := by
  unfold scanRows
  by_cases h : rows.all Entity.scans = true
  · rw [if_pos h]
    simp only [Option.some.injEq]
    rw [List.all_eq_true] at h
    exact ⟨fun e => ⟨h, e.symm⟩, fun e => e.2.symm⟩
  · rw [if_neg h]
    rw [List.all_eq_true] at h
    exact ⟨fun e => (by cases e), fun e => absurd e.1 h⟩

theorem scanRows_eq_none_iff {α : Type} [Entity α] {rows : List α} :
    scanRows rows = none ↔ ∃ r ∈ rows, Entity.scans r = false := by
  simp [scanRows]

theorem dbFind_eq_some_iff {α : Type} [Entity α] {env : Env} {k : Nat} {rows l : List α} :
    dbFind env k rows = some l ↔
      env.dbErr k = false ∧ (∀ r ∈ rows, Entity.scans r = true) ∧ l = rows := by
  unfold dbFind
  cases env.dbErr k with
  | true => simp
  | false => simp [scanRows_eq_some_iff]

theorem dbFind_eq_none_iff {α : Type} [Entity α] {env : Env} {k : Nat} {rows : List α} :
    dbFind env k rows = none ↔ env.dbErr k = true ∨ ∃ r ∈ rows, Entity.scans r = false := by
  unfold dbFind
  cases env.dbErr k with
  | true => simp
  | false => simp [scanRows_eq_none_iff]

/-- The row selected by a key is among the rows a list query sees. -/
theorem mem_find_of_row {α : Type} [Entity α] {t : Table α} {id : Nat} {r : α}
    (h : t.row id = some r) : r ∈ t.find := by
  unfold Table.find
  rw [List.mem_filter]
  refine ⟨List.mem_of_find?_eq_some h, ?_⟩
  rw [(row_some_live h).2]
  rfl

theorem scans_user_iff (u : User) :
    Entity.scans u = true ↔ ∀ c, u.ClientID = some c → c < 2 ^ 63 :=
  scansUint_iff u.ClientID

theorem scans_project_iff (p : Project) :
    Entity.scans p = true ↔ ∀ c, p.ClientID = some c → c < 2 ^ 63 :=
  scansUint_iff p.ClientID

/-- A written `uint` below 2 ^ 63 is what the column holds. -/
theorem int64_eq_of_lt (c : Nat) (h : c < 2 ^ 63) : int64 c = (c : Int) := by
  unfold int64
  have h1 : c % 2 ^ 64 = c := Nat.mod_eq_of_lt (by omega)
  rw [h1, if_pos h]

/-- A written `uint` with bit 63 set, or beyond 64 bits, is not what the
column holds as a signed number. -/
theorem int64_ne_of_le (c : Nat) (h : 2 ^ 63 ≤ c) : int64 c ≠ (c : Int) := by
  unfold int64
  split <;> omega


/-! ## Parent checks of the child-creation handlers -/

/-- C1. For every store, every well-formed id and every request body that
passes binding: when no record with that id exists in the parent table,
`CreateRequirement`, `CreateAuditTask` and `CreateIssue` answer 404 with a
NotFound error and return the store unchanged, so that no child row is
written. -/
theorem create_child_of_missing_parent (s : Store) (env : Env) (id : String) (pid : Nat)
    (hid : ParseUint id 32 = some pid) :
    (∀ body req, bindCreateRequirementRequest body = .ok req → ¬ s.projects.has pid →
      CreateRequirement s env id body = (s, ⟨404, .error ⟨"Project not found", "", 404⟩⟩)) ∧
    (∀ body req, bindCreateAuditTaskRequest body = .ok req → ¬ s.requirements.has pid →
      CreateAuditTask s env id body =
        (s, ⟨404, .error ⟨"Requirement not found", "", 404⟩⟩)) ∧
    (∀ body req, bindCreateIssueRequest body = .ok req → ¬ s.auditTasks.has pid →
      CreateIssue s env id body = (s, ⟨404, .error ⟨"Audit task not found", "", 404⟩⟩)) := by
  refine ⟨?_, ?_, ?_⟩
  · intro body req hb hno
    have hf := (first_eq_none_iff s.projects pid).2 hno
    simp [CreateRequirement, hid, hb, hf, errorJSON, StatusNotFound]
  · intro body req hb hno
    have hf := (first_eq_none_iff s.requirements pid).2 hno
    simp [CreateAuditTask, hid, hb, hf, errorJSON, StatusNotFound]
  · intro body req hb hno
    have hf := (first_eq_none_iff s.auditTasks pid).2 hno
    simp [CreateIssue, hid, hb, hf, errorJSON, StatusNotFound]

/-- Instance of C1: in the sample store no project, requirement or audit task
has id 9, and the three creations under id 9 answer 404 and leave the store as
it is. -/
theorem create_child_of_missing_parent_witness :
    CreateRequirement demoStore demoEnv "9" (.ok ⟨9, "Encrypt data", none, none⟩) =
      (demoStore, ⟨404, .error ⟨"Project not found", "", 404⟩⟩) ∧
    CreateAuditTask demoStore demoEnv "9" (.ok ⟨"Check logs", none, none⟩) =
      (demoStore, ⟨404, .error ⟨"Requirement not found", "", 404⟩⟩) ∧
    CreateIssue demoStore demoEnv "9" (.ok ⟨"Crash", none, none, none, none, none, none⟩) =
      (demoStore, ⟨404, .error ⟨"Audit task not found", "", 404⟩⟩) :=
  ⟨(create_child_of_missing_parent demoStore demoEnv "9" 9 (by decide)).1
      (.ok ⟨9, "Encrypt data", none, none⟩) ⟨9, "Encrypt data", none, none⟩ rfl (by decide),
    (create_child_of_missing_parent demoStore demoEnv "9" 9 (by decide)).2.1
      (.ok ⟨"Check logs", none, none⟩) ⟨"Check logs", none, none⟩ rfl (by decide),
    (create_child_of_missing_parent demoStore demoEnv "9" 9 (by decide)).2.2
      (.ok ⟨"Crash", none, none, none, none, none, none⟩)
      ⟨"Crash", none, none, none, none, none, none⟩ rfl (by decide)⟩


/-! ## The many2many relation between projects and users -/

theorem mem_linked (rows : List (Nat × Nat)) (pid uid : Nat) :
    (pid, uid) ∈ linked rows pid uid := by
  unfold linked
  split <;> simp_all

theorem linked_linked (rows : List (Nat × Nat)) (pid uid : Nat) :
    linked (linked rows pid uid) pid uid = linked rows pid uid := by
  have key : ∀ l : List (Nat × Nat), (pid, uid) ∈ l → linked l pid uid = l := by
    intro l hl
    simp [linked, hl]
  exact key _ (mem_linked rows pid uid)

theorem linkCount_of_not_mem (rows : List (Nat × Nat)) (pid uid : Nat)
    (h : (pid, uid) ∉ rows) : linkCount rows pid uid = 0 := by
  unfold linkCount
  rw [List.length_eq_zero, List.filter_eq_nil_iff]
  intro a ha hd
  exact h (of_decide_eq_true hd ▸ ha)

theorem linkCount_of_mem (rows : List (Nat × Nat)) (pid uid : Nat) (hkey : rows.Nodup)
    (h : (pid, uid) ∈ rows) : linkCount rows pid uid = 1 := by
  induction rows with
  | nil => simp at h
  | cons a l ih =>
    rw [List.nodup_cons] at hkey
    by_cases ha : a = (pid, uid)
    · subst ha
      have h0 := linkCount_of_not_mem l pid uid hkey.1
      unfold linkCount at h0 ⊢
      simp [List.filter_cons, h0]
    · have hl : (pid, uid) ∈ l := by
        rcases List.mem_cons.1 h with h | h
        · exact absurd h.symm ha
        · exact h
      have := ih hkey.2 hl
      unfold linkCount at this ⊢
      simp [List.filter_cons, ha, this]

theorem count_linked (rows : List (Nat × Nat)) (pid uid : Nat) (hkey : rows.Nodup) :
    linkCount (linked rows pid uid) pid uid = 1 := by
  unfold linked
  split
  · next h => exact linkCount_of_mem rows pid uid hkey h
  · next h =>
    have h0 := linkCount_of_not_mem rows pid uid h
    unfold linkCount at h0 ⊢
    simp [List.filter_append, h0]

/-- Refreshing the update time of the rows under a key keeps the record under
that key, with the new update time. -/
theorem row_touched {α : Type} [Entity α] (t : Table α) (id now : Nat) :
    (⟨t.rows.map (fun r => if live id r then touch now r else r), t.seq⟩ : Table α).row id
      = (t.row id).map (touch now) := by
  unfold Table.row
  simp only
  rw [find_map_of_live id]
  · cases h : List.find? (live id) t.rows with
    | none => rfl
    | some r => simp [List.find?_some h]
  · intro r
    by_cases h : live id r = true
    · simp [h, live_touch]
    · simp [h]

theorem first_touched {α : Type} [Entity α] (t : Table α) (id now : Nat) :
    (⟨t.rows.map (fun r => if live id r then touch now r else r), t.seq⟩ : Table α).first id
      = (t.first id).map (touch now) := by
  unfold Table.first
  rw [row_touched]
  cases t.row id with
  | none => rfl
  | some r =>
    simp only [Option.map_some', scans_touch]
    cases Entity.scans r <;> simp

/-- What `AssignUserToProject` does when both records exist and the engine
does not fail: it answers 200 and the join table gains the pair unless it is
there already; the user table is untouched and the project is still there. -/
theorem assign_ok (s : Store) (env : Env) (id userId : String) (pid uid : Nat)
    (hid : ParseUint id 32 = some pid) (huid : ParseUint userId 32 = some uid)
    (hp : s.projects.has pid) (hu : s.users.has uid) (he : env.dbErr 0 = false) :
    (AssignUserToProject s env id userId).2.status = 200 ∧
    (AssignUserToProject s env id userId).1.projectUsers = linked s.projectUsers pid uid ∧
    (AssignUserToProject s env id userId).1.users = s.users ∧
    (AssignUserToProject s env id userId).1.projects.has pid := by
  obtain ⟨project, hproject⟩ := (has_iff_first _ _).1 hp
  obtain ⟨user, huser⟩ := (has_iff_first _ _).1 hu
  have hpl := first_some_live hproject
  have hul := first_some_live huser
  simp only [Entity.model] at hpl hul
  have hft := first_touched s.projects pid (env.now 0)
  refine ⟨?_, ?_, ?_, ?_⟩
  · simp [AssignUserToProject, hid, huid, hproject, huser, associationAppend, he, StatusOK]
  · simp [AssignUserToProject, hid, huid, hproject, huser, associationAppend, he, linked,
      hpl.1, hul.1]
  · simp [AssignUserToProject, hid, huid, hproject, huser, associationAppend, he]
  · rw [has_iff_first]
    simp [AssignUserToProject, hid, huid, hproject, huser, associationAppend, he, hpl.1, hft]

/-- C2. `AssignUserToProject` is idempotent.  In a store that holds project
`pid` and user `uid` and whose join table respects its primary key, when the
engine does not fail the writes, assigning twice answers 200 both times, the
second call leaves the join table as the first call left it, and that table
holds exactly one row for the pair. -/
theorem assign_idempotent (s : Store) (env1 env2 : Env) (id userId : String) (pid uid : Nat)
    (hid : ParseUint id 32 = some pid) (huid : ParseUint userId 32 = some uid)
    (hp : s.projects.has pid) (hu : s.users.has uid) (hkey : s.projectUsers.Nodup)
    (h1 : env1.dbErr 0 = false) (h2 : env2.dbErr 0 = false) :
    (AssignUserToProject s env1 id userId).2.status = 200 ∧
    (AssignUserToProject (AssignUserToProject s env1 id userId).1 env2 id userId).2.status
      = 200 ∧
    (AssignUserToProject (AssignUserToProject s env1 id userId).1 env2 id userId).1.projectUsers
      = (AssignUserToProject s env1 id userId).1.projectUsers ∧
    linkCount (AssignUserToProject s env1 id userId).1.projectUsers pid uid = 1 ∧
    linkCount (AssignUserToProject (AssignUserToProject s env1 id userId).1 env2 id
      userId).1.projectUsers pid uid = 1 := by
  obtain ⟨hs1, hl1, hu1, hp1⟩ := assign_ok s env1 id userId pid uid hid huid hp hu h1
  obtain ⟨hs2, hl2, -, -⟩ := assign_ok (AssignUserToProject s env1 id userId).1 env2 id userId
    pid uid hid huid hp1 (by rw [hu1]; exact hu) h2
  refine ⟨hs1, hs2, ?_, ?_, ?_⟩
  · rw [hl2, hl1, linked_linked]
  · rw [hl1]; exact count_linked _ _ _ hkey
  · rw [hl2, hl1, linked_linked]; exact count_linked _ _ _ hkey

/-- Instance of C2 on the sample store: user 1 is assigned twice to project 1. -/
theorem assign_idempotent_witness :
    (AssignUserToProject demoStore demoEnv "1" "1").2.status = 200 ∧
    (AssignUserToProject (AssignUserToProject demoStore demoEnv "1" "1").1 demoEnv "1"
      "1").2.status = 200 ∧
    (AssignUserToProject (AssignUserToProject demoStore demoEnv "1" "1").1 demoEnv "1"
      "1").1.projectUsers = (AssignUserToProject demoStore demoEnv "1" "1").1.projectUsers ∧
    linkCount (AssignUserToProject demoStore demoEnv "1" "1").1.projectUsers 1 1 = 1 ∧
    linkCount (AssignUserToProject (AssignUserToProject demoStore demoEnv "1" "1").1 demoEnv
      "1" "1").1.projectUsers 1 1 = 1 :=
  assign_idempotent demoStore demoEnv demoEnv "1" "1" 1 1 (by decide) (by decide) (by decide)
    (by decide) (by decide) rfl rfl


theorem unlinked_of_not_mem (rows : List (Nat × Nat)) (pid uid : Nat)
    (h : (pid, uid) ∉ rows) : unlinked rows pid uid = rows := by
  unfold unlinked
  rw [List.filter_eq_self]
  intro a ha
  have : a ≠ (pid, uid) := fun e => h (e ▸ ha)
  simp [this]

/-- C3. In a store that holds project `pid` and user `uid` but no join row
for the pair, when the engine does not fail the write,
`RemoveUserFromProject` answers 200 with its acknowledgement and returns the
store, and with it the join table, unchanged. -/
theorem remove_of_missing_link (s : Store) (env : Env) (id userId : String) (pid uid : Nat)
    (hid : ParseUint id 32 = some pid) (huid : ParseUint userId 32 = some uid)
    (hp : s.projects.has pid) (hu : s.users.has uid) (hno : (pid, uid) ∉ s.projectUsers)
    (he : env.dbErr 0 = false) :
    RemoveUserFromProject s env id userId =
      (s, ⟨200, .message "User removed from project successfully"⟩) := by
  obtain ⟨project, hproject⟩ := (has_iff_first _ _).1 hp
  obtain ⟨user, huser⟩ := (has_iff_first _ _).1 hu
  have hpl := first_some_live hproject
  have hul := first_some_live huser
  simp only [Entity.model] at hpl hul
  simp [RemoveUserFromProject, hid, huid, hproject, huser, associationDelete, he, hpl.1, hul.1,
    unlinked_of_not_mem _ _ _ hno, StatusOK]

/-- Instance of C3: in the sample store user 1 is not assigned to project 1,
and removing the assignment answers 200 and changes nothing. -/
theorem remove_of_missing_link_witness :
    RemoveUserFromProject demoStore demoEnv "1" "1" =
      (demoStore, ⟨200, .message "User removed from project successfully"⟩) :=
  remove_of_missing_link demoStore demoEnv "1" "1" 1 1 (by decide) (by decide) (by decide)
    (by decide) (by decide) rfl

/-- C4. `AssignUserToProject` and `RemoveUserFromProject` need both records.
For well-formed ids: when the project does not exist both answer 404
"Project not found", whether or not the user exists, and when the project
exists but the user does not both answer 404 "User not found".  In each case
the store, and with it the join table, is returned unchanged. -/
theorem assign_remove_need_both (s : Store) (env : Env) (id userId : String) (pid uid : Nat)
    (hid : ParseUint id 32 = some pid) (huid : ParseUint userId 32 = some uid) :
    (¬ s.projects.has pid →
      AssignUserToProject s env id userId =
        (s, ⟨404, .error ⟨"Project not found", "", 404⟩⟩) ∧
      RemoveUserFromProject s env id userId =
        (s, ⟨404, .error ⟨"Project not found", "", 404⟩⟩)) ∧
    (s.projects.has pid → ¬ s.users.has uid →
      AssignUserToProject s env id userId = (s, ⟨404, .error ⟨"User not found", "", 404⟩⟩) ∧
      RemoveUserFromProject s env id userId =
        (s, ⟨404, .error ⟨"User not found", "", 404⟩⟩)) := by
  constructor
  · intro hno
    have hf := (first_eq_none_iff s.projects pid).2 hno
    simp [AssignUserToProject, RemoveUserFromProject, hid, huid, hf, errorJSON, StatusNotFound]
  · intro hp hno
    obtain ⟨project, hproject⟩ := (has_iff_first _ _).1 hp
    have hf := (first_eq_none_iff s.users uid).2 hno
    simp [AssignUserToProject, RemoveUserFromProject, hid, huid, hproject, hf, errorJSON,
      StatusNotFound]

/-- Instance of C4 on the sample store: project 9 does not exist (user 1
does), and project 1 exists while user 9 does not. -/
theorem assign_remove_need_both_witness :
    (AssignUserToProject demoStore demoEnv "9" "1" =
        (demoStore, ⟨404, .error ⟨"Project not found", "", 404⟩⟩) ∧
      RemoveUserFromProject demoStore demoEnv "9" "1" =
        (demoStore, ⟨404, .error ⟨"Project not found", "", 404⟩⟩)) ∧
    (AssignUserToProject demoStore demoEnv "1" "9" =
        (demoStore, ⟨404, .error ⟨"User not found", "", 404⟩⟩) ∧
      RemoveUserFromProject demoStore demoEnv "1" "9" =
        (demoStore, ⟨404, .error ⟨"User not found", "", 404⟩⟩)) :=
  ⟨(assign_remove_need_both demoStore demoEnv "9" "1" 9 1 (by decide) (by decide)).1
      (by decide),
    (assign_remove_need_both demoStore demoEnv "1" "9" 1 9 (by decide) (by decide)).2
      (by decide) (by decide)⟩


/-! ## Updates -/

theorem row_save_same_model {α : Type} [Entity α] (t : Table α) (now id : Nat) (old x : α)
    (hold : t.row id = some old) (hm : Entity.model x = Entity.model old) :
    (t.save now x).row id = some (touch now x) := by
  have hl := row_some_live hold
  exact row_save t now id old x hold (hm ▸ hl.1) (hm ▸ hl.2)

theorem first_save_same_model {α : Type} [Entity α] (t : Table α) (now id : Nat) (old x : α)
    (hold : t.first id = some old) (hm : Entity.model x = Entity.model old)
    (hs : Entity.scans x = true) :
    (t.save now x).first id = some (touch now x) := by
  have hl := first_some_live hold
  exact first_save t now id old x hold (hm ▸ hl.1) (hm ▸ hl.2) hs

theorem applyUpdateClient_eq (old : Client) (req : UpdateClientRequest) :
    applyUpdateClient old req =
      { old with
        Name := req.Name.getD old.Name
        Industry := req.Industry.or old.Industry
        ContactName := req.ContactName.or old.ContactName
        ContactEmail := req.ContactEmail.or old.ContactEmail } := by
  rcases req with ⟨_ | _, _ | _, _ | _, _ | _⟩ <;> rfl

theorem applyUpdateUser_eq (old : User) (req : UpdateUserRequest) :
    applyUpdateUser old req =
      { old with
        Name := req.Name.getD old.Name
        Email := req.Email.getD old.Email
        Role := req.Role.getD old.Role
        ClientID := req.ClientID.or old.ClientID } := by
  rcases req with ⟨_ | _, _ | _, _ | _, _ | _⟩ <;> rfl

theorem applyUpdateProject_eq (old : Project) (req : UpdateProjectRequest) :
    applyUpdateProject old req =
      { old with
        Name := req.Name.getD old.Name
        ClientName := req.ClientName.getD old.ClientName
        Status := req.Status.getD old.Status
        ClientID := req.ClientID.or old.ClientID } := by
  rcases req with ⟨_ | _, _ | _, _ | _, _ | _⟩ <;> rfl

theorem applyUpdateRequirement_eq (old : Requirement) (req : UpdateRequirementRequest) :
    applyUpdateRequirement old req =
      { old with
        Text := req.Text.getD old.Text
        Category := req.Category.or old.Category
        Status := req.Status.getD old.Status } := by
  rcases req with ⟨_ | _, _ | _, _ | _⟩ <;> rfl

theorem applyUpdateAuditTask_eq (old : AuditTask) (req : UpdateAuditTaskRequest) :
    applyUpdateAuditTask old req =
      { old with
        Text := req.Text.getD old.Text
        Status := req.Status.getD old.Status
        Notes := req.Notes.or old.Notes } := by
  rcases req with ⟨_ | _, _ | _, _ | _⟩ <;> rfl

theorem applyUpdateIssue_eq (old : Issue) (req : UpdateIssueRequest) :
    applyUpdateIssue old req =
      { old with
        Title := req.Title.getD old.Title
        Description := req.Description.or old.Description
        Priority := req.Priority.or old.Priority
        Phase := req.Phase.or old.Phase
        EstimateHrs := req.EstimateHrs.or old.EstimateHrs
        Status := req.Status.getD old.Status
        IssueType := req.IssueType.getD old.IssueType } := by
  rcases req with ⟨_ | _, _ | _, _ | _, _ | _, _ | _, _ | _, _ | _⟩ <;> rfl


/-- C5, as stated, fails.  In the sample store user 1 exists.  A patch that
supplies only the client id 9223372036854775808 (2 ^ 63) is answered with 200
and a projection that shows this number, but the column `client_id` of the
stored row holds -9223372036854775808, the signed number with the same bit
pattern: the stored entity does not have the field equal to the supplied
value, the record can no longer be read (`First` finds nothing and the get
answers 404) and the list of users answers 500.
Moreover every update moves `UpdatedAt`, here of project 1 from 5 to 10, so
not every other field keeps its value. -/
theorem update_client_id_wraps :
    demoStore.users.has 1 ∧
    (UpdateUser demoStore demoEnv "1"
      (.ok ⟨none, none, none, some 9223372036854775808⟩)).2.status = 200 ∧
    ((UpdateUser demoStore demoEnv "1"
      (.ok ⟨none, none, none, some 9223372036854775808⟩)).1.users.row 1).bind
        (fun u => clientIDColumn u.ClientID) = some (-9223372036854775808) ∧
    (UpdateUser demoStore demoEnv "1"
      (.ok ⟨none, none, none, some 9223372036854775808⟩)).1.users.first 1 = none ∧
    (GetUser (UpdateUser demoStore demoEnv "1"
      (.ok ⟨none, none, none, some 9223372036854775808⟩)).1 "1").2.status = 404 ∧
    (GetUsers (UpdateUser demoStore demoEnv "1"
      (.ok ⟨none, none, none, some 9223372036854775808⟩)).1 demoEnv).2.status = 500 ∧
    (GetUsers demoStore demoEnv).2.status = 200 ∧
    demoStore.projects.first 1 =
      some ⟨⟨1, 5, 5, none⟩, "Demo Project", "Demo Client", "NEW", some 1⟩ ∧
    (UpdateProject demoStore demoEnv "1"
      (.ok ⟨some "Renamed", none, none, none⟩)).1.projects.first 1 =
      some ⟨⟨1, 5, 10, none⟩, "Renamed", "Demo Client", "NEW", some 1⟩ := by
  refine ⟨by decide, by decide, by decide, by decide, by decide, by decide, by decide,
    by decide, by decide⟩

/-- What a successful `UpdateUser` of a readable user leaves: the answer is
200 and the store differs by the saved row only. -/
theorem updateUser_ok (s : Store) (env : Env) (id : String) (n : Nat)
    (hid : ParseUint id 32 = some n) (he : env.dbErr 0 = false) (req : UpdateUserRequest)
    (old : User) (hold : s.users.first n = some old) :
    UpdateUser s env id (.ok req) =
      ({ s with users := s.users.save (env.now 0) (applyUpdateUser old req) },
        ⟨200, .user (convertToUserResponse (touch (env.now 0) (applyUpdateUser old req))
          none [])⟩) := by
  simp only [UpdateUser, hid, bindUntagged, validate, List.filter_nil, List.map_nil, hold,
    dbSave, he, Bool.false_eq_true, if_false, StatusOK]

/-- What a successful `UpdateProject` of a readable project leaves. -/
theorem updateProject_ok (s : Store) (env : Env) (id : String) (n : Nat)
    (hid : ParseUint id 32 = some n) (he : env.dbErr 0 = false) (req : UpdateProjectRequest)
    (old : Project) (hold : s.projects.first n = some old) :
    UpdateProject s env id (.ok req) =
      ({ s with projects := s.projects.save (env.now 0) (applyUpdateProject old req) },
        ⟨200, .project (convertToProjectResponse
          (touch (env.now 0) (applyUpdateProject old req)) none [])⟩) := by
  simp only [UpdateProject, hid, bindUntagged, validate, List.filter_nil, List.map_nil, hold,
    dbSave, he, Bool.false_eq_true, if_false, StatusOK]

/-- C5, amended.  For each of the six update handlers, every entity `old`
that `First` finds and every patch, when the engine does not fail the write:
the update answers 200 and the stored row has its update time set to the time
of the write, every field the patch supplies equal to the supplied value, and
every other column (the fields the patch leaves out, the id, the creation
time, the deletion mark and the columns no patch can name) equal to its value
in `old`; a patch with exactly one field is the special case in which all but
one of the `getD` and `or` below fall back to `old`.  For clients,
requirements, audit tasks and issues that row is the entity read back.  For
users and projects, a client id `c` supplied by the patch is held by the
column `client_id` as the signed number `int64 c`.  When the patch supplies
no client id or one below 2 ^ 63, `int64 c` is `c` and the row is the entity
read back; when the patch supplies a client id `c` at or above 2 ^ 63, the
answer is still 200, but `int64 c` is not `c`, the record can no longer be
read (`First` finds nothing and the get handler answers 404), and the
unfiltered list answers 500. -/
theorem update_stores_patch (s : Store) (env : Env) (id : String) (n : Nat)
    (hid : ParseUint id 32 = some n) (he : env.dbErr 0 = false) :
    (∀ (req : UpdateClientRequest) (old : Client), s.clients.first n = some old →
      (UpdateClient s env id (.ok req)).2.status = 200 ∧
      (UpdateClient s env id (.ok req)).1.clients.first n = some
        { old with
          UpdatedAt := env.now 0
          Name := req.Name.getD old.Name
          Industry := req.Industry.or old.Industry
          ContactName := req.ContactName.or old.ContactName
          ContactEmail := req.ContactEmail.or old.ContactEmail }) ∧
    (∀ (req : UpdateUserRequest) (old : User), s.users.first n = some old →
      (UpdateUser s env id (.ok req)).2.status = 200 ∧
      (UpdateUser s env id (.ok req)).1.users.row n = some
        { old with
          UpdatedAt := env.now 0
          Name := req.Name.getD old.Name
          Email := req.Email.getD old.Email
          Role := req.Role.getD old.Role
          ClientID := req.ClientID.or old.ClientID } ∧
      (∀ c, req.ClientID = some c →
        ((UpdateUser s env id (.ok req)).1.users.row n).bind
          (fun r => clientIDColumn r.ClientID) = some (int64 c)) ∧
      ((∀ c, req.ClientID = some c → c < 2 ^ 63) →
        (∀ c, req.ClientID = some c → int64 c = (c : Int)) ∧
        (UpdateUser s env id (.ok req)).1.users.first n =
          (UpdateUser s env id (.ok req)).1.users.row n) ∧
      (∀ c, req.ClientID = some c → 2 ^ 63 ≤ c →
        int64 c ≠ (c : Int) ∧
        (UpdateUser s env id (.ok req)).1.users.first n = none ∧
        GetUser (UpdateUser s env id (.ok req)).1 id =
          ((UpdateUser s env id (.ok req)).1, ⟨404, .error ⟨"User not found", "", 404⟩⟩) ∧
        ∀ env2, GetUsers (UpdateUser s env id (.ok req)).1 env2 =
          ((UpdateUser s env id (.ok req)).1,
            ⟨500, .error ⟨"Failed to fetch users", "", 500⟩⟩))) ∧
    (∀ (req : UpdateProjectRequest) (old : Project), s.projects.first n = some old →
      (UpdateProject s env id (.ok req)).2.status = 200 ∧
      (UpdateProject s env id (.ok req)).1.projects.row n = some
        { old with
          UpdatedAt := env.now 0
          Name := req.Name.getD old.Name
          ClientName := req.ClientName.getD old.ClientName
          Status := req.Status.getD old.Status
          ClientID := req.ClientID.or old.ClientID } ∧
      (∀ c, req.ClientID = some c →
        ((UpdateProject s env id (.ok req)).1.projects.row n).bind
          (fun r => clientIDColumn r.ClientID) = some (int64 c)) ∧
      ((∀ c, req.ClientID = some c → c < 2 ^ 63) →
        (∀ c, req.ClientID = some c → int64 c = (c : Int)) ∧
        (UpdateProject s env id (.ok req)).1.projects.first n =
          (UpdateProject s env id (.ok req)).1.projects.row n) ∧
      (∀ c, req.ClientID = some c → 2 ^ 63 ≤ c →
        int64 c ≠ (c : Int) ∧
        (UpdateProject s env id (.ok req)).1.projects.first n = none ∧
        GetProject (UpdateProject s env id (.ok req)).1 id =
          ((UpdateProject s env id (.ok req)).1,
            ⟨404, .error ⟨"Project not found", "", 404⟩⟩) ∧
        ∀ env2, GetProjects (UpdateProject s env id (.ok req)).1 env2 "" =
          ((UpdateProject s env id (.ok req)).1,
            ⟨500, .error ⟨"Failed to fetch projects", "", 500⟩⟩))) ∧
    (∀ (req : UpdateRequirementRequest) (old : Requirement),
      s.requirements.first n = some old →
      (UpdateRequirement s env id (.ok req)).2.status = 200 ∧
      (UpdateRequirement s env id (.ok req)).1.requirements.first n = some
        { old with
          UpdatedAt := env.now 0
          Text := req.Text.getD old.Text
          Category := req.Category.or old.Category
          Status := req.Status.getD old.Status }) ∧
    (∀ (req : UpdateAuditTaskRequest) (old : AuditTask), s.auditTasks.first n = some old →
      (UpdateAuditTask s env id (.ok req)).2.status = 200 ∧
      (UpdateAuditTask s env id (.ok req)).1.auditTasks.first n = some
        { old with
          UpdatedAt := env.now 0
          Text := req.Text.getD old.Text
          Status := req.Status.getD old.Status
          Notes := req.Notes.or old.Notes }) ∧
    (∀ (req : UpdateIssueRequest) (old : Issue), s.issues.first n = some old →
      (UpdateIssue s env id (.ok req)).2.status = 200 ∧
      (UpdateIssue s env id (.ok req)).1.issues.first n = some
        { old with
          UpdatedAt := env.now 0
          Title := req.Title.getD old.Title
          Description := req.Description.or old.Description
          Priority := req.Priority.or old.Priority
          Phase := req.Phase.or old.Phase
          EstimateHrs := req.EstimateHrs.or old.EstimateHrs
          Status := req.Status.getD old.Status
          IssueType := req.IssueType.getD old.IssueType }) := by
  refine ⟨?_, ?_, ?_, ?_, ?_, ?_⟩
  · intro req old hold
    have h := first_save_same_model s.clients (env.now 0) n old (applyUpdateClient old req) hold
      (by rw [applyUpdateClient_eq]; rfl) rfl
    constructor
    · simp only [UpdateClient, hid, bindUntagged, validate, List.filter_nil, List.map_nil, hold,
        dbSave, he, Bool.false_eq_true, if_false, StatusOK]
    · simp only [UpdateClient, hid, bindUntagged, validate, List.filter_nil, List.map_nil, hold,
        dbSave, he, Bool.false_eq_true, if_false, h]
      rw [applyUpdateClient_eq]; rfl
  · intro req old hold
    have hrow := (first_some_iff.1 hold).1
    have hsave := row_save_same_model s.users (env.now 0) n old (applyUpdateUser old req) hrow
      (by rw [applyUpdateUser_eq]; rfl)
    have hok := updateUser_ok s env id n hid he req old hold
    have hl := row_some_live hrow
    have hrow1 : (UpdateUser s env id (.ok req)).1.users.row n =
        some (touch (env.now 0) (applyUpdateUser old req)) := by
      rw [hok]; exact hsave
    refine ⟨by rw [hok], ?_, ?_, ?_, ?_⟩
    · rw [hrow1, applyUpdateUser_eq]; rfl
    · intro c hc
      rw [hrow1, applyUpdateUser_eq]
      simp [touch, Entity.withModel, clientIDColumn, hc]
    · intro hc
      refine ⟨fun c hcc => int64_eq_of_lt c (hc c hcc), ?_⟩
      rw [hrow1]
      refine first_some_iff.2 ⟨hrow1, ?_⟩
      rw [scans_touch, scans_user_iff, applyUpdateUser_eq]
      intro c hcc
      cases hr : req.ClientID with
      | none =>
        rw [hr] at hcc
        exact (scans_user_iff old).1 (first_some_scans hold) c hcc
      | some v =>
        rw [hr] at hcc
        cases hcc
        exact hc c hr
    · intro c hc hbig
      have hbad : Entity.scans (touch (env.now 0) (applyUpdateUser old req)) = false := by
        rw [Bool.eq_false_iff]
        intro hs
        rw [scans_touch, scans_user_iff, applyUpdateUser_eq] at hs
        have := hs c (by simp [hc])
        omega
      have hfirst : (UpdateUser s env id (.ok req)).1.users.first n = none := by
        unfold Table.first
        rw [hrow1]
        simp [hbad]
      refine ⟨int64_ne_of_le c hbig, hfirst, ?_, ?_⟩
      · simp [GetUser, hid, hfirst, errorJSON, StatusNotFound]
      · intro env2
        have hnone : dbFind env2 0 (UpdateUser s env id (.ok req)).1.users.find = none :=
          dbFind_eq_none_iff.2 (Or.inr ⟨_, mem_find_of_row hrow1, hbad⟩)
        simp [GetUsers, hnone, errorJSON, StatusInternalServerError]
  · intro req old hold
    have hrow := (first_some_iff.1 hold).1
    have hsave := row_save_same_model s.projects (env.now 0) n old (applyUpdateProject old req)
      hrow (by rw [applyUpdateProject_eq]; rfl)
    have hok := updateProject_ok s env id n hid he req old hold
    have hrow1 : (UpdateProject s env id (.ok req)).1.projects.row n =
        some (touch (env.now 0) (applyUpdateProject old req)) := by
      rw [hok]; exact hsave
    refine ⟨by rw [hok], ?_, ?_, ?_, ?_⟩
    · rw [hrow1, applyUpdateProject_eq]; rfl
    · intro c hc
      rw [hrow1, applyUpdateProject_eq]
      simp [touch, Entity.withModel, clientIDColumn, hc]
    · intro hc
      refine ⟨fun c hcc => int64_eq_of_lt c (hc c hcc), ?_⟩
      rw [hrow1]
      refine first_some_iff.2 ⟨hrow1, ?_⟩
      rw [scans_touch, scans_project_iff, applyUpdateProject_eq]
      intro c hcc
      cases hr : req.ClientID with
      | none =>
        rw [hr] at hcc
        exact (scans_project_iff old).1 (first_some_scans hold) c hcc
      | some v =>
        rw [hr] at hcc
        cases hcc
        exact hc c hr
    · intro c hc hbig
      have hbad : Entity.scans (touch (env.now 0) (applyUpdateProject old req)) = false := by
        rw [Bool.eq_false_iff]
        intro hs
        rw [scans_touch, scans_project_iff, applyUpdateProject_eq] at hs
        have := hs c (by simp [hc])
        omega
      have hfirst : (UpdateProject s env id (.ok req)).1.projects.first n = none := by
        unfold Table.first
        rw [hrow1]
        simp [hbad]
      refine ⟨int64_ne_of_le c hbig, hfirst, ?_, ?_⟩
      · simp [GetProject, hid, hfirst, errorJSON, StatusNotFound]
      · intro env2
        have hnone : dbFind env2 0 (UpdateProject s env id (.ok req)).1.projects.find = none :=
          dbFind_eq_none_iff.2 (Or.inr ⟨_, mem_find_of_row hrow1, hbad⟩)
        simp [GetProjects, hnone, errorJSON, StatusInternalServerError]
  · intro req old hold
    have h := first_save_same_model s.requirements (env.now 0) n old
      (applyUpdateRequirement old req) hold (by rw [applyUpdateRequirement_eq]; rfl) rfl
    constructor
    · simp only [UpdateRequirement, hid, bindUntagged, validate, List.filter_nil, List.map_nil,
        hold, dbSave, he, Bool.false_eq_true, if_false, StatusOK]
    · simp only [UpdateRequirement, hid, bindUntagged, validate, List.filter_nil, List.map_nil,
        hold, dbSave, he, Bool.false_eq_true, if_false, h]
      rw [applyUpdateRequirement_eq]; rfl
  · intro req old hold
    have h := first_save_same_model s.auditTasks (env.now 0) n old
      (applyUpdateAuditTask old req) hold (by rw [applyUpdateAuditTask_eq]; rfl) rfl
    constructor
    · simp only [UpdateAuditTask, hid, bindUntagged, validate, List.filter_nil, List.map_nil,
        hold, dbSave, he, Bool.false_eq_true, if_false, StatusOK]
    · simp only [UpdateAuditTask, hid, bindUntagged, validate, List.filter_nil, List.map_nil,
        hold, dbSave, he, Bool.false_eq_true, if_false, h]
      rw [applyUpdateAuditTask_eq]; rfl
  · intro req old hold
    have h := first_save_same_model s.issues (env.now 0) n old (applyUpdateIssue old req) hold
      (by rw [applyUpdateIssue_eq]; rfl) rfl
    constructor
    · simp only [UpdateIssue, hid, bindUntagged, validate, List.filter_nil, List.map_nil, hold,
        dbSave, he, Bool.false_eq_true, if_false, StatusOK]
    · simp only [UpdateIssue, hid, bindUntagged, validate, List.filter_nil, List.map_nil, hold,
        dbSave, he, Bool.false_eq_true, if_false, h]
      rw [applyUpdateIssue_eq]; rfl

/-- Instance of the amended C5 on the sample store, with one single-field
patch for each of the six handlers, saved at time 10, and with the client id
2 ^ 63 for user 1. -/
theorem update_stores_patch_witness :
    ((UpdateClient demoStore demoEnv "1" (.ok ⟨none, some "Retail", none, none⟩)).2.status
        = 200 ∧
      (UpdateClient demoStore demoEnv "1"
          (.ok ⟨none, some "Retail", none, none⟩)).1.clients.first 1 =
        some ⟨⟨1, 5, 10, none⟩, "Demo Client Org", some "Retail", some "Ann", none⟩) ∧
    ((UpdateUser demoStore demoEnv "1" (.ok ⟨none, none, some "ADMIN", none⟩)).1.users.row 1 =
        some ⟨⟨1, 5, 10, none⟩, "Alice", "alice@example.com", "hash", "ADMIN", none⟩ ∧
      (UpdateUser demoStore demoEnv "1" (.ok ⟨none, none, some "ADMIN", none⟩)).1.users.first 1 =
        (UpdateUser demoStore demoEnv "1"
          (.ok ⟨none, none, some "ADMIN", none⟩)).1.users.row 1) ∧
    ((UpdateUser demoStore demoEnv "1"
          (.ok ⟨none, none, none, some 9223372036854775808⟩)).2.status = 200 ∧
      (UpdateUser demoStore demoEnv "1"
          (.ok ⟨none, none, none, some 9223372036854775808⟩)).1.users.row 1 =
        some ⟨⟨1, 5, 10, none⟩, "Alice", "alice@example.com", "hash", RoleConsultant,
          some 9223372036854775808⟩ ∧
      ((UpdateUser demoStore demoEnv "1"
          (.ok ⟨none, none, none, some 9223372036854775808⟩)).1.users.row 1).bind
        (fun r => clientIDColumn r.ClientID) = some (int64 9223372036854775808) ∧
      int64 9223372036854775808 ≠ (9223372036854775808 : Nat) ∧
      (UpdateUser demoStore demoEnv "1"
          (.ok ⟨none, none, none, some 9223372036854775808⟩)).1.users.first 1 = none ∧
      GetUser (UpdateUser demoStore demoEnv "1"
          (.ok ⟨none, none, none, some 9223372036854775808⟩)).1 "1" =
        ((UpdateUser demoStore demoEnv "1"
          (.ok ⟨none, none, none, some 9223372036854775808⟩)).1,
          ⟨404, .error ⟨"User not found", "", 404⟩⟩) ∧
      ∀ env2, GetUsers (UpdateUser demoStore demoEnv "1"
          (.ok ⟨none, none, none, some 9223372036854775808⟩)).1 env2 =
        ((UpdateUser demoStore demoEnv "1"
          (.ok ⟨none, none, none, some 9223372036854775808⟩)).1,
          ⟨500, .error ⟨"Failed to fetch users", "", 500⟩⟩)) ∧
    ((UpdateProject demoStore demoEnv "1"
          (.ok ⟨some "Renamed", none, none, none⟩)).1.projects.row 1 =
        some ⟨⟨1, 5, 10, none⟩, "Renamed", "Demo Client", "NEW", some 1⟩ ∧
      (UpdateProject demoStore demoEnv "1"
          (.ok ⟨some "Renamed", none, none, none⟩)).1.projects.first 1 =
        (UpdateProject demoStore demoEnv "1"
          (.ok ⟨some "Renamed", none, none, none⟩)).1.projects.row 1) ∧
    ((UpdateRequirement demoStore demoEnv "1" (.ok ⟨none, none, some "MET"⟩)).2.status = 200 ∧
      (UpdateRequirement demoStore demoEnv "1"
          (.ok ⟨none, none, some "MET"⟩)).1.requirements.first 1 =
        some ⟨⟨1, 5, 10, none⟩, 1, "Must support single sign-on", some "Authentication",
          "MET"⟩) ∧
    ((UpdateAuditTask demoStore demoEnv "1"
          (.ok ⟨some "Check logout audit", none, none⟩)).2.status = 200 ∧
      (UpdateAuditTask demoStore demoEnv "1"
          (.ok ⟨some "Check logout audit", none, none⟩)).1.auditTasks.first 1 =
        some ⟨⟨1, 5, 10, none⟩, 1, "Check logout audit", "PENDING", some "Review"⟩) ∧
    ((UpdateIssue demoStore demoEnv "1"
          (.ok ⟨none, none, some "HIGH", none, none, none, none⟩)).2.status = 200 ∧
      (UpdateIssue demoStore demoEnv "1"
          (.ok ⟨none, none, some "HIGH", none, none, none, none⟩)).1.issues.first 1 =
        some ⟨⟨1, 5, 10, none⟩, 1, "Login fails on Safari", some "Broken in Safari",
          some "HIGH", none, some 3, "OPEN", "DEFECT"⟩) :=
  ⟨(update_stores_patch demoStore demoEnv "1" 1 (by decide) rfl).1
      ⟨none, some "Retail", none, none⟩
      ⟨⟨1, 5, 5, none⟩, "Demo Client Org", none, some "Ann", none⟩ (by decide),
    ⟨((update_stores_patch demoStore demoEnv "1" 1 (by decide) rfl).2.1
        ⟨none, none, some "ADMIN", none⟩
        ⟨⟨1, 5, 5, none⟩, "Alice", "alice@example.com", "hash", RoleConsultant, none⟩
        (by decide)).2.1,
      (((update_stores_patch demoStore demoEnv "1" 1 (by decide) rfl).2.1
        ⟨none, none, some "ADMIN", none⟩
        ⟨⟨1, 5, 5, none⟩, "Alice", "alice@example.com", "hash", RoleConsultant, none⟩
        (by decide)).2.2.2.1 (by simp)).2⟩,
    ⟨((update_stores_patch demoStore demoEnv "1" 1 (by decide) rfl).2.1
        ⟨none, none, none, some 9223372036854775808⟩
        ⟨⟨1, 5, 5, none⟩, "Alice", "alice@example.com", "hash", RoleConsultant, none⟩
        (by decide)).1,
      ((update_stores_patch demoStore demoEnv "1" 1 (by decide) rfl).2.1
        ⟨none, none, none, some 9223372036854775808⟩
        ⟨⟨1, 5, 5, none⟩, "Alice", "alice@example.com", "hash", RoleConsultant, none⟩
        (by decide)).2.1,
      ((update_stores_patch demoStore demoEnv "1" 1 (by decide) rfl).2.1
        ⟨none, none, none, some 9223372036854775808⟩
        ⟨⟨1, 5, 5, none⟩, "Alice", "alice@example.com", "hash", RoleConsultant, none⟩
        (by decide)).2.2.1 9223372036854775808 rfl,
      ((update_stores_patch demoStore demoEnv "1" 1 (by decide) rfl).2.1
        ⟨none, none, none, some 9223372036854775808⟩
        ⟨⟨1, 5, 5, none⟩, "Alice", "alice@example.com", "hash", RoleConsultant, none⟩
        (by decide)).2.2.2.2 9223372036854775808 rfl (by decide)⟩,
    ⟨((update_stores_patch demoStore demoEnv "1" 1 (by decide) rfl).2.2.1
        ⟨some "Renamed", none, none, none⟩
        ⟨⟨1, 5, 5, none⟩, "Demo Project", "Demo Client", "NEW", some 1⟩ (by decide)).2.1,
      (((update_stores_patch demoStore demoEnv "1" 1 (by decide) rfl).2.2.1
        ⟨some "Renamed", none, none, none⟩
        ⟨⟨1, 5, 5, none⟩, "Demo Project", "Demo Client", "NEW", some 1⟩ (by decide)).2.2.2.1
        (by simp)).2⟩,
    (update_stores_patch demoStore demoEnv "1" 1 (by decide) rfl).2.2.2.1
      ⟨none, none, some "MET"⟩
      ⟨⟨1, 5, 5, none⟩, 1, "Must support single sign-on", some "Authentication", "DRAFT"⟩
      (by decide),
    (update_stores_patch demoStore demoEnv "1" 1 (by decide) rfl).2.2.2.2.1
      ⟨some "Check logout audit", none, none⟩
      ⟨⟨1, 5, 5, none⟩, 1, "Check login audit", "PENDING", some "Review"⟩ (by decide),
    (update_stores_patch demoStore demoEnv "1" 1 (by decide) rfl).2.2.2.2.2
      ⟨none, none, some "HIGH", none, none, none, none⟩
      ⟨⟨1, 5, 5, none⟩, 1, "Login fails on Safari", some "Broken in Safari", none, none,
        some 3, "OPEN", "DEFECT"⟩ (by decide)⟩


/-! ## Archiving -/

/-- One call of `ArchiveProject` on an existing project, the engine not
failing: the answer is 200 with the projection of the archived project, and
the archived project is what the store holds under the id afterwards. -/
theorem archive_ok (s : Store) (env : Env) (id : String) (pid : Nat) (old : Project)
    (hid : ParseUint id 32 = some pid) (hold : s.projects.first pid = some old)
    (he : env.dbErr 0 = false) :
    (ArchiveProject s env id).2 = ⟨200, .project (convertToProjectResponse
      { old with UpdatedAt := env.now 0, Status := "ARCHIVED" } none [])⟩ ∧
    (ArchiveProject s env id).1.projects.first pid =
      some { old with UpdatedAt := env.now 0, Status := "ARCHIVED" } := by
  have hsc : Entity.scans old = true := first_some_scans hold
  have h := first_save_same_model s.projects (env.now 0) pid old
    { old with Status := "ARCHIVED" } hold rfl hsc
  constructor
  · simp only [ArchiveProject, hid, hold, dbSave, he, Bool.false_eq_true, if_false, StatusOK]
    rfl
  · simp only [ArchiveProject, hid, hold, dbSave, he, Bool.false_eq_true, if_false, h]
    rfl

/-- C6. For every existing project `old`, whatever its status, when the
engine does not fail the writes: `ArchiveProject` answers 200 with a project
projection whose status is ARCHIVED and the stored project has status
ARCHIVED; a second `ArchiveProject` also answers 200 with status ARCHIVED, and
the project it leaves in the store is the one the first call left, status
ARCHIVED included, with only the update time refreshed. -/
theorem archive_twice (s : Store) (env1 env2 : Env) (id : String) (pid : Nat) (old : Project)
    (hid : ParseUint id 32 = some pid) (hold : s.projects.first pid = some old)
    (h1 : env1.dbErr 0 = false) (h2 : env2.dbErr 0 = false) :
    (∃ r, (ArchiveProject s env1 id).2 = ⟨200, .project r⟩ ∧ r.Status = "ARCHIVED") ∧
    (∃ p1, (ArchiveProject s env1 id).1.projects.first pid = some p1 ∧
      p1.Status = "ARCHIVED" ∧
      (∃ r, (ArchiveProject (ArchiveProject s env1 id).1 env2 id).2 = ⟨200, .project r⟩ ∧
        r.Status = "ARCHIVED") ∧
      (ArchiveProject (ArchiveProject s env1 id).1 env2 id).1.projects.first pid =
        some { p1 with UpdatedAt := env2.now 0 }) := by
  obtain ⟨hr1, hs1⟩ := archive_ok s env1 id pid old hid hold h1
  obtain ⟨hr2, hs2⟩ := archive_ok (ArchiveProject s env1 id).1 env2 id pid _ hid hs1 h2
  exact ⟨⟨_, hr1, rfl⟩, _, hs1, rfl, ⟨_, hr2, rfl⟩, hs2⟩

/-- Instance of C6 on the sample store: project 1 (status NEW) and project 2
(status ARCHIVED already) are archived twice, at times 10 and 10. -/
theorem archive_twice_witness :
    ((∃ r, (ArchiveProject demoStore demoEnv "1").2 = ⟨200, .project r⟩ ∧
        r.Status = "ARCHIVED") ∧
      (∃ p1, (ArchiveProject demoStore demoEnv "1").1.projects.first 1 = some p1 ∧
        p1.Status = "ARCHIVED" ∧
        (∃ r, (ArchiveProject (ArchiveProject demoStore demoEnv "1").1 demoEnv "1").2 =
            ⟨200, .project r⟩ ∧ r.Status = "ARCHIVED") ∧
        (ArchiveProject (ArchiveProject demoStore demoEnv "1").1 demoEnv "1").1.projects.first 1
          = some { p1 with UpdatedAt := demoEnv.now 0 })) ∧
    ((∃ r, (ArchiveProject demoStore demoEnv "2").2 = ⟨200, .project r⟩ ∧
        r.Status = "ARCHIVED") ∧
      (∃ p1, (ArchiveProject demoStore demoEnv "2").1.projects.first 2 = some p1 ∧
        p1.Status = "ARCHIVED" ∧
        (∃ r, (ArchiveProject (ArchiveProject demoStore demoEnv "2").1 demoEnv "2").2 =
            ⟨200, .project r⟩ ∧ r.Status = "ARCHIVED") ∧
        (ArchiveProject (ArchiveProject demoStore demoEnv "2").1 demoEnv "2").1.projects.first 2
          = some { p1 with UpdatedAt := demoEnv.now 0 })) :=
  ⟨archive_twice demoStore demoEnv demoEnv "1" 1
      ⟨⟨1, 5, 5, none⟩, "Demo Project", "Demo Client", "NEW", some 1⟩ (by decide) (by decide)
      rfl rfl,
    archive_twice demoStore demoEnv demoEnv "2" 2
      ⟨⟨2, 5, 5, none⟩, "Old Project", "Demo Client", "ARCHIVED", none⟩ (by decide) (by decide)
      rfl rfl⟩


/-! ## Archival under later operations -/

/-- C7, as stated, fails: after `ArchiveProject` has set project 1 of the
sample store to ARCHIVED, an `UpdateProject` whose patch supplies the status
NEW succeeds and the stored status is NEW again. -/
theorem archived_project_reopened :
    projectStatus (runProjectOps demoStore [.archive demoEnv "1"]) 1 = some "ARCHIVED" ∧
    (UpdateProject (runProjectOps demoStore [.archive demoEnv "1"]) demoEnv "1"
      (.ok ⟨none, none, some "NEW", none⟩)).2.status = 200 ∧
    projectStatus (runProjectOps demoStore
      [.archive demoEnv "1", .update demoEnv "1" (.ok ⟨none, none, some "NEW", none⟩)]) 1
        = some "NEW" := by
  refine ⟨by decide, by decide, by decide⟩

theorem row_create {α : Type} [Entity α] (t : Table α) (now id : Nat) (x r : α)
    (h : t.row id = some r) : (t.create now x).row id = some r := by
  unfold Table.row at h ⊢
  simp [Table.create, List.find?_append, h]

theorem first_create {α : Type} [Entity α] (t : Table α) (now id : Nat) (x r : α)
    (h : t.first id = some r) : (t.create now x).first id = some r :=
  first_some_iff.2 ⟨row_create t now id x r (first_some_iff.1 h).1, (first_some_iff.1 h).2⟩

theorem row_save_other {α : Type} [Entity α] (t : Table α) (now id : Nat) (x : α)
    (hne : (Entity.model x).ID ≠ id) : (t.save now x).row id = t.row id := by
  unfold Table.row Table.save
  simp only
  have hx : live id (touch now x) = false := by
    rw [live_touch, Bool.eq_false_iff]
    intro h
    exact hne ((live_iff id x).1 h).1
  rw [find_map_of_live id]
  · cases h : List.find? (live id) t.rows with
    | none => rfl
    | some r =>
      have hr := (live_iff id r).1 (List.find?_some h)
      have : live (Entity.model x).ID r = false := by
        rw [Bool.eq_false_iff]
        intro h2
        exact hne (((live_iff _ r).1 h2).1.symm.trans hr.1)
      simp [this]
  · intro r
    by_cases h : live (Entity.model x).ID r = true
    · have hr := (live_iff _ r).1 h
      have : live id r = false := by
        rw [Bool.eq_false_iff]
        intro h2
        exact hne (hr.1.symm.trans ((live_iff id r).1 h2).1)
      simp [h, hx, this]
    · simp [h]


theorem first_save_other {α : Type} [Entity α] (t : Table α) (now id : Nat) (x : α)
    (hne : (Entity.model x).ID ≠ id) : (t.save now x).first id = t.first id :=
  first_congr (row_save_other t now id x hne)


theorem status_after_create (s : Store) (env : Env) (body : Except String CreateProjectRequest)
    (pid : Nat) (st : String) (h : projectStatus s pid = some st) :
    projectStatus (CreateProject s env body).1 pid = some st := by
  unfold CreateProject
  cases bindCreateProjectRequest body with
  | error msg => exact h
  | ok req =>
    simp only [dbCreate]
    cases env.dbErr 0 with
    | true => exact h
    | false =>
      unfold projectStatus at h ⊢
      cases hf : s.projects.row pid with
      | none => simp [hf] at h
      | some r =>
        simp only [Bool.false_eq_true, if_false]
        rw [row_create _ _ _ _ _ hf, ← hf]
        exact h

theorem status_after_archive (s : Store) (env : Env) (id : String) (pid : Nat)
    (h : projectStatus s pid = some "ARCHIVED") :
    projectStatus (ArchiveProject s env id).1 pid = some "ARCHIVED" := by
  cases hid : ParseUint id 32 with
  | none => simpa only [ArchiveProject, hid] using h
  | some n =>
    cases hf : s.projects.first n with
    | none => simpa only [ArchiveProject, hid, hf] using h
    | some project =>
      cases he : env.dbErr 0 with
      | true => simpa only [ArchiveProject, hid, hf, dbSave, he, if_true] using h
      | false =>
        simp only [ArchiveProject, hid, hf, dbSave, he, Bool.false_eq_true, if_false]
        unfold projectStatus at h ⊢
        by_cases hn : n = pid
        · subst hn
          dsimp only
          rw [row_save_same_model s.projects (env.now 0) n project
            ({ project with Status := "ARCHIVED" } : Project) (first_some_iff.1 hf).1 rfl]
          rfl
        · have hm : (Entity.model ({ project with Status := "ARCHIVED" } : Project)).ID ≠ pid :=
            fun e => hn ((first_some_live hf).1.symm.trans e)
          dsimp only
          rw [row_save_other _ _ _ _ hm]
          exact h

theorem status_after_update (s : Store) (env : Env) (id : String)
    (body : Except String UpdateProjectRequest) (pid : Nat)
    (h : projectStatus s pid = some "ARCHIVED")
    (hop : (ProjectOp.update env id body).reopens pid = false) :
    projectStatus (UpdateProject s env id body).1 pid = some "ARCHIVED" := by
  cases hid : ParseUint id 32 with
  | none => simpa only [UpdateProject, hid] using h
  | some n =>
    cases body with
    | error msg => simpa only [UpdateProject, hid, bindUntagged] using h
    | ok req =>
      cases hf : s.projects.first n with
      | none =>
        simpa only [UpdateProject, hid, bindUntagged, validate, List.filter_nil, List.map_nil,
          hf] using h
      | some project =>
        cases he : env.dbErr 0 with
        | true =>
          simpa only [UpdateProject, hid, bindUntagged, validate, List.filter_nil,
            List.map_nil, hf, dbSave, he, if_true] using h
        | false =>
          simp only [UpdateProject, hid, bindUntagged, validate, List.filter_nil, List.map_nil,
            hf, dbSave, he, Bool.false_eq_true, if_false]
          unfold projectStatus at h ⊢
          by_cases hn : n = pid
          · subst hn
            dsimp only
            rw [row_save_same_model s.projects (env.now 0) n project
              (applyUpdateProject project req) (first_some_iff.1 hf).1
              (by rw [applyUpdateProject_eq]; rfl)]
            rw [(first_some_iff.1 hf).1] at h
            have hst : project.Status = "ARCHIVED" := by simpa using h
            have hreq : req.Status.getD project.Status = "ARCHIVED" := by
              cases hs : req.Status with
              | none => simpa using hst
              | some v => simpa [ProjectOp.reopens, hid, hs] using hop
            rw [applyUpdateProject_eq]
            show some (req.Status.getD project.Status) = some "ARCHIVED"
            rw [hreq]
          · have hm : (Entity.model (applyUpdateProject project req)).ID ≠ pid := by
              rw [applyUpdateProject_eq]
              exact fun e => hn ((first_some_live hf).1.symm.trans e)
            dsimp only
            rw [row_save_other _ _ _ _ hm]
            exact h

/-- C7, amended.  In every sequence of `CreateProject`, `UpdateProject` and
`ArchiveProject` requests, whatever their inputs and whether or not the engine
fails them: if the project stored under `pid` has status ARCHIVED before the
sequence and no `UpdateProject` addressed to that project supplies a status
other than ARCHIVED, the project is still stored under `pid` with status
ARCHIVED after the sequence. -/
theorem archived_stays_archived (ops : List ProjectOp) (s : Store) (pid : Nat)
    (h : projectStatus s pid = some "ARCHIVED")
    (hops : ∀ op ∈ ops, op.reopens pid = false) :
    projectStatus (runProjectOps s ops) pid = some "ARCHIVED" := by
  induction ops generalizing s with
  | nil => exact h
  | cons op ops ih =>
    have hop := hops op (List.mem_cons_self _ _)
    have hrest : ∀ o ∈ ops, o.reopens pid = false :=
      fun o ho => hops o (List.mem_cons_of_mem _ ho)
    have hstep : projectStatus (op.run s) pid = some "ARCHIVED" := by
      cases op with
      | create env body => exact status_after_create s env body pid _ h
      | update env id body => exact status_after_update s env id body pid h hop
      | archive env id => exact status_after_archive s env id pid h
    exact ih (op.run s) hstep hrest

/-- Instance of the amended C7: project 2 of the sample store is archived;
after a creation, a rename of project 2, a status change of project 1 and a
second archival of project 2, its status is still ARCHIVED. -/
theorem archived_stays_archived_witness :
    projectStatus (runProjectOps demoStore
      [.create demoEnv (.ok ⟨"Third", "Demo Client", none⟩),
        .update demoEnv "2" (.ok ⟨some "Older Project", none, none, none⟩),
        .update demoEnv "1" (.ok ⟨none, none, some "ACTIVE", none⟩),
        .archive demoEnv "2"]) 2 = some "ARCHIVED" :=
  archived_stays_archived _ demoStore 2 (by decide) (by decide)


/-! ## CSV import -/

theorem store_requirements_self (s : Store) :
    ({ s with requirements := ⟨s.requirements.rows ++ [], s.requirements.seq⟩ } : Store) = s := by
  cases s
  simp

/-- The read loop on a stream of records that the engine accepts: it ends
normally, the requirements table gains one row per record of non-zero length,
in the order of the records, each row carrying the columns that
`requirementOfRecord` derives from its record and no deletion mark, and
`createdRequirements` grows by the same rows. -/
theorem uploadLoop_ok (env : Env) (pid : Nat) (he : ∀ k, env.dbErr k = false)
    (records : List (List String)) :
    ∀ (s : Store) (created : List Requirement), ∃ (news : List Requirement) (seq : Nat),
      uploadLoop env pid (records.map Except.ok) s created =
        ({ s with requirements := ⟨s.requirements.rows ++ news, seq⟩ }, .ok (created ++ news)) ∧
      List.Forall₂
        (fun record r => record.length ≠ 0 ∧ ∃ m : Model, m.DeletedAt = none ∧
          r = { requirementOfRecord pid record with toModel := m })
        (records.filter (fun record => decide (record.length ≠ 0))) news := by
  induction records with
  | nil =>
    intro s created
    exact ⟨[], s.requirements.seq, by simp [uploadLoop, store_requirements_self], by simp⟩
  | cons record rest ih =>
    intro s created
    by_cases hlen : record.length = 0
    · obtain ⟨news, seq, hrun, hrows⟩ := ih s created
      refine ⟨news, seq, ?_, ?_⟩
      · simp only [List.map_cons, uploadLoop, hlen, if_true]
        exact hrun
      · have hf : List.filter (fun record : List String => decide (record.length ≠ 0))
            (record :: rest) =
            List.filter (fun record : List String => decide (record.length ≠ 0)) rest := by
          rw [List.filter_cons]
          simp [hlen]
        rw [hf]
        exact hrows
    · obtain ⟨news, seq, hrun, hrows⟩ :=
        ih { s with requirements :=
              s.requirements.create (env.now created.length) (requirementOfRecord pid record) }
          (created ++ [s.requirements.stamp (env.now created.length)
            (requirementOfRecord pid record)])
      refine ⟨s.requirements.stamp (env.now created.length) (requirementOfRecord pid record)
        :: news, seq, ?_, ?_⟩
      · simp only [List.map_cons, uploadLoop, hlen, if_false, dbCreate, he,
          Bool.false_eq_true]
        rw [hrun]
        simp [Table.create]
      · have hf : List.filter (fun record : List String => decide (record.length ≠ 0))
            (record :: rest) = record ::
            List.filter (fun record : List String => decide (record.length ≠ 0)) rest := by
          rw [List.filter_cons]
          simp [hlen]
        rw [hf]
        exact List.Forall₂.cons ⟨hlen, _, rfl, rfl⟩ hrows

theorem requirementOfRecord_take (pid : Nat) (record : List String) :
    requirementOfRecord pid (record.take 2) = requirementOfRecord pid record := by
  rcases record with _ | ⟨a, _ | ⟨b, l⟩⟩ <;> simp [requirementOfRecord]

theorem uploadLoop_take (env : Env) (pid : Nat) (reads : List ReadResult) :
    ∀ (s : Store) (created : List Requirement),
      uploadLoop env pid (reads.map (Except.map (List.take 2))) s created =
        uploadLoop env pid reads s created := by
  induction reads with
  | nil => intro s created; rfl
  | cons r rest ih =>
    intro s created
    cases r with
    | error msg => rfl
    | ok record =>
      have hlen : ((record.take 2).length = 0) ↔ (record.length = 0) := by
        rcases record with _ | ⟨a, _ | ⟨b, l⟩⟩ <;> simp
      by_cases h0 : record.length = 0
      · simp only [List.map_cons, Except.map, uploadLoop, h0, hlen.2 h0, if_true]
        exact ih s created
      · have h1 : ¬ (record.take 2).length = 0 := fun h => h0 (hlen.1 h)
        simp only [List.map_cons, Except.map, uploadLoop, h0, h1, if_false,
          requirementOfRecord_take]
        cases dbCreate env created.length s.requirements (requirementOfRecord pid record) with
        | none => rfl
        | some tr => exact ih _ _


/-- C8. Import of any sequence of records into an existing project `pid`,
the engine not failing: the requirements table gains one row per record of
non-zero length, in order, and the row made from a record has `ProjectID`
equal to `pid`, `Text` equal to column 0, `Status` equal to NOT_MET and
`Category` equal to column 1 when the record has a second column and that
column is not the empty string, and absent otherwise.  Moreover, for every
stream of read results, cutting every record down to its first two columns
changes neither the store the handler leaves nor its answer. -/
theorem csv_row_mapping (s : Store) (env : Env) (id : String) (pid : Nat)
    (hid : ParseUint id 32 = some pid) (hp : s.projects.has pid)
    (he : ∀ k, env.dbErr k = false) (records : List (List String)) :
    (∃ news : List Requirement,
      (UploadRequirementsCSV s env id (some (records.map Except.ok))).1.requirements.rows =
        s.requirements.rows ++ news ∧
      List.Forall₂
        (fun record r =>
          r.ProjectID = pid ∧ r.Status = "NOT_MET" ∧
          match record with
          | [] => False
          | [c0] => r.Text = c0 ∧ r.Category = none
          | c0 :: c1 :: _ => r.Text = c0 ∧ r.Category = if c1 = "" then none else some c1)
        (records.filter (fun record => decide (record.length ≠ 0))) news) ∧
    (∀ reads : List ReadResult,
      UploadRequirementsCSV s env id (some (reads.map (Except.map (List.take 2)))) =
        UploadRequirementsCSV s env id (some reads)) := by
  constructor
  · obtain ⟨project, hproject⟩ := (has_iff_first _ _).1 hp
    obtain ⟨news, seq, hrun, hrows⟩ := uploadLoop_ok env pid he records s []
    refine ⟨news, ?_, ?_⟩
    · simp only [UploadRequirementsCSV, hid, hproject, hrun]
    · refine hrows.imp ?_
      rintro record r ⟨hlen, m, -, rfl⟩
      rcases record with _ | ⟨c0, _ | ⟨c1, l⟩⟩
      · simp at hlen
      · simp [requirementOfRecord, RequirementStatusNotMet]
      · by_cases hc : c1 = "" <;> simp [requirementOfRecord, RequirementStatusNotMet, hc]
  · intro reads
    simp only [UploadRequirementsCSV, uploadLoop_take]

/-- Instance of C8 on the sample store: three records of three columns each,
the second with an empty second column, are imported into project 1. -/
theorem csv_row_mapping_witness :
    (∃ news : List Requirement,
      (UploadRequirementsCSV demoStore demoEnv "1" (some ([["Must encrypt data", "Security",
        "MET"], ["Must log access", "", "MET"], ["Must back up", "Ops", ""]].map Except.ok))).1.requirements.rows =
        demoStore.requirements.rows ++ news ∧
      List.Forall₂
        (fun record r =>
          r.ProjectID = 1 ∧ r.Status = "NOT_MET" ∧
          match record with
          | [] => False
          | [c0] => r.Text = c0 ∧ r.Category = none
          | c0 :: c1 :: _ => r.Text = c0 ∧ r.Category = if c1 = "" then none else some c1)
        ([["Must encrypt data", "Security", "MET"], ["Must log access", "", "MET"],
          ["Must back up", "Ops", ""]].filter (fun record => decide (record.length ≠ 0)))
        news) ∧
    (∀ reads : List ReadResult,
      UploadRequirementsCSV demoStore demoEnv "1"
          (some (reads.map (Except.map (List.take 2)))) =
        UploadRequirementsCSV demoStore demoEnv "1" (some reads)) :=
  csv_row_mapping demoStore demoEnv "1" 1 (by decide) (by decide) (fun _ => rfl) _

/-- C9. Import of a sequence of records, none of them a read error, into an
existing project, the engine not failing: the handler answers 201, the
requirements table becomes the old rows followed by the new rows `news`, one
per record of non-zero length (a record is skipped only when it has no
field) and in the order of the records, no other table changes, the reported
count is the number of new rows, and the returned projections are the
projections of the new rows, one each. -/
theorem csv_import_result (s : Store) (env : Env) (id : String) (pid : Nat)
    (hid : ParseUint id 32 = some pid) (hp : s.projects.has pid)
    (he : ∀ k, env.dbErr k = false) (records : List (List String)) :
    ∃ (news : List Requirement) (seq : Nat),
      UploadRequirementsCSV s env id (some (records.map Except.ok)) =
        ({ s with requirements := ⟨s.requirements.rows ++ news, seq⟩ },
          ⟨201, .uploaded "Requirements uploaded successfully" news.length
            (news.map (fun requirement => convertToRequirementResponse requirement []))⟩) ∧
      news.length = (records.filter (fun record => decide (record.length ≠ 0))).length ∧
      (news.map (fun requirement => convertToRequirementResponse requirement [])).length =
        news.length ∧
      List.Forall₂ (fun record r => r.Text = record.getD 0 "")
        (records.filter (fun record => decide (record.length ≠ 0))) news := by
  obtain ⟨project, hproject⟩ := (has_iff_first _ _).1 hp
  obtain ⟨news, seq, hrun, hrows⟩ := uploadLoop_ok env pid he records s []
  refine ⟨news, seq, ?_, hrows.length_eq.symm, List.length_map _ _, ?_⟩
  · simp only [UploadRequirementsCSV, hid, hproject, hrun, List.nil_append, StatusCreated]
  · refine hrows.imp ?_
    rintro record r ⟨-, m, -, rfl⟩
    rfl


/-- Instance of C9 with the three rows of section 8 of the specification,
imported into project 1 of the sample store at times 10, 11 and 12.  All
three rows have two fields, so none is skipped: three requirements are
created, the last one with an empty text. -/
theorem csv_import_result_witness :
    (∃ (news : List Requirement) (seq : Nat),
      UploadRequirementsCSV demoStore demoEnv "1" (some ([["Must encrypt data", "Security"],
        ["Must log access", ""], ["", ""]].map Except.ok)) =
        ({ demoStore with requirements := ⟨demoStore.requirements.rows ++ news, seq⟩ },
          ⟨201, .uploaded "Requirements uploaded successfully" news.length
            (news.map (fun requirement => convertToRequirementResponse requirement []))⟩) ∧
      news.length = ([["Must encrypt data", "Security"], ["Must log access", ""],
        ["", ""]].filter (fun record => decide (record.length ≠ 0))).length ∧
      (news.map (fun requirement => convertToRequirementResponse requirement [])).length =
        news.length ∧
      List.Forall₂ (fun record r => r.Text = record.getD 0 "")
        ([["Must encrypt data", "Security"], ["Must log access", ""],
          ["", ""]].filter (fun record => decide (record.length ≠ 0))) news) ∧
    (UploadRequirementsCSV demoStore demoEnv "1" (some ([["Must encrypt data", "Security"],
        ["Must log access", ""], ["", ""]].map Except.ok))).1.requirements.rows =
      [⟨⟨1, 5, 5, none⟩, 1, "Must support single sign-on", some "Authentication", "DRAFT"⟩,
        ⟨⟨2, 10, 10, none⟩, 1, "Must encrypt data", some "Security", "NOT_MET"⟩,
        ⟨⟨3, 11, 11, none⟩, 1, "Must log access", none, "NOT_MET"⟩,
        ⟨⟨4, 12, 12, none⟩, 1, "", none, "NOT_MET"⟩] :=
  ⟨csv_import_result demoStore demoEnv "1" 1 (by decide) (by decide) (fun _ => rfl) _,
    by decide⟩

/-- C10. For a well-formed id under which no project exists,
`UploadRequirementsCSV` answers 404 "Project not found" and returns the store
unchanged, whatever the uploaded file holds and also when no file is attached:
the file is not looked at before the project has been found. -/
theorem csv_import_missing_project (s : Store) (env : Env) (id : String) (pid : Nat)
    (hid : ParseUint id 32 = some pid) (hno : ¬ s.projects.has pid)
    (file : Option (List ReadResult)) :
    UploadRequirementsCSV s env id file =
      (s, ⟨404, .error ⟨"Project not found", "", 404⟩⟩) := by
  have hf := (first_eq_none_iff s.projects pid).2 hno
  simp [UploadRequirementsCSV, hid, hf, errorJSON, StatusNotFound]

/-- Instance of C10 on the sample store, which has no project 9: with a file
of one good record, with a file whose first read fails, and without a file. -/
theorem csv_import_missing_project_witness :
    UploadRequirementsCSV demoStore demoEnv "9" (some [.ok ["Must encrypt data", "Security"]]) =
      (demoStore, ⟨404, .error ⟨"Project not found", "", 404⟩⟩) ∧
    UploadRequirementsCSV demoStore demoEnv "9" (some [.error "bare quote"]) =
      (demoStore, ⟨404, .error ⟨"Project not found", "", 404⟩⟩) ∧
    UploadRequirementsCSV demoStore demoEnv "9" none =
      (demoStore, ⟨404, .error ⟨"Project not found", "", 404⟩⟩) :=
  ⟨csv_import_missing_project demoStore demoEnv "9" 9 (by decide) (by decide) _,
    csv_import_missing_project demoStore demoEnv "9" 9 (by decide) (by decide) _,
    csv_import_missing_project demoStore demoEnv "9" 9 (by decide) (by decide) _⟩


/-! ## Aborted CSV imports -/

/-- The read loop on a stream that starts with records `pre` whose inserts
the engine accepts: once they are consumed the loop goes on with the rest of
the stream from a store that holds one new row per record of non-zero length
in `pre`. -/
theorem uploadLoop_after_records (env : Env) (pid : Nat) (pre : List (List String)) :
    ∀ (s : Store) (created : List Requirement),
      (∀ k, created.length ≤ k →
        k < created.length + (pre.filter (fun record => decide (record.length ≠ 0))).length →
        env.dbErr k = false) →
      ∃ (news : List Requirement) (seq : Nat),
        news.length = (pre.filter (fun record => decide (record.length ≠ 0))).length ∧
        (∀ tail : List ReadResult,
          uploadLoop env pid (pre.map Except.ok ++ tail) s created =
            uploadLoop env pid tail
              { s with requirements := ⟨s.requirements.rows ++ news, seq⟩ }
              (created ++ news)) ∧
        List.Forall₂
          (fun record r => record.length ≠ 0 ∧ ∃ m : Model, m.DeletedAt = none ∧
            r = { requirementOfRecord pid record with toModel := m })
          (pre.filter (fun record => decide (record.length ≠ 0))) news := by
  induction pre with
  | nil =>
    intro s created _
    exact ⟨[], s.requirements.seq, rfl, fun tail => by simp [store_requirements_self],
      by simp⟩
  | cons record rest ih =>
    intro s created he
    by_cases hlen : record.length = 0
    · have hf : List.filter (fun record : List String => decide (record.length ≠ 0))
          (record :: rest) =
          List.filter (fun record : List String => decide (record.length ≠ 0)) rest := by
        rw [List.filter_cons]
        simp [hlen]
      rw [hf] at he ⊢
      obtain ⟨news, seq, hn, hrun, hrows⟩ := ih s created he
      refine ⟨news, seq, hn, fun tail => ?_, hrows⟩
      simp only [List.map_cons, List.cons_append, uploadLoop, hlen, if_true, List.append_eq]
      exact hrun tail
    · have hf : List.filter (fun record : List String => decide (record.length ≠ 0))
          (record :: rest) = record ::
          List.filter (fun record : List String => decide (record.length ≠ 0)) rest := by
        rw [List.filter_cons]
        simp [hlen]
      rw [hf] at he ⊢
      have h0 : env.dbErr created.length = false :=
        he created.length (Nat.le_refl _) (by simp)
      obtain ⟨news, seq, hn, hrun, hrows⟩ :=
        ih { s with requirements :=
              s.requirements.create (env.now created.length) (requirementOfRecord pid record) }
          (created ++ [s.requirements.stamp (env.now created.length)
            (requirementOfRecord pid record)])
          (fun k hk1 hk2 => he k (by simp at hk1; omega) (by simp at hk2 ⊢; omega))
      refine ⟨s.requirements.stamp (env.now created.length) (requirementOfRecord pid record)
        :: news, seq, by simp [hn], fun tail => ?_, List.Forall₂.cons ⟨hlen, _, rfl, rfl⟩ hrows⟩
      simp only [List.map_cons, List.cons_append, uploadLoop, hlen, if_false, dbCreate, h0,
        Bool.false_eq_true, List.append_eq]
      rw [hrun tail]
      simp [Table.create]

/-- C11. An import into an existing project whose first records `pre` are
read and inserted without failure leaves, when it aborts on what follows
them, the rows `news` made from `pre` in the store: whether the next read is
an error (answer 400 with the text of the read error) or the insert of the
next record fails (answer 500), the store holds the old rows followed by
`news`, one per record of non-zero length in `pre` and in their order, the
outcome does not depend on the reads `rest` that come after the failing one,
and the answer is an error body, which has no count and no projections. -/
theorem csv_aborted_import (s : Store) (env : Env) (id : String) (pid : Nat)
    (hid : ParseUint id 32 = some pid) (hp : s.projects.has pid)
    (pre : List (List String)) (rest : List ReadResult)
    (he : ∀ k, k < (pre.filter (fun record => decide (record.length ≠ 0))).length →
      env.dbErr k = false) :
    ∃ (news : List Requirement) (seq : Nat),
      List.Forall₂ (fun record r => r.ProjectID = pid ∧ r.Text = record.getD 0 "")
        (pre.filter (fun record => decide (record.length ≠ 0))) news ∧
      (∀ msg : String,
        UploadRequirementsCSV s env id (some (pre.map Except.ok ++ .error msg :: rest)) =
          ({ s with requirements := ⟨s.requirements.rows ++ news, seq⟩ },
            ⟨400, .error ⟨"Error reading CSV", msg, 400⟩⟩)) ∧
      (∀ record : List String, record.length ≠ 0 →
        env.dbErr (pre.filter (fun record => decide (record.length ≠ 0))).length = true →
        UploadRequirementsCSV s env id (some (pre.map Except.ok ++ .ok record :: rest)) =
          ({ s with requirements := ⟨s.requirements.rows ++ news, seq⟩ },
            ⟨500, .error ⟨"Failed to create requirement from CSV", "", 500⟩⟩)) := by
  obtain ⟨project, hproject⟩ := (has_iff_first _ _).1 hp
  obtain ⟨news, seq, hn, hrun, hrows⟩ := uploadLoop_after_records env pid pre s []
    (fun k _ hk => he k (by simpa using hk))
  refine ⟨news, seq, ?_, ?_, ?_⟩
  · refine hrows.imp ?_
    rintro record r ⟨-, m, -, rfl⟩
    exact ⟨rfl, rfl⟩
  · intro msg
    simp only [UploadRequirementsCSV, hid, hproject, hrun, uploadLoop, errorJSONWith,
      StatusBadRequest]
  · intro record hlen hfail
    rw [← hn] at hfail
    simp only [UploadRequirementsCSV, hid, hproject, hrun, uploadLoop, hlen, if_false,
      List.nil_append, dbCreate, hfail, if_true, errorJSON, StatusInternalServerError]

/-- Instance of C11 on the sample store: the first record is inserted as
requirement 2 at time 10; then either the second read fails, or the engine
fails the second insert.  In both cases requirement 2 stays in the store and
the third record is not looked at. -/
theorem csv_aborted_import_witness :
    (∃ (news : List Requirement) (seq : Nat),
      List.Forall₂ (fun record r => r.ProjectID = 1 ∧ r.Text = record.getD 0 "")
        ([["Must encrypt data", "Security"]].filter
          (fun record => decide (record.length ≠ 0))) news ∧
      (∀ msg : String,
        UploadRequirementsCSV demoStore ⟨fun k => 10 + k, fun k => decide (k = 1)⟩ "1"
            (some ([["Must encrypt data", "Security"]].map Except.ok ++
              .error msg :: [.ok ["Must back up", "Ops"]])) =
          ({ demoStore with requirements := ⟨demoStore.requirements.rows ++ news, seq⟩ },
            ⟨400, .error ⟨"Error reading CSV", msg, 400⟩⟩)) ∧
      (∀ record : List String, record.length ≠ 0 →
        (⟨fun k => 10 + k, fun k => decide (k = 1)⟩ : Env).dbErr
          ([["Must encrypt data", "Security"]].filter
            (fun record => decide (record.length ≠ 0))).length = true →
        UploadRequirementsCSV demoStore ⟨fun k => 10 + k, fun k => decide (k = 1)⟩ "1"
            (some ([["Must encrypt data", "Security"]].map Except.ok ++
              .ok record :: [.ok ["Must back up", "Ops"]])) =
          ({ demoStore with requirements := ⟨demoStore.requirements.rows ++ news, seq⟩ },
            ⟨500, .error ⟨"Failed to create requirement from CSV", "", 500⟩⟩))) ∧
    (UploadRequirementsCSV demoStore ⟨fun k => 10 + k, fun k => decide (k = 1)⟩ "1"
        (some [.ok ["Must encrypt data", "Security"], .ok ["Must log access", ""],
          .ok ["Must back up", "Ops"]])).1.requirements.rows =
      [⟨⟨1, 5, 5, none⟩, 1, "Must support single sign-on", some "Authentication", "DRAFT"⟩,
        ⟨⟨2, 10, 10, none⟩, 1, "Must encrypt data", some "Security", "NOT_MET"⟩] ∧
    (UploadRequirementsCSV demoStore ⟨fun k => 10 + k, fun k => decide (k = 1)⟩ "1"
        (some [.ok ["Must encrypt data", "Security"], .ok ["Must log access", ""],
          .ok ["Must back up", "Ops"]])).2.status = 500 :=
  ⟨csv_aborted_import demoStore ⟨fun k => 10 + k, fun k => decide (k = 1)⟩ "1" 1 (by decide)
      (by decide) [["Must encrypt data", "Security"]] [.ok ["Must back up", "Ops"]]
      (by decide),
    by decide, by decide⟩

/-! ## Defaults at creation -/

/-- C12. `CreateRequirement` under an existing project, with a body that
passes binding and an engine that does not fail: the answer is 201 with the
projection of the new row `r`, the store gains exactly `r`, and the status of
`r`, stored and returned, is NOT_MET when the body has no status and is the
status of the body otherwise. -/
theorem create_requirement_status (s : Store) (env : Env) (id : String) (pid : Nat)
    (body : Except String CreateRequirementRequest) (req : CreateRequirementRequest)
    (hid : ParseUint id 32 = some pid) (hb : bindCreateRequirementRequest body = .ok req)
    (hp : s.projects.has pid) (he : env.dbErr 0 = false) :
    ∃ r : Requirement,
      CreateRequirement s env id body =
        ({ s with requirements := ⟨s.requirements.rows ++ [r], s.requirements.nextID⟩ },
          ⟨201, .requirement (convertToRequirementResponse r [])⟩) ∧
      (convertToRequirementResponse r []).Status = r.Status ∧
      (req.Status = none → r.Status = "NOT_MET") ∧
      (∀ st, req.Status = some st → r.Status = st) := by
  obtain ⟨project, hproject⟩ := (has_iff_first _ _).1 hp
  refine ⟨s.requirements.stamp (env.now 0)
    { toModel := Model.zero, ProjectID := pid, Text := req.Text, Category := req.Category,
      Status := req.Status.getD "NOT_MET" }, ?_, rfl, ?_, ?_⟩
  · cases hs : req.Status <;>
      simp [CreateRequirement, hid, hb, hproject, dbCreate, he, hs, Table.create,
        StatusCreated, RequirementStatusNotMet]
  · intro hs
    simp [hs, Table.stamp, Entity.withModel]
  · intro st hs
    simp [hs, Table.stamp, Entity.withModel]

/-- Instance of C12 on the sample store: one creation without a status and one
with the status MET, under project 1. -/
theorem create_requirement_status_witness :
    (∃ r : Requirement,
      CreateRequirement demoStore demoEnv "1" (.ok ⟨1, "Encrypt data", none, none⟩) =
        ({ demoStore with requirements :=
            ⟨demoStore.requirements.rows ++ [r], demoStore.requirements.nextID⟩ },
          ⟨201, .requirement (convertToRequirementResponse r [])⟩) ∧
      (convertToRequirementResponse r []).Status = r.Status ∧
      ((none : Option String) = none → r.Status = "NOT_MET") ∧
      (∀ st, (none : Option String) = some st → r.Status = st)) ∧
    (∃ r : Requirement,
      CreateRequirement demoStore demoEnv "1" (.ok ⟨1, "Encrypt data", none, some "MET"⟩) =
        ({ demoStore with requirements :=
            ⟨demoStore.requirements.rows ++ [r], demoStore.requirements.nextID⟩ },
          ⟨201, .requirement (convertToRequirementResponse r [])⟩) ∧
      (convertToRequirementResponse r []).Status = r.Status ∧
      (some "MET" = none → r.Status = "NOT_MET") ∧
      (∀ st, some "MET" = some st → r.Status = st)) ∧
    (CreateRequirement demoStore demoEnv "1"
        (.ok ⟨1, "Encrypt data", none, none⟩)).1.requirements.first 2 =
      some ⟨⟨2, 10, 10, none⟩, 1, "Encrypt data", none, "NOT_MET"⟩ ∧
    (CreateRequirement demoStore demoEnv "1"
        (.ok ⟨1, "Encrypt data", none, some "MET"⟩)).1.requirements.first 2 =
      some ⟨⟨2, 10, 10, none⟩, 1, "Encrypt data", none, "MET"⟩ :=
  ⟨create_requirement_status demoStore demoEnv "1" 1 (.ok ⟨1, "Encrypt data", none, none⟩)
      ⟨1, "Encrypt data", none, none⟩ (by decide) rfl (by decide) rfl,
    create_requirement_status demoStore demoEnv "1" 1
      (.ok ⟨1, "Encrypt data", none, some "MET"⟩) ⟨1, "Encrypt data", none, some "MET"⟩
      (by decide) rfl (by decide) rfl,
    by decide, by decide⟩


/-- C13. Creation defaults of the other entities, for bodies that pass
binding, existing parents and an engine that does not fail.  `CreateProject`
stores and returns status NEW.  `CreateAuditTask` stores and returns the
status of the body, or PENDING when the body has none.  `CreateIssue` stores
and returns the status of the body, or OPEN when it has none, and the type of
the body, or DEFECT when it has none, each of the two fields on its own. -/
theorem create_defaults (s : Store) (env : Env) (he : env.dbErr 0 = false) :
    (∀ body req, bindCreateProjectRequest body = .ok req →
      ∃ p : Project,
        CreateProject s env body =
          ({ s with projects := ⟨s.projects.rows ++ [p], s.projects.nextID⟩ },
            ⟨201, .project (convertToProjectResponse p none [])⟩) ∧
        (convertToProjectResponse p none []).Status = p.Status ∧ p.Status = "NEW") ∧
    (∀ id n body req, ParseUint id 32 = some n → bindCreateAuditTaskRequest body = .ok req →
      s.requirements.has n →
      ∃ t : AuditTask,
        CreateAuditTask s env id body =
          ({ s with auditTasks := ⟨s.auditTasks.rows ++ [t], s.auditTasks.nextID⟩ },
            ⟨201, .auditTask (convertToAuditTaskResponse t none)⟩) ∧
        (convertToAuditTaskResponse t none).Status = t.Status ∧
        t.Status = req.Status.getD "PENDING") ∧
    (∀ id n body req, ParseUint id 32 = some n → bindCreateIssueRequest body = .ok req →
      s.auditTasks.has n →
      ∃ i : Issue,
        CreateIssue s env id body =
          ({ s with issues := ⟨s.issues.rows ++ [i], s.issues.nextID⟩ },
            ⟨201, .issue (convertToIssueResponse i)⟩) ∧
        (convertToIssueResponse i).Status = i.Status ∧
        (convertToIssueResponse i).IssueType = i.IssueType ∧
        i.Status = req.Status.getD "OPEN" ∧ i.IssueType = req.IssueType.getD "DEFECT") := by
  refine ⟨?_, ?_, ?_⟩
  · intro body req hb
    refine ⟨s.projects.stamp (env.now 0)
      { toModel := Model.zero, Name := req.Name, ClientName := req.ClientName,
        Status := "NEW", ClientID := req.ClientID }, ?_, rfl, rfl⟩
    simp [CreateProject, hb, dbCreate, he, Table.create, StatusCreated]
  · intro id n body req hid hb hp
    obtain ⟨parent, hparent⟩ := (has_iff_first _ _).1 hp
    refine ⟨s.auditTasks.stamp (env.now 0)
      { toModel := Model.zero, RequirementID := n, Text := req.Text,
        Status := req.Status.getD "PENDING", Notes := req.Notes }, ?_, rfl, rfl⟩
    cases hs : req.Status <;>
      simp [CreateAuditTask, hid, hb, hparent, dbCreate, he, hs, Table.create, StatusCreated]
  · intro id n body req hid hb hp
    obtain ⟨parent, hparent⟩ := (has_iff_first _ _).1 hp
    refine ⟨s.issues.stamp (env.now 0)
      { toModel := Model.zero, AuditTaskID := n, Title := req.Title,
        Description := req.Description, Priority := req.Priority, Phase := req.Phase,
        EstimateHrs := req.EstimateHrs, Status := req.Status.getD "OPEN",
        IssueType := req.IssueType.getD "DEFECT" }, ?_, rfl, rfl, rfl, rfl⟩
    cases hs : req.Status <;> cases ht : req.IssueType <;>
      simp [CreateIssue, hid, hb, hparent, dbCreate, he, hs, ht, Table.create, StatusCreated]

/-- Instance of C13 on the sample store: a project, an audit task without a
status under requirement 1, and an issue with a status but no type under
audit task 1. -/
theorem create_defaults_witness :
    (∃ p : Project,
      CreateProject demoStore demoEnv (.ok ⟨"Third", "Demo Client", none⟩) =
        ({ demoStore with projects :=
            ⟨demoStore.projects.rows ++ [p], demoStore.projects.nextID⟩ },
          ⟨201, .project (convertToProjectResponse p none [])⟩) ∧
      (convertToProjectResponse p none []).Status = p.Status ∧ p.Status = "NEW") ∧
    (∃ t : AuditTask,
      CreateAuditTask demoStore demoEnv "1" (.ok ⟨"Check logs", none, none⟩) =
        ({ demoStore with auditTasks :=
            ⟨demoStore.auditTasks.rows ++ [t], demoStore.auditTasks.nextID⟩ },
          ⟨201, .auditTask (convertToAuditTaskResponse t none)⟩) ∧
      (convertToAuditTaskResponse t none).Status = t.Status ∧
      t.Status = (none : Option String).getD "PENDING") ∧
    (∃ i : Issue,
      CreateIssue demoStore demoEnv "1"
          (.ok ⟨"Crash", none, none, none, none, some "CLOSED", none⟩) =
        ({ demoStore with issues := ⟨demoStore.issues.rows ++ [i], demoStore.issues.nextID⟩ },
          ⟨201, .issue (convertToIssueResponse i)⟩) ∧
      (convertToIssueResponse i).Status = i.Status ∧
      (convertToIssueResponse i).IssueType = i.IssueType ∧
      i.Status = (some "CLOSED").getD "OPEN" ∧
      i.IssueType = (none : Option String).getD "DEFECT") ∧
    (CreateIssue demoStore demoEnv "1"
        (.ok ⟨"Crash", none, none, none, none, some "CLOSED", none⟩)).1.issues.first 2 =
      some ⟨⟨2, 10, 10, none⟩, 1, "Crash", none, none, none, none, "CLOSED", "DEFECT"⟩ :=
  ⟨(create_defaults demoStore demoEnv rfl).1 (.ok ⟨"Third", "Demo Client", none⟩)
      ⟨"Third", "Demo Client", none⟩ rfl,
    (create_defaults demoStore demoEnv rfl).2.1 "1" 1 (.ok ⟨"Check logs", none, none⟩)
      ⟨"Check logs", none, none⟩ (by decide) rfl (by decide),
    (create_defaults demoStore demoEnv rfl).2.2 "1" 1
      (.ok ⟨"Crash", none, none, none, none, some "CLOSED", none⟩)
      ⟨"Crash", none, none, none, none, some "CLOSED", none⟩ (by decide) rfl (by decide),
    by decide⟩


/-! ## Projections -/

/-- C14. Client projection.  For a client value `c` whose `Users` field is
`us` and whose `Projects` field is `ps` (nil when not loaded, and possibly of
length zero when loaded): the `Users` field of `convertToClientResponse` is
absent exactly when `us` has no element, it is never an empty list, and when
present it has the length of `us` and its i-th element carries the id, name,
email, role, client id and two timestamps of the i-th element of `us`, with no
nested relation; the same holds for `Projects` and `ps`. -/
theorem client_projection (c : Client) (us : List User) (ps : List Project) :
    ((convertToClientResponse c us ps).Users = none ↔ us = []) ∧
    (convertToClientResponse c us ps).Users ≠ some [] ∧
    (∀ l, (convertToClientResponse c us ps).Users = some l →
      l.length = us.length ∧
      ∀ (i : Nat) (u : User), us[i]? = some u →
        l[i]? = some (.mk u.ID u.Name u.Email u.Role u.ClientID none none
          u.CreatedAt u.UpdatedAt)) ∧
    ((convertToClientResponse c us ps).Projects = none ↔ ps = []) ∧
    (convertToClientResponse c us ps).Projects ≠ some [] ∧
    (∀ l, (convertToClientResponse c us ps).Projects = some l →
      l.length = ps.length ∧
      ∀ (i : Nat) (q : Project), ps[i]? = some q →
        l[i]? = some (.mk q.ID q.Name q.ClientName q.Status q.ClientID none none none none
          q.CreatedAt q.UpdatedAt)) := by
  refine ⟨?_, ?_, ?_, ?_, ?_, ?_⟩
  · cases us <;> simp [convertToClientResponse, ClientResponse.Users]
  · cases us <;> simp [convertToClientResponse, ClientResponse.Users]
  · intro l hl
    cases us with
    | nil => simp [convertToClientResponse, ClientResponse.Users] at hl
    | cons a us =>
      simp only [convertToClientResponse, ClientResponse.Users, List.length_cons,
        Nat.succ_pos, gt_iff_lt, if_true, Option.some.injEq] at hl
      subst hl
      refine ⟨by simp, ?_⟩
      intro i u hu
      rw [List.getElem?_map, hu]
      rfl
  · cases ps <;> simp [convertToClientResponse, ClientResponse.Projects]
  · cases ps <;> simp [convertToClientResponse, ClientResponse.Projects]
  · intro l hl
    cases ps with
    | nil => simp [convertToClientResponse, ClientResponse.Projects] at hl
    | cons a ps =>
      simp only [convertToClientResponse, ClientResponse.Projects, List.length_cons,
        Nat.succ_pos, gt_iff_lt, if_true, Option.some.injEq] at hl
      subst hl
      refine ⟨by simp, ?_⟩
      intro i q hq
      rw [List.getElem?_map, hq]
      rfl


/-- Instance of C14: the sample client with one loaded user and with its
projects loaded but of length zero.  The user list is present with the one
element that mirrors the user, and the project list is absent. -/
theorem client_projection_witness :
    (convertToClientResponse
        ⟨⟨1, 5, 5, none⟩, "Demo Client Org", none, some "Ann", none⟩
        [⟨⟨1, 5, 5, none⟩, "Alice", "alice@example.com", "hash", "CONSULTANT", some 1⟩]
        []).Users =
      some [.mk 1 "Alice" "alice@example.com" "CONSULTANT" (some 1) none none 5 5] ∧
    ([UserResponse.mk 1 "Alice" "alice@example.com" "CONSULTANT" (some 1) none none 5 5].length
        = [(⟨⟨1, 5, 5, none⟩, "Alice", "alice@example.com", "hash", "CONSULTANT",
            some 1⟩ : User)].length ∧
      [UserResponse.mk 1 "Alice" "alice@example.com" "CONSULTANT" (some 1) none none 5 5][0]? =
        some (.mk 1 "Alice" "alice@example.com" "CONSULTANT" (some 1) none none 5 5)) ∧
    (convertToClientResponse
        ⟨⟨1, 5, 5, none⟩, "Demo Client Org", none, some "Ann", none⟩
        [⟨⟨1, 5, 5, none⟩, "Alice", "alice@example.com", "hash", "CONSULTANT", some 1⟩]
        []).Projects = none :=
  ⟨rfl,
    ⟨((client_projection ⟨⟨1, 5, 5, none⟩, "Demo Client Org", none, some "Ann", none⟩
        [⟨⟨1, 5, 5, none⟩, "Alice", "alice@example.com", "hash", "CONSULTANT", some 1⟩]
        []).2.2.1 _ rfl).1,
      ((client_projection ⟨⟨1, 5, 5, none⟩, "Demo Client Org", none, some "Ann", none⟩
        [⟨⟨1, 5, 5, none⟩, "Alice", "alice@example.com", "hash", "CONSULTANT", some 1⟩]
        []).2.2.1 _ rfl).2 0
        ⟨⟨1, 5, 5, none⟩, "Alice", "alice@example.com", "hash", "CONSULTANT", some 1⟩ rfl⟩,
    (client_projection ⟨⟨1, 5, 5, none⟩, "Demo Client Org", none, some "Ann", none⟩
      [⟨⟨1, 5, 5, none⟩, "Alice", "alice@example.com", "hash", "CONSULTANT", some 1⟩]
      []).2.2.2.1.2 rfl⟩


/-- Whatever the store and the id, a project projection answered by
`GetProject` has no `Requirements` field. -/
theorem getProject_requirements_absent (s : Store) (id : String) (r : ProjectResponse)
    (h : (GetProject s id).2.body = .project r) : r.Requirements = none := by
  unfold GetProject at h
  cases hid : ParseUint id 32 with
  | none => simp [hid, errorJSON] at h
  | some n =>
    cases hf : s.projects.first n with
    | none => simp [hid, hf, errorJSON] at h
    | some project =>
      cases hu : scanRows (preloadProjectUsers s project.ID) with
      | none => simp [hid, hf, hu, errorJSON] at h
      | some us =>
        simp only [hid, hf, hu, Body.project.injEq] at h
        subst h
        rfl

/-- C15 on the sample store.  Project 1 has a client and one requirement, and
`GetProject` loads both; the answer is 200 with a projection that carries the
client but whose `Requirements` field is absent, although the preload found
requirement 1. -/
theorem getProject_drops_requirements :
    preloadRequirements demoStore 1 =
      [⟨⟨1, 5, 5, none⟩, 1, "Must support single sign-on", some "Authentication", "DRAFT"⟩] ∧
    ∃ r : ProjectResponse,
      GetProject demoStore "1" = (demoStore, ⟨200, .project r⟩) ∧
      r.Client = some (.mk 1 "Demo Client Org" none (some "Ann") none none none 5 5) ∧
      r.Users = none ∧
      r.Requirements = none :=
  ⟨by decide, _, rfl, rfl, rfl, rfl⟩

/-! ## Deleting -/

theorem softDelete_of_missing {α : Type} [Entity α] (t : Table α) (now id : Nat)
    (h : ¬ t.stored id) : t.softDelete now id = t := by
  have hall : ∀ r ∈ t.rows, live id r = false := by
    intro r hr
    rw [Bool.eq_false_iff]
    intro hl
    exact h ⟨r, hr, (live_iff id r).1 hl⟩
  cases t with
  | mk rows seq =>
    simp only [Table.softDelete, Table.mk.injEq, and_true]
    have : ∀ l : List α, (∀ r ∈ l, live id r = false) →
        l.map (fun r => if live id r then markDeleted now r else r) = l := by
      intro l
      induction l with
      | nil => intro _; rfl
      | cons a l ih =>
        intro hl
        simp [hl a (List.mem_cons_self _ _), ih (fun r hr => hl r (List.mem_cons_of_mem _ hr))]
    exact this rows hall

/-- C16, as stated, fails: the sample store has no project 9, yet
`DeleteProject` with id 9 answers 200 with its acknowledgement, not 404, and
leaves the store as it is. -/
theorem delete_missing_answers_ok :
    ¬ demoStore.projects.has 9 ∧
    (DeleteProject demoStore demoEnv "9").2.status = 200 ∧
    (DeleteProject demoStore demoEnv "9").1 = demoStore := by
  refine ⟨by decide, by decide, by decide⟩

/-- C16, amended.  For every entity type, every store, every environment and
every id string, the answer of the delete handler has status 200, 400 or 500:
no delete answers NotFound.  For a well-formed id, when the engine does not
fail the write, the answer is 200 with the acknowledgement of the type,
whether or not the id refers to an existing record, and when no row is stored
under the id the store is returned unchanged. -/
theorem delete_of_missing (s : Store) (env : Env) (id : String) :
    ((((DeleteProject s env id).2.status = 200 ∨ (DeleteProject s env id).2.status = 400 ∨
        (DeleteProject s env id).2.status = 500)) ∧
      ∀ n, ParseUint id 32 = some n → env.dbErr 0 = false →
        (DeleteProject s env id).2 = ⟨200, .message "Project deleted successfully"⟩ ∧
        (¬ s.projects.stored n → (DeleteProject s env id).1 = s)) ∧
    ((((DeleteUser s env id).2.status = 200 ∨ (DeleteUser s env id).2.status = 400 ∨
        (DeleteUser s env id).2.status = 500)) ∧
      ∀ n, ParseUint id 32 = some n → env.dbErr 0 = false →
        (DeleteUser s env id).2 = ⟨200, .message "User deleted successfully"⟩ ∧
        (¬ s.users.stored n → (DeleteUser s env id).1 = s)) ∧
    ((((DeleteClient s env id).2.status = 200 ∨ (DeleteClient s env id).2.status = 400 ∨
        (DeleteClient s env id).2.status = 500)) ∧
      ∀ n, ParseUint id 32 = some n → env.dbErr 0 = false →
        (DeleteClient s env id).2 = ⟨200, .message "Client deleted successfully"⟩ ∧
        (¬ s.clients.stored n → (DeleteClient s env id).1 = s)) ∧
    ((((DeleteRequirement s env id).2.status = 200 ∨ (DeleteRequirement s env id).2.status = 400 ∨
        (DeleteRequirement s env id).2.status = 500)) ∧
      ∀ n, ParseUint id 32 = some n → env.dbErr 0 = false →
        (DeleteRequirement s env id).2 = ⟨200, .message "Requirement deleted successfully"⟩ ∧
        (¬ s.requirements.stored n → (DeleteRequirement s env id).1 = s)) ∧
    ((((DeleteAuditTask s env id).2.status = 200 ∨ (DeleteAuditTask s env id).2.status = 400 ∨
        (DeleteAuditTask s env id).2.status = 500)) ∧
      ∀ n, ParseUint id 32 = some n → env.dbErr 0 = false →
        (DeleteAuditTask s env id).2 = ⟨200, .message "Audit task deleted successfully"⟩ ∧
        (¬ s.auditTasks.stored n → (DeleteAuditTask s env id).1 = s)) ∧
    ((((DeleteIssue s env id).2.status = 200 ∨ (DeleteIssue s env id).2.status = 400 ∨
        (DeleteIssue s env id).2.status = 500)) ∧
      ∀ n, ParseUint id 32 = some n → env.dbErr 0 = false →
        (DeleteIssue s env id).2 = ⟨200, .message "Issue deleted successfully"⟩ ∧
        (¬ s.issues.stored n → (DeleteIssue s env id).1 = s)) := by
  refine ⟨?_, ?_, ?_, ?_, ?_, ?_⟩
  · constructor
    · unfold DeleteProject dbDelete
      cases ParseUint id 32 <;> cases env.dbErr 0 <;>
        simp [errorJSON, StatusOK, StatusBadRequest, StatusInternalServerError]
    · intro n hid he
      refine ⟨by simp [DeleteProject, hid, dbDelete, he, StatusOK], fun h => ?_⟩
      simp [DeleteProject, hid, dbDelete, he, softDelete_of_missing _ _ _ h]
  · constructor
    · unfold DeleteUser dbDelete
      cases ParseUint id 32 <;> cases env.dbErr 0 <;>
        simp [errorJSON, StatusOK, StatusBadRequest, StatusInternalServerError]
    · intro n hid he
      refine ⟨by simp [DeleteUser, hid, dbDelete, he, StatusOK], fun h => ?_⟩
      simp [DeleteUser, hid, dbDelete, he, softDelete_of_missing _ _ _ h]
  · constructor
    · unfold DeleteClient dbDelete
      cases ParseUint id 32 <;> cases env.dbErr 0 <;>
        simp [errorJSON, StatusOK, StatusBadRequest, StatusInternalServerError]
    · intro n hid he
      refine ⟨by simp [DeleteClient, hid, dbDelete, he, StatusOK], fun h => ?_⟩
      simp [DeleteClient, hid, dbDelete, he, softDelete_of_missing _ _ _ h]
  · constructor
    · unfold DeleteRequirement dbDelete
      cases ParseUint id 32 <;> cases env.dbErr 0 <;>
        simp [errorJSON, StatusOK, StatusBadRequest, StatusInternalServerError]
    · intro n hid he
      refine ⟨by simp [DeleteRequirement, hid, dbDelete, he, StatusOK], fun h => ?_⟩
      simp [DeleteRequirement, hid, dbDelete, he, softDelete_of_missing _ _ _ h]
  · constructor
    · unfold DeleteAuditTask dbDelete
      cases ParseUint id 32 <;> cases env.dbErr 0 <;>
        simp [errorJSON, StatusOK, StatusBadRequest, StatusInternalServerError]
    · intro n hid he
      refine ⟨by simp [DeleteAuditTask, hid, dbDelete, he, StatusOK], fun h => ?_⟩
      simp [DeleteAuditTask, hid, dbDelete, he, softDelete_of_missing _ _ _ h]
  · constructor
    · unfold DeleteIssue dbDelete
      cases ParseUint id 32 <;> cases env.dbErr 0 <;>
        simp [errorJSON, StatusOK, StatusBadRequest, StatusInternalServerError]
    · intro n hid he
      refine ⟨by simp [DeleteIssue, hid, dbDelete, he, StatusOK], fun h => ?_⟩
      simp [DeleteIssue, hid, dbDelete, he, softDelete_of_missing _ _ _ h]

/-- Instance of the amended C16: no row of any type is stored under id 9 in
the sample store, and each of the six delete handlers answers 200 for it and
leaves the store as it is. -/
theorem delete_of_missing_witness :
    ((DeleteProject demoStore demoEnv "9").2 = ⟨200, .message "Project deleted successfully"⟩ ∧
      (DeleteProject demoStore demoEnv "9").1 = demoStore) ∧
    ((DeleteUser demoStore demoEnv "9").2 = ⟨200, .message "User deleted successfully"⟩ ∧
      (DeleteUser demoStore demoEnv "9").1 = demoStore) ∧
    ((DeleteClient demoStore demoEnv "9").2 = ⟨200, .message "Client deleted successfully"⟩ ∧
      (DeleteClient demoStore demoEnv "9").1 = demoStore) ∧
    ((DeleteRequirement demoStore demoEnv "9").2 = ⟨200, .message "Requirement deleted successfully"⟩ ∧
      (DeleteRequirement demoStore demoEnv "9").1 = demoStore) ∧
    ((DeleteAuditTask demoStore demoEnv "9").2 = ⟨200, .message "Audit task deleted successfully"⟩ ∧
      (DeleteAuditTask demoStore demoEnv "9").1 = demoStore) ∧
    ((DeleteIssue demoStore demoEnv "9").2 = ⟨200, .message "Issue deleted successfully"⟩ ∧
      (DeleteIssue demoStore demoEnv "9").1 = demoStore) :=
  ⟨⟨(((delete_of_missing demoStore demoEnv "9").1).2 9 (by decide) rfl).1,
      (((delete_of_missing demoStore demoEnv "9").1).2 9 (by decide) rfl).2 (by decide)⟩,
    ⟨(((delete_of_missing demoStore demoEnv "9").2.1).2 9 (by decide) rfl).1,
      (((delete_of_missing demoStore demoEnv "9").2.1).2 9 (by decide) rfl).2 (by decide)⟩,
    ⟨(((delete_of_missing demoStore demoEnv "9").2.2.1).2 9 (by decide) rfl).1,
      (((delete_of_missing demoStore demoEnv "9").2.2.1).2 9 (by decide) rfl).2 (by decide)⟩,
    ⟨(((delete_of_missing demoStore demoEnv "9").2.2.2.1).2 9 (by decide) rfl).1,
      (((delete_of_missing demoStore demoEnv "9").2.2.2.1).2 9 (by decide) rfl).2 (by decide)⟩,
    ⟨(((delete_of_missing demoStore demoEnv "9").2.2.2.2.1).2 9 (by decide) rfl).1,
      (((delete_of_missing demoStore demoEnv "9").2.2.2.2.1).2 9 (by decide) rfl).2 (by decide)⟩,
    ⟨(((delete_of_missing demoStore demoEnv "9").2.2.2.2.2).2 9 (by decide) rfl).1,
      (((delete_of_missing demoStore demoEnv "9").2.2.2.2.2).2 9 (by decide) rfl).2 (by decide)⟩⟩


theorem model_markDeleted {α : Type} [Entity α] (now : Nat) (r : α) :
    Entity.model (markDeleted now r) = { Entity.model r with DeletedAt := some now } := by
  simp [markDeleted, Entity.model_withModel]

theorem live_markDeleted {α : Type} [Entity α] (id now : Nat) (r : α) :
    live id (markDeleted now r) = false := by
  simp [live, model_markDeleted]

/-- After the delete no row is selected by the deleted id. -/
theorem row_softDelete_self {α : Type} [Entity α] (t : Table α) (now id : Nat) :
    (t.softDelete now id).row id = none := by
  unfold Table.row Table.softDelete
  rw [List.find?_eq_none]
  intro x hx
  simp only [List.mem_map] at hx
  obtain ⟨r, -, rfl⟩ := hx
  by_cases h : live id r = true
  · simp [h, live_markDeleted]
  · simp [h]

/-- After the delete no record is found under the deleted id. -/
theorem first_softDelete_self {α : Type} [Entity α] (t : Table α) (now id : Nat) :
    (t.softDelete now id).first id = none := by
  unfold Table.first
  rw [row_softDelete_self]

/-- The delete leaves the row under every other id as it was. -/
theorem row_softDelete_other {α : Type} [Entity α] (t : Table α) (now id j : Nat)
    (hne : j ≠ id) : (t.softDelete now id).row j = t.row j := by
  unfold Table.row Table.softDelete
  simp only
  rw [find_map_of_live j]
  · cases h : List.find? (live j) t.rows with
    | none => rfl
    | some r =>
      have hr := (live_iff j r).1 (List.find?_some h)
      have : live id r = false := by
        rw [Bool.eq_false_iff]
        intro h2
        exact hne (hr.1.symm.trans ((live_iff id r).1 h2).1)
      simp [this]
  · intro r
    by_cases h : live id r = true
    · have hr := (live_iff id r).1 h
      have h1 : live j r = false := by
        rw [Bool.eq_false_iff]
        intro h2
        exact hne (((live_iff j r).1 h2).1.symm.trans hr.1)
      simp [h, h1, live_markDeleted]
    · simp [h]

/-- The delete leaves the record under every other id as it was. -/
theorem first_softDelete_other {α : Type} [Entity α] (t : Table α) (now id j : Nat)
    (hne : j ≠ id) : (t.softDelete now id).first j = t.first j :=
  first_congr (row_softDelete_other t now id j hne)

/-- The rows a list query sees after the delete are the rows it saw before,
in the same order, without those of the deleted id. -/
theorem find_softDelete {α : Type} [Entity α] (t : Table α) (now id : Nat) :
    (t.softDelete now id).find =
      t.find.filter (fun r => decide ((Entity.model r).ID ≠ id)) := by
  unfold Table.find Table.softDelete
  simp only
  induction t.rows with
  | nil => rfl
  | cons a l ih =>
    by_cases hd : (Entity.model a).DeletedAt = none
    · by_cases hi : (Entity.model a).ID = id
      · have hl : live id a = true := (live_iff id a).2 ⟨hi, hd⟩
        simp [List.filter_cons, hl, hd, hi, model_markDeleted, ih]
      · have hl : live id a = false := by
          rw [Bool.eq_false_iff]
          intro h
          exact hi ((live_iff id a).1 h).1
        simp [List.filter_cons, hl, hd, hi, ih]
    · have hl : live id a = false := by
        rw [Bool.eq_false_iff]
        intro h
        exact hd ((live_iff id a).1 h).2
      simp [List.filter_cons, hl, hd, ih]

theorem find_softDelete_ne {α : Type} [Entity α] (t : Table α) (now id : Nat) (r : α)
    (h : r ∈ (t.softDelete now id).find) : (Entity.model r).ID ≠ id := by
  rw [find_softDelete, List.mem_filter] at h
  simpa using h.2


theorem mem_of_mem_ite_filter {α : Type} {l : List α} {c : Prop} [Decidable c]
    {f : α → Bool} {a : α} (h : a ∈ (if c then l.filter f else l)) : a ∈ l := by
  split at h
  · exact (List.mem_filter.1 h).1
  · exact h

theorem dbFind_filter {α : Type} [Entity α] {env : Env} {k : Nat} {rows l : List α}
    (p : α → Bool) (h : dbFind env k rows = some l) :
    dbFind env k (rows.filter p) = some (l.filter p) := by
  obtain ⟨he, hs, rfl⟩ := dbFind_eq_some_iff.1 h
  exact dbFind_eq_some_iff.2 ⟨he, fun r hr => hs r (List.mem_filter.1 hr).1, rfl⟩

theorem ite_filter_comm {α : Type} (c : Prop) [Decidable c] (l : List α) (f g : α → Bool) :
    (if c then (l.filter g).filter f else l.filter g) = (if c then l.filter f else l).filter g := by
  split
  · rw [List.filter_filter, List.filter_filter]
    congr 1
    funext x
    exact Bool.and_comm _ _
  · rfl

theorem scanRows_flatMap_filter {α β : Type} [Entity β] (l : List α) (p : α → Bool)
    (f : α → List β) {rows : List β} (h : scanRows (l.flatMap f) = some rows) :
    scanRows ((l.filter p).flatMap f) = some ((l.filter p).flatMap f) := by
  obtain ⟨hs, -⟩ := scanRows_eq_some_iff.1 h
  refine scanRows_eq_some_iff.2 ⟨?_, rfl⟩
  intro r hr
  obtain ⟨a, ha, hra⟩ := List.mem_flatMap.1 hr
  exact hs r (List.mem_flatMap.2 ⟨a, (List.mem_filter.1 ha).1, hra⟩)

/-- C17. Delete by identity, without cascade.  For every entity type, a
well-formed id `n` under which a record exists and an engine that does not
fail the write: the delete handler answers 200 and changes the table of its
type only, so that the tables of the other types and the join table are what
they were; afterwards the get handler answers 404 for `n`; a list request
that was answered with a list before the delete is answered after it with the
same projections, in the same order, without those of id `n`, and whenever a
list request is answered with a list after the delete, no element of it has
id `n`; the record found under every other id of the same type is what it
was, and the rows a list query sees are the former ones, in order, without
those of id `n`.  The delete marks the row as deleted (the entities embed
`gorm.Model`) and does not take it out of the table; children and join rows
of the deleted record stay. -/
theorem delete_by_identity (s : Store) (env : Env) (id : String) (n : Nat)
    (hid : ParseUint id 32 = some n) (he : env.dbErr 0 = false) :
    (s.projects.has n →
      DeleteProject s env id =
        ({ s with projects := s.projects.softDelete (env.now 0) n },
          ⟨200, .message "Project deleted successfully"⟩) ∧
      GetProject (DeleteProject s env id).1 id =
        ((DeleteProject s env id).1,
          ⟨404, .error ⟨"Project not found", "", 404⟩⟩) ∧
      (∀ (env2 : Env) (q : String) (l : List ProjectResponse),
        (GetProjects s env2 q).2 = ⟨200, .projects l⟩ →
        (GetProjects (DeleteProject s env id).1 env2 q).2 =
          ⟨200, .projects (l.filter (fun x => decide (x.ID ≠ n)))⟩) ∧
      (∀ (env2 : Env) (q : String) (l : List ProjectResponse),
        (GetProjects (DeleteProject s env id).1 env2 q).2 = ⟨200, .projects l⟩ →
        ∀ x ∈ l, x.ID ≠ n) ∧
      (∀ j, j ≠ n →
        (DeleteProject s env id).1.projects.first j = s.projects.first j) ∧
      (DeleteProject s env id).1.projects.find =
        s.projects.find.filter (fun r => decide (r.ID ≠ n))) ∧
    (s.users.has n →
      DeleteUser s env id =
        ({ s with users := s.users.softDelete (env.now 0) n },
          ⟨200, .message "User deleted successfully"⟩) ∧
      GetUser (DeleteUser s env id).1 id =
        ((DeleteUser s env id).1,
          ⟨404, .error ⟨"User not found", "", 404⟩⟩) ∧
      (∀ (env2 : Env) (l : List UserResponse),
        (GetUsers s env2).2 = ⟨200, .users l⟩ →
        (GetUsers (DeleteUser s env id).1 env2).2 =
          ⟨200, .users (l.filter (fun x => decide (x.ID ≠ n)))⟩) ∧
      (∀ (env2 : Env) (l : List UserResponse),
        (GetUsers (DeleteUser s env id).1 env2).2 = ⟨200, .users l⟩ →
        ∀ x ∈ l, x.ID ≠ n) ∧
      (∀ j, j ≠ n →
        (DeleteUser s env id).1.users.first j = s.users.first j) ∧
      (DeleteUser s env id).1.users.find =
        s.users.find.filter (fun r => decide (r.ID ≠ n))) ∧
    (s.clients.has n →
      DeleteClient s env id =
        ({ s with clients := s.clients.softDelete (env.now 0) n },
          ⟨200, .message "Client deleted successfully"⟩) ∧
      GetClient (DeleteClient s env id).1 id =
        ((DeleteClient s env id).1,
          ⟨404, .error ⟨"Client not found", "", 404⟩⟩) ∧
      (∀ (env2 : Env) (l : List ClientResponse),
        (GetClients s env2).2 = ⟨200, .clients l⟩ →
        (GetClients (DeleteClient s env id).1 env2).2 =
          ⟨200, .clients (l.filter (fun x => decide (x.ID ≠ n)))⟩) ∧
      (∀ (env2 : Env) (l : List ClientResponse),
        (GetClients (DeleteClient s env id).1 env2).2 = ⟨200, .clients l⟩ →
        ∀ x ∈ l, x.ID ≠ n) ∧
      (∀ j, j ≠ n →
        (DeleteClient s env id).1.clients.first j = s.clients.first j) ∧
      (DeleteClient s env id).1.clients.find =
        s.clients.find.filter (fun r => decide (r.ID ≠ n))) ∧
    (s.requirements.has n →
      DeleteRequirement s env id =
        ({ s with requirements := s.requirements.softDelete (env.now 0) n },
          ⟨200, .message "Requirement deleted successfully"⟩) ∧
      GetRequirement (DeleteRequirement s env id).1 id =
        ((DeleteRequirement s env id).1,
          ⟨404, .error ⟨"Requirement not found", "", 404⟩⟩) ∧
      (∀ (colEq : Nat → String → Bool) (env2 : Env) (q : String) (l : List RequirementResponse),
        (GetRequirements colEq s env2 q).2 = ⟨200, .requirements l⟩ →
        (GetRequirements colEq (DeleteRequirement s env id).1 env2 q).2 =
          ⟨200, .requirements (l.filter (fun x => decide (x.ID ≠ n)))⟩) ∧
      (∀ (colEq : Nat → String → Bool) (env2 : Env) (q : String) (l : List RequirementResponse),
        (GetRequirements colEq (DeleteRequirement s env id).1 env2 q).2 = ⟨200, .requirements l⟩ →
        ∀ x ∈ l, x.ID ≠ n) ∧
      (∀ j, j ≠ n →
        (DeleteRequirement s env id).1.requirements.first j = s.requirements.first j) ∧
      (DeleteRequirement s env id).1.requirements.find =
        s.requirements.find.filter (fun r => decide (r.ID ≠ n))) ∧
    (s.auditTasks.has n →
      DeleteAuditTask s env id =
        ({ s with auditTasks := s.auditTasks.softDelete (env.now 0) n },
          ⟨200, .message "Audit task deleted successfully"⟩) ∧
      GetAuditTask (DeleteAuditTask s env id).1 id =
        ((DeleteAuditTask s env id).1,
          ⟨404, .error ⟨"Audit task not found", "", 404⟩⟩) ∧
      (∀ (colEq : Nat → String → Bool) (env2 : Env) (q : String) (l : List AuditTaskResponse),
        (GetAuditTasks colEq s env2 q).2 = ⟨200, .auditTasks l⟩ →
        (GetAuditTasks colEq (DeleteAuditTask s env id).1 env2 q).2 =
          ⟨200, .auditTasks (l.filter (fun x => decide (x.ID ≠ n)))⟩) ∧
      (∀ (colEq : Nat → String → Bool) (env2 : Env) (q : String) (l : List AuditTaskResponse),
        (GetAuditTasks colEq (DeleteAuditTask s env id).1 env2 q).2 = ⟨200, .auditTasks l⟩ →
        ∀ x ∈ l, x.ID ≠ n) ∧
      (∀ j, j ≠ n →
        (DeleteAuditTask s env id).1.auditTasks.first j = s.auditTasks.first j) ∧
      (DeleteAuditTask s env id).1.auditTasks.find =
        s.auditTasks.find.filter (fun r => decide (r.ID ≠ n))) ∧
    (s.issues.has n →
      DeleteIssue s env id =
        ({ s with issues := s.issues.softDelete (env.now 0) n },
          ⟨200, .message "Issue deleted successfully"⟩) ∧
      GetIssue (DeleteIssue s env id).1 id =
        ((DeleteIssue s env id).1,
          ⟨404, .error ⟨"Issue not found", "", 404⟩⟩) ∧
      (∀ (colEq : Nat → String → Bool) (env2 : Env) (q : String) (l : List IssueResponse),
        (GetIssues colEq s env2 q).2 = ⟨200, .issues l⟩ →
        (GetIssues colEq (DeleteIssue s env id).1 env2 q).2 =
          ⟨200, .issues (l.filter (fun x => decide (x.ID ≠ n)))⟩) ∧
      (∀ (colEq : Nat → String → Bool) (env2 : Env) (q : String) (l : List IssueResponse),
        (GetIssues colEq (DeleteIssue s env id).1 env2 q).2 = ⟨200, .issues l⟩ →
        ∀ x ∈ l, x.ID ≠ n) ∧
      (∀ j, j ≠ n →
        (DeleteIssue s env id).1.issues.first j = s.issues.first j) ∧
      (DeleteIssue s env id).1.issues.find =
        s.issues.find.filter (fun r => decide (r.ID ≠ n))) := by
  refine ⟨?_, ?_, ?_, ?_, ?_, ?_⟩
  · intro _
    have hdel : DeleteProject s env id =
        ({ s with projects := s.projects.softDelete (env.now 0) n },
          ⟨200, .message "Project deleted successfully"⟩) := by
      simp [DeleteProject, hid, dbDelete, he, StatusOK]
    rw [hdel]
    refine ⟨rfl, ?_, ?_, ?_, ?_, ?_⟩
    · simp [GetProject, hid, first_softDelete_self, errorJSON, StatusNotFound]
    · intro env2 q l hl
      simp only [GetProjects, find_softDelete, ite_filter_comm] at hl ⊢
      split at hl
      · simp [errorJSON, StatusInternalServerError] at hl
      · next rows hd =>
        simp only [StatusOK, Response.mk.injEq, Body.projects.injEq, true_and] at hl
        rw [dbFind_filter _ hd]
        simp only [StatusOK, Response.mk.injEq, Body.projects.injEq, true_and]
        rw [← hl, List.filter_map]
        rfl
    · intro env2 q l hl
      simp only [GetProjects, find_softDelete, ite_filter_comm] at hl
      split at hl
      · simp [errorJSON, StatusInternalServerError] at hl
      · next rows hd =>
        simp only [StatusOK, Response.mk.injEq, Body.projects.injEq, true_and] at hl
        obtain ⟨-, -, rfl⟩ := dbFind_eq_some_iff.1 hd
        intro x hx
        rw [← hl] at hx
        obtain ⟨r, hr, rfl⟩ := List.mem_map.1 hx
        simpa using (List.mem_filter.1 hr).2
    · intro j hj
      exact first_softDelete_other _ _ _ _ hj
    · exact find_softDelete _ _ _
  · intro _
    have hdel : DeleteUser s env id =
        ({ s with users := s.users.softDelete (env.now 0) n },
          ⟨200, .message "User deleted successfully"⟩) := by
      simp [DeleteUser, hid, dbDelete, he, StatusOK]
    rw [hdel]
    refine ⟨rfl, ?_, ?_, ?_, ?_, ?_⟩
    · simp [GetUser, hid, first_softDelete_self, errorJSON, StatusNotFound]
    · intro env2 l hl
      simp only [GetUsers, find_softDelete] at hl ⊢
      split at hl
      · simp [errorJSON, StatusInternalServerError] at hl
      · next rows hd =>
        simp only [StatusOK, Response.mk.injEq, Body.users.injEq, true_and] at hl
        rw [dbFind_filter _ hd]
        simp only [StatusOK, Response.mk.injEq, Body.users.injEq, true_and]
        rw [← hl, List.filter_map]
        rfl
    · intro env2 l hl
      simp only [GetUsers, find_softDelete] at hl
      split at hl
      · simp [errorJSON, StatusInternalServerError] at hl
      · next rows hd =>
        simp only [StatusOK, Response.mk.injEq, Body.users.injEq, true_and] at hl
        obtain ⟨-, -, rfl⟩ := dbFind_eq_some_iff.1 hd
        intro x hx
        rw [← hl] at hx
        obtain ⟨r, hr, rfl⟩ := List.mem_map.1 hx
        simpa using (List.mem_filter.1 hr).2
    · intro j hj
      exact first_softDelete_other _ _ _ _ hj
    · exact find_softDelete _ _ _
  · intro _
    have hdel : DeleteClient s env id =
        ({ s with clients := s.clients.softDelete (env.now 0) n },
          ⟨200, .message "Client deleted successfully"⟩) := by
      simp [DeleteClient, hid, dbDelete, he, StatusOK]
    rw [hdel]
    refine ⟨rfl, ?_, ?_, ?_, ?_, ?_⟩
    · simp [GetClient, hid, first_softDelete_self, errorJSON, StatusNotFound]
    · intro env2 l hl
      simp only [GetClients, find_softDelete] at hl ⊢
      split at hl
      · simp [errorJSON, StatusInternalServerError] at hl
      · next rows hd =>
        split at hl
        · simp [errorJSON, StatusInternalServerError] at hl
        · next us hus =>
          split at hl
          · simp [errorJSON, StatusInternalServerError] at hl
          · next ps hps =>
            simp only [StatusOK, Response.mk.injEq, Body.clients.injEq, true_and] at hl
            have e1 : (fun client : Client => preloadClientUsers
                { s with clients := s.clients.softDelete (env.now 0) n } client.ID) =
                fun client => preloadClientUsers s client.ID := rfl
            have e2 : (fun client : Client => preloadClientProjects
                { s with clients := s.clients.softDelete (env.now 0) n } client.ID) =
                fun client => preloadClientProjects s client.ID := rfl
            rw [dbFind_filter _ hd]
            simp only [e1, e2]
            rw [scanRows_flatMap_filter _ _ _ hus, scanRows_flatMap_filter _ _ _ hps]
            simp only [StatusOK, Response.mk.injEq, Body.clients.injEq, true_and]
            rw [← hl, List.filter_map]
            rfl
    · intro env2 l hl
      simp only [GetClients, find_softDelete] at hl
      split at hl
      · simp [errorJSON, StatusInternalServerError] at hl
      · next rows hd =>
        split at hl
        · simp [errorJSON, StatusInternalServerError] at hl
        · split at hl
          · simp [errorJSON, StatusInternalServerError] at hl
          · simp only [StatusOK, Response.mk.injEq, Body.clients.injEq, true_and] at hl
            obtain ⟨-, -, rfl⟩ := dbFind_eq_some_iff.1 hd
            intro x hx
            rw [← hl] at hx
            obtain ⟨r, hr, rfl⟩ := List.mem_map.1 hx
            simpa using (List.mem_filter.1 hr).2
    · intro j hj
      exact first_softDelete_other _ _ _ _ hj
    · exact find_softDelete _ _ _
  · intro _
    have hdel : DeleteRequirement s env id =
        ({ s with requirements := s.requirements.softDelete (env.now 0) n },
          ⟨200, .message "Requirement deleted successfully"⟩) := by
      simp [DeleteRequirement, hid, dbDelete, he, StatusOK]
    rw [hdel]
    refine ⟨rfl, ?_, ?_, ?_, ?_, ?_⟩
    · simp [GetRequirement, hid, first_softDelete_self, errorJSON, StatusNotFound]
    · intro colEq env2 q l hl
      simp only [GetRequirements, find_softDelete, ite_filter_comm] at hl ⊢
      split at hl
      · simp [errorJSON, StatusInternalServerError] at hl
      · next rows hd =>
        simp only [StatusOK, Response.mk.injEq, Body.requirements.injEq, true_and] at hl
        rw [dbFind_filter _ hd]
        simp only [StatusOK, Response.mk.injEq, Body.requirements.injEq, true_and]
        rw [← hl, List.filter_map]
        rfl
    · intro colEq env2 q l hl
      simp only [GetRequirements, find_softDelete, ite_filter_comm] at hl
      split at hl
      · simp [errorJSON, StatusInternalServerError] at hl
      · next rows hd =>
        simp only [StatusOK, Response.mk.injEq, Body.requirements.injEq, true_and] at hl
        obtain ⟨-, -, rfl⟩ := dbFind_eq_some_iff.1 hd
        intro x hx
        rw [← hl] at hx
        obtain ⟨r, hr, rfl⟩ := List.mem_map.1 hx
        simpa using (List.mem_filter.1 hr).2
    · intro j hj
      exact first_softDelete_other _ _ _ _ hj
    · exact find_softDelete _ _ _
  · intro _
    have hdel : DeleteAuditTask s env id =
        ({ s with auditTasks := s.auditTasks.softDelete (env.now 0) n },
          ⟨200, .message "Audit task deleted successfully"⟩) := by
      simp [DeleteAuditTask, hid, dbDelete, he, StatusOK]
    rw [hdel]
    refine ⟨rfl, ?_, ?_, ?_, ?_, ?_⟩
    · simp [GetAuditTask, hid, first_softDelete_self, errorJSON, StatusNotFound]
    · intro colEq env2 q l hl
      simp only [GetAuditTasks, find_softDelete, ite_filter_comm] at hl ⊢
      split at hl
      · simp [errorJSON, StatusInternalServerError] at hl
      · next rows hd =>
        simp only [StatusOK, Response.mk.injEq, Body.auditTasks.injEq, true_and] at hl
        rw [dbFind_filter _ hd]
        simp only [StatusOK, Response.mk.injEq, Body.auditTasks.injEq, true_and]
        rw [← hl, List.filter_map]
        rfl
    · intro colEq env2 q l hl
      simp only [GetAuditTasks, find_softDelete, ite_filter_comm] at hl
      split at hl
      · simp [errorJSON, StatusInternalServerError] at hl
      · next rows hd =>
        simp only [StatusOK, Response.mk.injEq, Body.auditTasks.injEq, true_and] at hl
        obtain ⟨-, -, rfl⟩ := dbFind_eq_some_iff.1 hd
        intro x hx
        rw [← hl] at hx
        obtain ⟨r, hr, rfl⟩ := List.mem_map.1 hx
        simpa using (List.mem_filter.1 hr).2
    · intro j hj
      exact first_softDelete_other _ _ _ _ hj
    · exact find_softDelete _ _ _
  · intro _
    have hdel : DeleteIssue s env id =
        ({ s with issues := s.issues.softDelete (env.now 0) n },
          ⟨200, .message "Issue deleted successfully"⟩) := by
      simp [DeleteIssue, hid, dbDelete, he, StatusOK]
    rw [hdel]
    refine ⟨rfl, ?_, ?_, ?_, ?_, ?_⟩
    · simp [GetIssue, hid, first_softDelete_self, errorJSON, StatusNotFound]
    · intro colEq env2 q l hl
      simp only [GetIssues, find_softDelete, ite_filter_comm] at hl ⊢
      split at hl
      · simp [errorJSON, StatusInternalServerError] at hl
      · next rows hd =>
        simp only [StatusOK, Response.mk.injEq, Body.issues.injEq, true_and] at hl
        rw [dbFind_filter _ hd]
        simp only [StatusOK, Response.mk.injEq, Body.issues.injEq, true_and]
        rw [← hl, List.filter_map]
        rfl
    · intro colEq env2 q l hl
      simp only [GetIssues, find_softDelete, ite_filter_comm] at hl
      split at hl
      · simp [errorJSON, StatusInternalServerError] at hl
      · next rows hd =>
        simp only [StatusOK, Response.mk.injEq, Body.issues.injEq, true_and] at hl
        obtain ⟨-, -, rfl⟩ := dbFind_eq_some_iff.1 hd
        intro x hx
        rw [← hl] at hx
        obtain ⟨r, hr, rfl⟩ := List.mem_map.1 hx
        simpa using (List.mem_filter.1 hr).2
    · intro j hj
      exact first_softDelete_other _ _ _ _ hj
    · exact find_softDelete _ _ _


/-- Instance of C17 on the sample store: requirement 1 is deleted at time 10.
It is then neither found nor listed, while its audit task, the issue of that
task and every other table are what they were. -/
theorem delete_by_identity_witness :
    (DeleteRequirement demoStore demoEnv "1" =
          ({ demoStore with requirements := demoStore.requirements.softDelete (demoEnv.now 0) 1 },
            ⟨200, .message "Requirement deleted successfully"⟩) ∧
        GetRequirement (DeleteRequirement demoStore demoEnv "1").1 "1" =
          ((DeleteRequirement demoStore demoEnv "1").1,
            ⟨404, .error ⟨"Requirement not found", "", 404⟩⟩) ∧
        (∀ (colEq : Nat → String → Bool) (env2 : Env) (q : String) (l : List RequirementResponse),
          (GetRequirements colEq demoStore env2 q).2 = ⟨200, .requirements l⟩ →
          (GetRequirements colEq (DeleteRequirement demoStore demoEnv "1").1 env2 q).2 =
            ⟨200, .requirements (l.filter (fun x => decide (x.ID ≠ 1)))⟩) ∧
        (∀ (colEq : Nat → String → Bool) (env2 : Env) (q : String) (l : List RequirementResponse),
          (GetRequirements colEq (DeleteRequirement demoStore demoEnv "1").1 env2 q).2 = ⟨200, .requirements l⟩ →
          ∀ x ∈ l, x.ID ≠ 1) ∧
        (∀ j, j ≠ 1 →
          (DeleteRequirement demoStore demoEnv "1").1.requirements.first j = demoStore.requirements.first j) ∧
        (DeleteRequirement demoStore demoEnv "1").1.requirements.find =
          demoStore.requirements.find.filter (fun r => decide (r.ID ≠ 1))) ∧
    (GetRequirements (fun _ _ => false) demoStore demoEnv "").2.status = 200 ∧
    (DeleteRequirement demoStore demoEnv "1").1.requirements.rows =
      [⟨⟨1, 5, 5, some 10⟩, 1, "Must support single sign-on", some "Authentication",
        "DRAFT"⟩] ∧
    (DeleteRequirement demoStore demoEnv "1").1.auditTasks = demoStore.auditTasks ∧
    (DeleteRequirement demoStore demoEnv "1").1.issues = demoStore.issues ∧
    (DeleteRequirement demoStore demoEnv "1").1.projects = demoStore.projects :=
  ⟨(delete_by_identity demoStore demoEnv "1" 1 (by decide) rfl).2.2.2.1 (by decide),
    by decide, by decide, by decide, by decide, by decide⟩

/-! ## Reading and updating what is not there -/

/-- C18. For every entity type and every well-formed id that refers to no
existing record: the get handler answers 404 with the NotFound error of the
type, and the update handler, for every decoded patch, answers the same 404
and returns the store unchanged. -/
theorem get_update_of_missing (s : Store) (env : Env) (id : String) (n : Nat)
    (hid : ParseUint id 32 = some n) :
    (¬ s.projects.has n →
      GetProject s id = (s, ⟨404, .error ⟨"Project not found", "", 404⟩⟩) ∧
      ∀ req, UpdateProject s env id (.ok req) =
        (s, ⟨404, .error ⟨"Project not found", "", 404⟩⟩)) ∧
    (¬ s.users.has n →
      GetUser s id = (s, ⟨404, .error ⟨"User not found", "", 404⟩⟩) ∧
      ∀ req, UpdateUser s env id (.ok req) =
        (s, ⟨404, .error ⟨"User not found", "", 404⟩⟩)) ∧
    (¬ s.clients.has n →
      GetClient s id = (s, ⟨404, .error ⟨"Client not found", "", 404⟩⟩) ∧
      ∀ req, UpdateClient s env id (.ok req) =
        (s, ⟨404, .error ⟨"Client not found", "", 404⟩⟩)) ∧
    (¬ s.requirements.has n →
      GetRequirement s id = (s, ⟨404, .error ⟨"Requirement not found", "", 404⟩⟩) ∧
      ∀ req, UpdateRequirement s env id (.ok req) =
        (s, ⟨404, .error ⟨"Requirement not found", "", 404⟩⟩)) ∧
    (¬ s.auditTasks.has n →
      GetAuditTask s id = (s, ⟨404, .error ⟨"Audit task not found", "", 404⟩⟩) ∧
      ∀ req, UpdateAuditTask s env id (.ok req) =
        (s, ⟨404, .error ⟨"Audit task not found", "", 404⟩⟩)) ∧
    (¬ s.issues.has n →
      GetIssue s id = (s, ⟨404, .error ⟨"Issue not found", "", 404⟩⟩) ∧
      ∀ req, UpdateIssue s env id (.ok req) =
        (s, ⟨404, .error ⟨"Issue not found", "", 404⟩⟩)) := by
  refine ⟨?_, ?_, ?_, ?_, ?_, ?_⟩ <;> intro h
  · have hf := (first_eq_none_iff s.projects n).2 h
    exact ⟨by simp [GetProject, hid, hf, errorJSON, StatusNotFound], fun req => by
      simp [UpdateProject, hid, bindUntagged, validate, hf, errorJSON, StatusNotFound]⟩
  · have hf := (first_eq_none_iff s.users n).2 h
    exact ⟨by simp [GetUser, hid, hf, errorJSON, StatusNotFound], fun req => by
      simp [UpdateUser, hid, bindUntagged, validate, hf, errorJSON, StatusNotFound]⟩
  · have hf := (first_eq_none_iff s.clients n).2 h
    exact ⟨by simp [GetClient, hid, hf, errorJSON, StatusNotFound], fun req => by
      simp [UpdateClient, hid, bindUntagged, validate, hf, errorJSON, StatusNotFound]⟩
  · have hf := (first_eq_none_iff s.requirements n).2 h
    exact ⟨by simp [GetRequirement, hid, hf, errorJSON, StatusNotFound], fun req => by
      simp [UpdateRequirement, hid, bindUntagged, validate, hf, errorJSON, StatusNotFound]⟩
  · have hf := (first_eq_none_iff s.auditTasks n).2 h
    exact ⟨by simp [GetAuditTask, hid, hf, errorJSON, StatusNotFound], fun req => by
      simp [UpdateAuditTask, hid, bindUntagged, validate, hf, errorJSON, StatusNotFound]⟩
  · have hf := (first_eq_none_iff s.issues n).2 h
    exact ⟨by simp [GetIssue, hid, hf, errorJSON, StatusNotFound], fun req => by
      simp [UpdateIssue, hid, bindUntagged, validate, hf, errorJSON, StatusNotFound]⟩

/-- Instance of C18 on the sample store, where no record of any type has
id 9: a get and an update with a one-field patch for each of the six types. -/
theorem get_update_of_missing_witness :
    (GetProject demoStore "9" = (demoStore, ⟨404, .error ⟨"Project not found", "", 404⟩⟩) ∧
      UpdateProject demoStore demoEnv "9" (.ok ⟨some "Renamed", none, none, none⟩) =
        (demoStore, ⟨404, .error ⟨"Project not found", "", 404⟩⟩)) ∧
    (GetUser demoStore "9" = (demoStore, ⟨404, .error ⟨"User not found", "", 404⟩⟩) ∧
      UpdateUser demoStore demoEnv "9" (.ok ⟨none, none, some "ADMIN", none⟩) =
        (demoStore, ⟨404, .error ⟨"User not found", "", 404⟩⟩)) ∧
    (GetClient demoStore "9" = (demoStore, ⟨404, .error ⟨"Client not found", "", 404⟩⟩) ∧
      UpdateClient demoStore demoEnv "9" (.ok ⟨none, some "Retail", none, none⟩) =
        (demoStore, ⟨404, .error ⟨"Client not found", "", 404⟩⟩)) ∧
    (GetRequirement demoStore "9" =
        (demoStore, ⟨404, .error ⟨"Requirement not found", "", 404⟩⟩) ∧
      UpdateRequirement demoStore demoEnv "9" (.ok ⟨none, none, some "MET"⟩) =
        (demoStore, ⟨404, .error ⟨"Requirement not found", "", 404⟩⟩)) ∧
    (GetAuditTask demoStore "9" =
        (demoStore, ⟨404, .error ⟨"Audit task not found", "", 404⟩⟩) ∧
      UpdateAuditTask demoStore demoEnv "9" (.ok ⟨some "Check logs", none, none⟩) =
        (demoStore, ⟨404, .error ⟨"Audit task not found", "", 404⟩⟩)) ∧
    (GetIssue demoStore "9" = (demoStore, ⟨404, .error ⟨"Issue not found", "", 404⟩⟩) ∧
      UpdateIssue demoStore demoEnv "9" (.ok ⟨none, none, some "HIGH", none, none, none, none⟩) =
        (demoStore, ⟨404, .error ⟨"Issue not found", "", 404⟩⟩)) :=
  ⟨⟨((get_update_of_missing demoStore demoEnv "9" 9 (by decide)).1 (by decide)).1,
      ((get_update_of_missing demoStore demoEnv "9" 9 (by decide)).1 (by decide)).2 _⟩,
    ⟨((get_update_of_missing demoStore demoEnv "9" 9 (by decide)).2.1 (by decide)).1,
      ((get_update_of_missing demoStore demoEnv "9" 9 (by decide)).2.1 (by decide)).2 _⟩,
    ⟨((get_update_of_missing demoStore demoEnv "9" 9 (by decide)).2.2.1 (by decide)).1,
      ((get_update_of_missing demoStore demoEnv "9" 9 (by decide)).2.2.1 (by decide)).2 _⟩,
    ⟨((get_update_of_missing demoStore demoEnv "9" 9 (by decide)).2.2.2.1 (by decide)).1,
      ((get_update_of_missing demoStore demoEnv "9" 9 (by decide)).2.2.2.1 (by decide)).2 _⟩,
    ⟨((get_update_of_missing demoStore demoEnv "9" 9 (by decide)).2.2.2.2.1 (by decide)).1,
      ((get_update_of_missing demoStore demoEnv "9" 9 (by decide)).2.2.2.2.1 (by decide)).2 _⟩,
    ⟨((get_update_of_missing demoStore demoEnv "9" 9 (by decide)).2.2.2.2.2 (by decide)).1,
      ((get_update_of_missing demoStore demoEnv "9" 9 (by decide)).2.2.2.2.2 (by decide)).2 _⟩⟩


/-! ## Status and role vocabularies -/

/-- C19, as stated, fails: the status BOGUS is none of DRAFT, NOT_MET and MET,
yet `CreateRequirement` answers 201 and stores it, and `UpdateRequirement`
answers 200 and stores it. -/
theorem requirement_status_unchecked :
    "BOGUS" ∉ ["DRAFT", "NOT_MET", "MET"] ∧
    (CreateRequirement demoStore demoEnv "1"
      (.ok ⟨1, "Encrypt data", none, some "BOGUS"⟩)).2.status = 201 ∧
    (CreateRequirement demoStore demoEnv "1"
      (.ok ⟨1, "Encrypt data", none, some "BOGUS"⟩)).1.requirements.first 2 =
      some ⟨⟨2, 10, 10, none⟩, 1, "Encrypt data", none, "BOGUS"⟩ ∧
    (UpdateRequirement demoStore demoEnv "1" (.ok ⟨none, none, some "BOGUS"⟩)).2.status = 200 ∧
    (UpdateRequirement demoStore demoEnv "1"
      (.ok ⟨none, none, some "BOGUS"⟩)).1.requirements.first 1 =
      some ⟨⟨1, 5, 10, none⟩, 1, "Must support single sign-on", some "Authentication",
        "BOGUS"⟩ := by
  refine ⟨by decide, by decide, by decide, by decide, by decide⟩

/-- C19, amended.  The requirement status is an open string.  For every
string `st`, a well-formed id and an engine that does not fail:
`CreateRequirement` under an existing project, with a body whose `projectId`
is not zero and whose `text` is not empty, answers 201 and stores and returns
a requirement of status `st` when the body supplies `st`; `UpdateRequirement`
of an existing requirement answers 200 and stores and returns status `st`
when the patch supplies `st`.  Neither handler rejects a request because of
its status. -/
theorem requirement_status_open (s : Store) (env : Env) (id : String) (n : Nat) (st : String)
    (hid : ParseUint id 32 = some n) (he : env.dbErr 0 = false) :
    (∀ req : CreateRequirementRequest, req.ProjectID ≠ 0 → req.Text ≠ "" →
      req.Status = some st → s.projects.has n →
      ∃ r : Requirement,
        CreateRequirement s env id (.ok req) =
          ({ s with requirements := ⟨s.requirements.rows ++ [r], s.requirements.nextID⟩ },
            ⟨201, .requirement (convertToRequirementResponse r [])⟩) ∧
        r.Status = st ∧ (convertToRequirementResponse r []).Status = st) ∧
    (∀ (req : UpdateRequirementRequest) (old : Requirement), req.Status = some st →
      s.requirements.first n = some old →
      ∃ r : Requirement,
        (UpdateRequirement s env id (.ok req)).2 =
          ⟨200, .requirement (convertToRequirementResponse r [])⟩ ∧
        (UpdateRequirement s env id (.ok req)).1.requirements.first n = some r ∧
        r.Status = st ∧ (convertToRequirementResponse r []).Status = st) := by
  constructor
  · intro req h1 h2 hs hp
    obtain ⟨project, hproject⟩ := (has_iff_first _ _).1 hp
    refine ⟨s.requirements.stamp (env.now 0)
      { toModel := Model.zero, ProjectID := n, Text := req.Text, Category := req.Category,
        Status := st }, ?_, rfl, rfl⟩
    simp [CreateRequirement, hid, bindCreateRequirementRequest, validate, h1, h2, hproject,
      dbCreate, he, hs, Table.create, StatusCreated]
  · intro req old hs hold
    have h := first_save_same_model s.requirements (env.now 0) n old
      (applyUpdateRequirement old req) hold (by rw [applyUpdateRequirement_eq]; rfl) rfl
    refine ⟨touch (env.now 0) (applyUpdateRequirement old req), ?_, ?_, ?_, ?_⟩
    · simp only [UpdateRequirement, hid, bindUntagged, validate, List.filter_nil, List.map_nil,
        hold, dbSave, he, Bool.false_eq_true, if_false, StatusOK]
    · simp only [UpdateRequirement, hid, bindUntagged, validate, List.filter_nil, List.map_nil,
        hold, dbSave, he, Bool.false_eq_true, if_false, h]
    · rw [applyUpdateRequirement_eq, hs]; rfl
    · rw [applyUpdateRequirement_eq, hs]; rfl

/-- Instance of the amended C19 on the sample store with the status BOGUS. -/
theorem requirement_status_open_witness :
    (∃ r : Requirement,
      CreateRequirement demoStore demoEnv "1" (.ok ⟨1, "Encrypt data", none, some "BOGUS"⟩) =
        ({ demoStore with requirements :=
            ⟨demoStore.requirements.rows ++ [r], demoStore.requirements.nextID⟩ },
          ⟨201, .requirement (convertToRequirementResponse r [])⟩) ∧
      r.Status = "BOGUS" ∧ (convertToRequirementResponse r []).Status = "BOGUS") ∧
    (∃ r : Requirement,
      (UpdateRequirement demoStore demoEnv "1" (.ok ⟨none, none, some "BOGUS"⟩)).2 =
        ⟨200, .requirement (convertToRequirementResponse r [])⟩ ∧
      (UpdateRequirement demoStore demoEnv "1"
        (.ok ⟨none, none, some "BOGUS"⟩)).1.requirements.first 1 = some r ∧
      r.Status = "BOGUS" ∧ (convertToRequirementResponse r []).Status = "BOGUS") :=
  ⟨(requirement_status_open demoStore demoEnv "1" 1 "BOGUS" (by decide) rfl).1
      ⟨1, "Encrypt data", none, some "BOGUS"⟩ (by decide) (by decide) rfl (by decide),
    (requirement_status_open demoStore demoEnv "1" 1 "BOGUS" (by decide) rfl).2
      ⟨none, none, some "BOGUS"⟩
      ⟨⟨1, 5, 5, none⟩, 1, "Must support single sign-on", some "Authentication", "DRAFT"⟩
      rfl (by decide)⟩


theorem validate_ok {R : Type} (r r' : R) (checks : List (Bool × String))
    (h : validate r checks = .ok r') : r' = r ∧ ∀ c ∈ checks, c.1 = false := by
  unfold validate at h
  split at h
  · next heq =>
    injection h with h
    refine ⟨h.symm, ?_⟩
    intro c hc
    have hnil : checks.filter (fun c => c.1) = [] := by simpa using heq
    cases hb : c.1 with
    | false => rfl
    | true =>
      have : c ∈ checks.filter (fun c => c.1) := List.mem_filter.2 ⟨hc, hb⟩
      rw [hnil] at this
      simp at this
  · simp at h

/-- `CreateUser` checks the role: a body whose role is none of ADMIN,
CONSULTANT and CLIENT is answered with 400 and the store is returned
unchanged, whatever the test behind the `email` tag. -/
theorem create_user_rejects_role (isEmail : String → Bool) (s : Store) (env : Env)
    (req : CreateUserRequest) (h : req.Role ∉ [RoleAdmin, RoleConsultant, RoleClient]) :
    ∃ msg, CreateUser isEmail s env (.ok req) =
      (s, ⟨400, .error ⟨"Invalid request", msg, 400⟩⟩) := by
  cases hv : bindCreateUserRequest isEmail (.ok req) with
  | error msg => exact ⟨msg, by simp [CreateUser, hv, errorJSONWith, StatusBadRequest]⟩
  | ok r =>
    exfalso
    obtain ⟨-, hall⟩ := validate_ok _ _ _ hv
    have h4 := hall (decide (req.Role = ""),
      fieldError "CreateUserRequest" "Role" "required") (by simp)
    have h5 := hall (decide (req.Role ≠ "") &&
        !decide (req.Role ∈ [RoleAdmin, RoleConsultant, RoleClient]),
      fieldError "CreateUserRequest" "Role" "oneof") (by simp)
    simp only [decide_eq_false_iff_not] at h4
    simp [h4, h] at h5

/-- C20 on the sample store.  `CreateUser` answers 400 to a body with the role
HACKER, which is none of ADMIN, CONSULTANT and CLIENT, and 201 to the same body
with the role CLIENT, which creates user 2.  `UpdateUser` with a patch that
supplies the role HACKER for user 2 is not rejected: it answers 200 and the
stored role of the user created through `CreateUser` is HACKER. -/
theorem update_user_role_unchecked :
    "HACKER" ∉ [RoleAdmin, RoleConsultant, RoleClient] ∧
    (CreateUser (fun _ => true) demoStore demoEnv
      (.ok ⟨"Bob", "bob@example.com", "HACKER", none⟩)).2.status = 400 ∧
    (CreateUser (fun _ => true) demoStore demoEnv
      (.ok ⟨"Bob", "bob@example.com", "CLIENT", none⟩)).2.status = 201 ∧
    (CreateUser (fun _ => true) demoStore demoEnv
      (.ok ⟨"Bob", "bob@example.com", "CLIENT", none⟩)).1.users.first 2 =
      some ⟨⟨2, 10, 10, none⟩, "Bob", "bob@example.com", "", "CLIENT", none⟩ ∧
    (UpdateUser (CreateUser (fun _ => true) demoStore demoEnv
        (.ok ⟨"Bob", "bob@example.com", "CLIENT", none⟩)).1 demoEnv "2"
      (.ok ⟨none, none, some "HACKER", none⟩)).2.status = 200 ∧
    (UpdateUser (CreateUser (fun _ => true) demoStore demoEnv
        (.ok ⟨"Bob", "bob@example.com", "CLIENT", none⟩)).1 demoEnv "2"
      (.ok ⟨none, none, some "HACKER", none⟩)).1.users.first 2 =
      some ⟨⟨2, 10, 10, none⟩, "Bob", "bob@example.com", "", "HACKER", none⟩ := by
  refine ⟨by decide, by decide, by decide, by decide, by decide, by decide⟩


/-! ## Assignment followed by removal -/

/-- What `RemoveUserFromProject` does when both records exist and the engine
does not fail: it answers 200 and the join rows of the pair are gone. -/
theorem remove_ok (s : Store) (env : Env) (id userId : String) (pid uid : Nat)
    (hid : ParseUint id 32 = some pid) (huid : ParseUint userId 32 = some uid)
    (hp : s.projects.has pid) (hu : s.users.has uid) (he : env.dbErr 0 = false) :
    (RemoveUserFromProject s env id userId).2.status = 200 ∧
    (RemoveUserFromProject s env id userId).1.projectUsers =
      unlinked s.projectUsers pid uid := by
  obtain ⟨project, hproject⟩ := (has_iff_first _ _).1 hp
  obtain ⟨user, huser⟩ := (has_iff_first _ _).1 hu
  have hpl := first_some_live hproject
  have hul := first_some_live huser
  simp only [Entity.model] at hpl hul
  constructor
  · simp [RemoveUserFromProject, hid, huid, hproject, huser, associationDelete, he, StatusOK]
  · simp [RemoveUserFromProject, hid, huid, hproject, huser, associationDelete, he, hpl.1,
      hul.1]

theorem unlinked_linked (rows : List (Nat × Nat)) (pid uid : Nat) :
    unlinked (linked rows pid uid) pid uid =
      rows.filter (fun pu => decide (pu ≠ (pid, uid))) := by
  have hfun : (fun pu : Nat × Nat => !decide (pu = (pid, uid))) =
      (fun pu => decide (pu ≠ (pid, uid))) := by
    funext pu
    simp
  unfold unlinked linked
  rw [hfun]
  split
  · rfl
  · simp [List.filter_append]

/-- C30. In a store that holds project `pid` and user `uid`, when the engine
does not fail the two writes, an assignment followed by a removal both answer
200 and leave as join table the original one without the rows of the pair:
no row for the pair is left, and every other row is kept, in its place.  When
the pair was not linked beforehand the join table is the original one. -/
theorem assign_then_remove (s : Store) (env1 env2 : Env) (id userId : String) (pid uid : Nat)
    (hid : ParseUint id 32 = some pid) (huid : ParseUint userId 32 = some uid)
    (hp : s.projects.has pid) (hu : s.users.has uid)
    (h1 : env1.dbErr 0 = false) (h2 : env2.dbErr 0 = false) :
    (AssignUserToProject s env1 id userId).2.status = 200 ∧
    (RemoveUserFromProject (AssignUserToProject s env1 id userId).1 env2 id userId).2.status
      = 200 ∧
    (RemoveUserFromProject (AssignUserToProject s env1 id userId).1 env2 id
        userId).1.projectUsers =
      s.projectUsers.filter (fun pu => decide (pu ≠ (pid, uid))) ∧
    (pid, uid) ∉ (RemoveUserFromProject (AssignUserToProject s env1 id userId).1 env2 id
      userId).1.projectUsers ∧
    ((pid, uid) ∉ s.projectUsers →
      (RemoveUserFromProject (AssignUserToProject s env1 id userId).1 env2 id
        userId).1.projectUsers = s.projectUsers) := by
  obtain ⟨hs1, hl1, hu1, hp1⟩ := assign_ok s env1 id userId pid uid hid huid hp hu h1
  obtain ⟨hs2, hl2⟩ := remove_ok (AssignUserToProject s env1 id userId).1 env2 id userId
    pid uid hid huid hp1 (by rw [hu1]; exact hu) h2
  have hres := hl2
  rw [hl1, unlinked_linked] at hres
  refine ⟨hs1, hs2, hres, ?_, ?_⟩
  · rw [hres]
    simp
  · intro hno
    rw [hres, List.filter_eq_self]
    intro a ha
    have : a ≠ (pid, uid) := fun e => hno (e ▸ ha)
    simpa using this

/-- Instance of C30 on the sample store, where user 1 is not assigned to
project 1: after the assignment and the removal the join table is empty
again. -/
theorem assign_then_remove_witness :
    ((AssignUserToProject demoStore demoEnv "1" "1").2.status = 200 ∧
      (RemoveUserFromProject (AssignUserToProject demoStore demoEnv "1" "1").1 demoEnv "1"
        "1").2.status = 200 ∧
      (RemoveUserFromProject (AssignUserToProject demoStore demoEnv "1" "1").1 demoEnv "1"
          "1").1.projectUsers =
        demoStore.projectUsers.filter (fun pu => decide (pu ≠ (1, 1))) ∧
      (1, 1) ∉ (RemoveUserFromProject (AssignUserToProject demoStore demoEnv "1" "1").1 demoEnv
        "1" "1").1.projectUsers ∧
      ((1, 1) ∉ demoStore.projectUsers →
        (RemoveUserFromProject (AssignUserToProject demoStore demoEnv "1" "1").1 demoEnv "1"
          "1").1.projectUsers = demoStore.projectUsers)) ∧
    (AssignUserToProject demoStore demoEnv "1" "1").1.projectUsers = [(1, 1)] ∧
    (RemoveUserFromProject (AssignUserToProject demoStore demoEnv "1" "1").1 demoEnv "1"
      "1").1.projectUsers = [] :=
  ⟨assign_then_remove demoStore demoEnv demoEnv "1" "1" 1 1 (by decide) (by decide)
      (by decide) (by decide) rfl rfl,
    by decide, by decide⟩


/-! ## Optional fields under update -/

theorem updateClient_result (s : Store) (env : Env) (id : String) (n : Nat)
    (hid : ParseUint id 32 = some n) (req : UpdateClientRequest) (old : Client)
    (hold : s.clients.first n = some old) :
    (UpdateClient s env id (.ok req)).1.clients.first n = some old ∨
    (UpdateClient s env id (.ok req)).1.clients.first n =
      some (touch (env.now 0) (applyUpdateClient old req)) := by
  cases he : env.dbErr 0 with
  | true =>
    left
    simp only [UpdateClient, hid, bindUntagged, validate, List.filter_nil, List.map_nil, hold,
      dbSave, he, if_true]
  | false =>
    right
    have h := first_save_same_model s.clients (env.now 0) n old (applyUpdateClient old req) hold
      (by rw [applyUpdateClient_eq]; rfl) rfl
    simp only [UpdateClient, hid, bindUntagged, validate, List.filter_nil, List.map_nil, hold,
      dbSave, he, Bool.false_eq_true, if_false, h]

theorem updateUser_result (s : Store) (env : Env) (id : String) (n : Nat)
    (hid : ParseUint id 32 = some n) (req : UpdateUserRequest) (old : User)
    (hold : s.users.first n = some old) :
    (UpdateUser s env id (.ok req)).1.users.first n = some old ∨
    (UpdateUser s env id (.ok req)).1.users.first n =
      some (touch (env.now 0) (applyUpdateUser old req)) ∨
    (UpdateUser s env id (.ok req)).1.users.first n = none := by
  cases he : env.dbErr 0 with
  | true =>
    left
    simp only [UpdateUser, hid, bindUntagged, validate, List.filter_nil, List.map_nil, hold,
      dbSave, he, if_true]
  | false =>
    right
    have hrow := row_save_same_model s.users (env.now 0) n old (applyUpdateUser old req)
      (first_some_iff.1 hold).1 (by rw [applyUpdateUser_eq]; rfl)
    have hstore : (UpdateUser s env id (.ok req)).1.users =
        s.users.save (env.now 0) (applyUpdateUser old req) := by
      simp only [UpdateUser, hid, bindUntagged, validate, List.filter_nil, List.map_nil, hold,
        dbSave, he, Bool.false_eq_true, if_false]
    rw [hstore]
    unfold Table.first
    rw [hrow]
    cases Entity.scans (touch (env.now 0) (applyUpdateUser old req)) <;> simp

theorem updateProject_result (s : Store) (env : Env) (id : String) (n : Nat)
    (hid : ParseUint id 32 = some n) (req : UpdateProjectRequest) (old : Project)
    (hold : s.projects.first n = some old) :
    (UpdateProject s env id (.ok req)).1.projects.first n = some old ∨
    (UpdateProject s env id (.ok req)).1.projects.first n =
      some (touch (env.now 0) (applyUpdateProject old req)) ∨
    (UpdateProject s env id (.ok req)).1.projects.first n = none := by
  cases he : env.dbErr 0 with
  | true =>
    left
    simp only [UpdateProject, hid, bindUntagged, validate, List.filter_nil, List.map_nil, hold,
      dbSave, he, if_true]
  | false =>
    right
    have hrow := row_save_same_model s.projects (env.now 0) n old (applyUpdateProject old req)
      (first_some_iff.1 hold).1 (by rw [applyUpdateProject_eq]; rfl)
    have hstore : (UpdateProject s env id (.ok req)).1.projects =
        s.projects.save (env.now 0) (applyUpdateProject old req) := by
      simp only [UpdateProject, hid, bindUntagged, validate, List.filter_nil, List.map_nil, hold,
        dbSave, he, Bool.false_eq_true, if_false]
    rw [hstore]
    unfold Table.first
    rw [hrow]
    cases Entity.scans (touch (env.now 0) (applyUpdateProject old req)) <;> simp

theorem updateRequirement_result (s : Store) (env : Env) (id : String) (n : Nat)
    (hid : ParseUint id 32 = some n) (req : UpdateRequirementRequest) (old : Requirement)
    (hold : s.requirements.first n = some old) :
    (UpdateRequirement s env id (.ok req)).1.requirements.first n = some old ∨
    (UpdateRequirement s env id (.ok req)).1.requirements.first n =
      some (touch (env.now 0) (applyUpdateRequirement old req)) := by
  cases he : env.dbErr 0 with
  | true =>
    left
    simp only [UpdateRequirement, hid, bindUntagged, validate, List.filter_nil, List.map_nil, hold,
      dbSave, he, if_true]
  | false =>
    right
    have h := first_save_same_model s.requirements (env.now 0) n old (applyUpdateRequirement old req) hold
      (by rw [applyUpdateRequirement_eq]; rfl) rfl
    simp only [UpdateRequirement, hid, bindUntagged, validate, List.filter_nil, List.map_nil, hold,
      dbSave, he, Bool.false_eq_true, if_false, h]

theorem updateAuditTask_result (s : Store) (env : Env) (id : String) (n : Nat)
    (hid : ParseUint id 32 = some n) (req : UpdateAuditTaskRequest) (old : AuditTask)
    (hold : s.auditTasks.first n = some old) :
    (UpdateAuditTask s env id (.ok req)).1.auditTasks.first n = some old ∨
    (UpdateAuditTask s env id (.ok req)).1.auditTasks.first n =
      some (touch (env.now 0) (applyUpdateAuditTask old req)) := by
  cases he : env.dbErr 0 with
  | true =>
    left
    simp only [UpdateAuditTask, hid, bindUntagged, validate, List.filter_nil, List.map_nil, hold,
      dbSave, he, if_true]
  | false =>
    right
    have h := first_save_same_model s.auditTasks (env.now 0) n old (applyUpdateAuditTask old req) hold
      (by rw [applyUpdateAuditTask_eq]; rfl) rfl
    simp only [UpdateAuditTask, hid, bindUntagged, validate, List.filter_nil, List.map_nil, hold,
      dbSave, he, Bool.false_eq_true, if_false, h]

theorem updateIssue_result (s : Store) (env : Env) (id : String) (n : Nat)
    (hid : ParseUint id 32 = some n) (req : UpdateIssueRequest) (old : Issue)
    (hold : s.issues.first n = some old) :
    (UpdateIssue s env id (.ok req)).1.issues.first n = some old ∨
    (UpdateIssue s env id (.ok req)).1.issues.first n =
      some (touch (env.now 0) (applyUpdateIssue old req)) := by
  cases he : env.dbErr 0 with
  | true =>
    left
    simp only [UpdateIssue, hid, bindUntagged, validate, List.filter_nil, List.map_nil, hold,
      dbSave, he, if_true]
  | false =>
    right
    have h := first_save_same_model s.issues (env.now 0) n old (applyUpdateIssue old req) hold
      (by rw [applyUpdateIssue_eq]; rfl) rfl
    simp only [UpdateIssue, hid, bindUntagged, validate, List.filter_nil, List.map_nil, hold,
      dbSave, he, Bool.false_eq_true, if_false, h]

/-- C29. An update cannot clear an optional field.  For each of the six
update handlers, every well-formed id, every patch and every environment: if
`old` is the entity stored under the id before the update and `new` the one
stored under it afterwards, each optional field that holds a value in `old`
holds a value in `new`; and when the patch supplies no field at all, `new` is
`old` up to the update time. -/
theorem update_keeps_optional (s : Store) (env : Env) (id : String) (n : Nat)
    (hid : ParseUint id 32 = some n) :
    (∀ (req : UpdateClientRequest) (old new : Client), s.clients.first n = some old →
      (UpdateClient s env id (.ok req)).1.clients.first n = some new →
      (old.Industry.isSome → new.Industry.isSome) ∧
      (old.ContactName.isSome → new.ContactName.isSome) ∧
      (old.ContactEmail.isSome → new.ContactEmail.isSome) ∧
      (req = ⟨none, none, none, none⟩ → { new with UpdatedAt := old.UpdatedAt } = old)) ∧
    (∀ (req : UpdateUserRequest) (old new : User), s.users.first n = some old →
      (UpdateUser s env id (.ok req)).1.users.first n = some new →
      (old.ClientID.isSome → new.ClientID.isSome) ∧
      (req = ⟨none, none, none, none⟩ → { new with UpdatedAt := old.UpdatedAt } = old)) ∧
    (∀ (req : UpdateProjectRequest) (old new : Project), s.projects.first n = some old →
      (UpdateProject s env id (.ok req)).1.projects.first n = some new →
      (old.ClientID.isSome → new.ClientID.isSome) ∧
      (req = ⟨none, none, none, none⟩ → { new with UpdatedAt := old.UpdatedAt } = old)) ∧
    (∀ (req : UpdateRequirementRequest) (old new : Requirement), s.requirements.first n = some old →
      (UpdateRequirement s env id (.ok req)).1.requirements.first n = some new →
      (old.Category.isSome → new.Category.isSome) ∧
      (req = ⟨none, none, none⟩ → { new with UpdatedAt := old.UpdatedAt } = old)) ∧
    (∀ (req : UpdateAuditTaskRequest) (old new : AuditTask), s.auditTasks.first n = some old →
      (UpdateAuditTask s env id (.ok req)).1.auditTasks.first n = some new →
      (old.Notes.isSome → new.Notes.isSome) ∧
      (req = ⟨none, none, none⟩ → { new with UpdatedAt := old.UpdatedAt } = old)) ∧
    (∀ (req : UpdateIssueRequest) (old new : Issue), s.issues.first n = some old →
      (UpdateIssue s env id (.ok req)).1.issues.first n = some new →
      (old.Description.isSome → new.Description.isSome) ∧
      (old.Priority.isSome → new.Priority.isSome) ∧
      (old.Phase.isSome → new.Phase.isSome) ∧
      (old.EstimateHrs.isSome → new.EstimateHrs.isSome) ∧
      (req = ⟨none, none, none, none, none, none, none⟩ → { new with UpdatedAt := old.UpdatedAt } = old)) := by
  refine ⟨?_, ?_, ?_, ?_, ?_, ?_⟩
  · intro req old new hold hnew
    rcases updateClient_result s env id n hid req old hold with h | h
    · rw [h] at hnew
      cases hnew
      refine ⟨fun h => h, fun h => h, fun h => h, fun _ => rfl⟩
    · rw [h, applyUpdateClient_eq] at hnew
      cases hnew
      refine ⟨?_, ?_, ?_, ?_⟩
      · intro h; cases hr : req.Industry <;> simp_all [touch, Entity.withModel, Entity.model]
      · intro h; cases hr : req.ContactName <;> simp_all [touch, Entity.withModel, Entity.model]
      · intro h; cases hr : req.ContactEmail <;> simp_all [touch, Entity.withModel, Entity.model]
      · intro hr; subst hr; rfl
  · intro req old new hold hnew
    rcases updateUser_result s env id n hid req old hold with h | h | h
    · rw [h] at hnew
      cases hnew
      refine ⟨fun h => h, fun _ => rfl⟩
    · rw [h, applyUpdateUser_eq] at hnew
      cases hnew
      refine ⟨?_, ?_⟩
      · intro h; cases hr : req.ClientID <;> simp_all [touch, Entity.withModel, Entity.model]
      · intro hr; subst hr; rfl
    · rw [h] at hnew
      cases hnew
  · intro req old new hold hnew
    rcases updateProject_result s env id n hid req old hold with h | h | h
    · rw [h] at hnew
      cases hnew
      refine ⟨fun h => h, fun _ => rfl⟩
    · rw [h, applyUpdateProject_eq] at hnew
      cases hnew
      refine ⟨?_, ?_⟩
      · intro h; cases hr : req.ClientID <;> simp_all [touch, Entity.withModel, Entity.model]
      · intro hr; subst hr; rfl
    · rw [h] at hnew
      cases hnew
  · intro req old new hold hnew
    rcases updateRequirement_result s env id n hid req old hold with h | h
    · rw [h] at hnew
      cases hnew
      refine ⟨fun h => h, fun _ => rfl⟩
    · rw [h, applyUpdateRequirement_eq] at hnew
      cases hnew
      refine ⟨?_, ?_⟩
      · intro h; cases hr : req.Category <;> simp_all [touch, Entity.withModel, Entity.model]
      · intro hr; subst hr; rfl
  · intro req old new hold hnew
    rcases updateAuditTask_result s env id n hid req old hold with h | h
    · rw [h] at hnew
      cases hnew
      refine ⟨fun h => h, fun _ => rfl⟩
    · rw [h, applyUpdateAuditTask_eq] at hnew
      cases hnew
      refine ⟨?_, ?_⟩
      · intro h; cases hr : req.Notes <;> simp_all [touch, Entity.withModel, Entity.model]
      · intro hr; subst hr; rfl
  · intro req old new hold hnew
    rcases updateIssue_result s env id n hid req old hold with h | h
    · rw [h] at hnew
      cases hnew
      refine ⟨fun h => h, fun h => h, fun h => h, fun h => h, fun _ => rfl⟩
    · rw [h, applyUpdateIssue_eq] at hnew
      cases hnew
      refine ⟨?_, ?_, ?_, ?_, ?_⟩
      · intro h; cases hr : req.Description <;> simp_all [touch, Entity.withModel, Entity.model]
      · intro h; cases hr : req.Priority <;> simp_all [touch, Entity.withModel, Entity.model]
      · intro h; cases hr : req.Phase <;> simp_all [touch, Entity.withModel, Entity.model]
      · intro h; cases hr : req.EstimateHrs <;> simp_all [touch, Entity.withModel, Entity.model]
      · intro hr; subst hr; rfl


/-- Instance of C29 on the sample store: a patch that supplies only the
industry of client 1 keeps its contact name, and the empty patch on issue 1
keeps its description and its estimate and changes only the update time. -/
theorem update_keeps_optional_witness :
    (((none : Option String).isSome → (some "Retail").isSome) ∧
      ((some "Ann").isSome → (some "Ann").isSome) ∧
      ((none : Option String).isSome → (none : Option String).isSome) ∧
      (((⟨none, some "Retail", none, none⟩ : UpdateClientRequest) = ⟨none, none, none, none⟩) →
        ({ (⟨⟨1, 5, 10, none⟩, "Demo Client Org", some "Retail", some "Ann", none⟩ : Client)
            with UpdatedAt := 5 } : Client) =
          ⟨⟨1, 5, 5, none⟩, "Demo Client Org", none, some "Ann", none⟩)) ∧
    (((some "Broken in Safari").isSome → (some "Broken in Safari").isSome) ∧
      ((none : Option String).isSome → (none : Option String).isSome) ∧
      ((none : Option String).isSome → (none : Option String).isSome) ∧
      ((some (3 : Int)).isSome → (some (3 : Int)).isSome) ∧
      (((⟨none, none, none, none, none, none, none⟩ : UpdateIssueRequest) =
          ⟨none, none, none, none, none, none, none⟩) →
        ({ (⟨⟨1, 5, 10, none⟩, 1, "Login fails on Safari", some "Broken in Safari", none, none,
            some 3, "OPEN", "DEFECT"⟩ : Issue) with UpdatedAt := 5 } : Issue) =
          ⟨⟨1, 5, 5, none⟩, 1, "Login fails on Safari", some "Broken in Safari", none, none,
            some 3, "OPEN", "DEFECT"⟩)) ∧
    (UpdateIssue demoStore demoEnv "1"
      (.ok ⟨none, none, none, none, none, none, none⟩)).1.issues.first 1 =
      some ⟨⟨1, 5, 10, none⟩, 1, "Login fails on Safari", some "Broken in Safari", none, none,
        some 3, "OPEN", "DEFECT"⟩ :=
  ⟨(update_keeps_optional demoStore demoEnv "1" 1 (by decide)).1
      ⟨none, some "Retail", none, none⟩
      ⟨⟨1, 5, 5, none⟩, "Demo Client Org", none, some "Ann", none⟩
      ⟨⟨1, 5, 10, none⟩, "Demo Client Org", some "Retail", some "Ann", none⟩
      (by decide) (by decide),
    (update_keeps_optional demoStore demoEnv "1" 1 (by decide)).2.2.2.2.2
      ⟨none, none, none, none, none, none, none⟩
      ⟨⟨1, 5, 5, none⟩, 1, "Login fails on Safari", some "Broken in Safari", none, none,
        some 3, "OPEN", "DEFECT"⟩
      ⟨⟨1, 5, 10, none⟩, 1, "Login fails on Safari", some "Broken in Safari", none, none,
        some 3, "OPEN", "DEFECT"⟩
      (by decide) (by decide),
    by decide⟩


/-! ## The project of a new requirement -/

/-- C28. `CreateRequirement` takes the owning project from the path.  For a
well-formed path id `pid`: a decoded body whose `projectId` is zero (or
missing) is answered with 400 and the store is returned unchanged; and for
every body that passes binding, when project `pid` exists and the engine does
not fail, the requirement stored and returned has `ProjectID` equal to `pid`,
whatever `projectId` the body carries. -/
theorem create_requirement_project (s : Store) (env : Env) (id : String) (pid : Nat)
    (hid : ParseUint id 32 = some pid) :
    (∀ req : CreateRequirementRequest, req.ProjectID = 0 →
      ∃ msg, CreateRequirement s env id (.ok req) =
        (s, ⟨400, .error ⟨"Invalid request", msg, 400⟩⟩)) ∧
    (∀ body req, bindCreateRequirementRequest body = .ok req → s.projects.has pid →
      env.dbErr 0 = false →
      ∃ r : Requirement,
        CreateRequirement s env id body =
          ({ s with requirements := ⟨s.requirements.rows ++ [r], s.requirements.nextID⟩ },
            ⟨201, .requirement (convertToRequirementResponse r [])⟩) ∧
        r.ProjectID = pid ∧ (convertToRequirementResponse r []).ProjectID = pid) := by
  constructor
  · intro req h0
    cases hv : bindCreateRequirementRequest (.ok req) with
    | error msg =>
      exact ⟨msg, by simp [CreateRequirement, hid, hv, errorJSONWith, StatusBadRequest]⟩
    | ok r =>
      exfalso
      obtain ⟨-, hall⟩ := validate_ok _ _ _ hv
      have h1 := hall (decide (req.ProjectID = 0),
        fieldError "CreateRequirementRequest" "ProjectID" "required") (by simp)
      simp [h0] at h1
  · intro body req hb hp he
    obtain ⟨project, hproject⟩ := (has_iff_first _ _).1 hp
    refine ⟨s.requirements.stamp (env.now 0)
      { toModel := Model.zero, ProjectID := pid, Text := req.Text, Category := req.Category,
        Status := req.Status.getD "NOT_MET" }, ?_, rfl, rfl⟩
    cases hs : req.Status <;>
      simp [CreateRequirement, hid, hb, hproject, dbCreate, he, hs, Table.create,
        StatusCreated, RequirementStatusNotMet]

/-- Instance of C28 on the sample store: under path id 1, a body with
`projectId` 0 is refused, and a body with `projectId` 2 is stored under
project 1. -/
theorem create_requirement_project_witness :
    (∃ msg, CreateRequirement demoStore demoEnv "1" (.ok ⟨0, "Encrypt data", none, none⟩) =
      (demoStore, ⟨400, .error ⟨"Invalid request", msg, 400⟩⟩)) ∧
    (∃ r : Requirement,
      CreateRequirement demoStore demoEnv "1" (.ok ⟨2, "Encrypt data", none, none⟩) =
        ({ demoStore with requirements :=
            ⟨demoStore.requirements.rows ++ [r], demoStore.requirements.nextID⟩ },
          ⟨201, .requirement (convertToRequirementResponse r [])⟩) ∧
      r.ProjectID = 1 ∧ (convertToRequirementResponse r []).ProjectID = 1) ∧
    (CreateRequirement demoStore demoEnv "1"
      (.ok ⟨2, "Encrypt data", none, none⟩)).1.requirements.first 2 =
      some ⟨⟨2, 10, 10, none⟩, 1, "Encrypt data", none, "NOT_MET"⟩ :=
  ⟨(create_requirement_project demoStore demoEnv "1" 1 (by decide)).1
      ⟨0, "Encrypt data", none, none⟩ rfl,
    (create_requirement_project demoStore demoEnv "1" 1 (by decide)).2
      (.ok ⟨2, "Encrypt data", none, none⟩) ⟨2, "Encrypt data", none, none⟩ rfl (by decide)
      rfl,
    by decide⟩

/-! ## Passwords and projections -/

/-- C27. The user projection does not depend on the password.  Replacing the
`Password` of a user record by any string leaves `convertToUserResponse`
unchanged, whatever client and projects are loaded; and replacing the
passwords of the users loaded into a client or a project, each by any string,
leaves `convertToClientResponse` and `convertToProjectResponse` unchanged. -/
theorem user_projection_ignores_password :
    (∀ (u : User) (pw : String) (c : Option Client) (ps : List Project),
      convertToUserResponse { u with Password := pw } c ps = convertToUserResponse u c ps) ∧
    (∀ (f : User → String) (c : Client) (us : List User) (ps : List Project),
      convertToClientResponse c (us.map (fun u => { u with Password := f u })) ps =
        convertToClientResponse c us ps) ∧
    (∀ (f : User → String) (q : Project) (c : Option Client) (us : List User),
      convertToProjectResponse q c (us.map (fun u => { u with Password := f u })) =
        convertToProjectResponse q c us) := by
  refine ⟨fun u pw c ps => rfl, ?_, ?_⟩
  · intro f c us ps
    simp [convertToClientResponse, List.map_map, Function.comp_def]
  · intro f q c us
    simp [convertToProjectResponse, List.map_map, Function.comp_def]

/-! ## Listing projects by status -/

/-- C26, as stated, fails.  `CreateProject` accepts a body whose client id is
18446744073709551615 (2 ^ 64 - 1) and answers 201; the column `client_id` of
the new row then holds -1.  Before that request `GetProjects` answers 200;
after it, `GetProjects` without a status, and with the status NEW that the new
project has, answers 500 "Failed to fetch projects" and returns no projection
of any stored project, while the status ARCHIVED, which does not select the
new row, is still answered with 200. -/
theorem get_projects_fails_after_create :
    (CreateProject demoStore demoEnv
      (.ok ⟨"Third", "Demo Client", some 18446744073709551615⟩)).2.status = 201 ∧
    ((CreateProject demoStore demoEnv
      (.ok ⟨"Third", "Demo Client", some 18446744073709551615⟩)).1.projects.row 3).bind
        (fun p => clientIDColumn p.ClientID) = some (-1) ∧
    (GetProjects demoStore demoEnv "").2.status = 200 ∧
    (GetProjects demoStore demoEnv "NEW").2.status = 200 ∧
    GetProjects (CreateProject demoStore demoEnv
        (.ok ⟨"Third", "Demo Client", some 18446744073709551615⟩)).1 demoEnv "" =
      ((CreateProject demoStore demoEnv
        (.ok ⟨"Third", "Demo Client", some 18446744073709551615⟩)).1,
        ⟨500, .error ⟨"Failed to fetch projects", "", 500⟩⟩) ∧
    (GetProjects (CreateProject demoStore demoEnv
      (.ok ⟨"Third", "Demo Client", some 18446744073709551615⟩)).1 demoEnv "NEW").2.status
      = 500 ∧
    (GetProjects (CreateProject demoStore demoEnv
      (.ok ⟨"Third", "Demo Client", some 18446744073709551615⟩)).1 demoEnv "ARCHIVED").2.status
      = 200 := by
  refine ⟨by decide, by decide, by decide, by decide, rfl, by decide, by decide⟩

/-- C26, amended.  `GetProjects` leaves the store alone.  When the engine
fails the query the answer is 500 "Failed to fetch projects".  Otherwise, with
a non-empty status `S`: when every row of the projects table that is not
marked as deleted and has status `S` can be read back, that is, has no client
id or one below 2 ^ 63, the answer is 200 and lists the projections, without
relations, of exactly these rows, each once and in table order; when one of
these rows was stored with a client id at or above 2 ^ 63 the answer is 500
"Failed to fetch projects".  With no status the same holds for all rows not
marked as deleted. -/
theorem get_projects_by_status (s : Store) (env : Env) (S : String) :
    (env.dbErr 0 = true →
      GetProjects s env S = (s, ⟨500, .error ⟨"Failed to fetch projects", "", 500⟩⟩)) ∧
    (env.dbErr 0 = false → S ≠ "" →
      ((∀ p ∈ s.projects.rows, p.DeletedAt = none → p.Status = S →
          ∀ c, p.ClientID = some c → c < 2 ^ 63) →
        GetProjects s env S = (s, ⟨200, .projects
          ((s.projects.rows.filter (fun p => decide (p.DeletedAt = none ∧ p.Status = S))).map
            (fun p => convertToProjectResponse p none []))⟩)) ∧
      ((∃ p ∈ s.projects.rows, p.DeletedAt = none ∧ p.Status = S ∧
          ∃ c, p.ClientID = some c ∧ 2 ^ 63 ≤ c) →
        GetProjects s env S = (s, ⟨500, .error ⟨"Failed to fetch projects", "", 500⟩⟩))) ∧
    (env.dbErr 0 = false →
      ((∀ p ∈ s.projects.rows, p.DeletedAt = none → ∀ c, p.ClientID = some c → c < 2 ^ 63) →
        GetProjects s env "" = (s, ⟨200, .projects
          ((s.projects.rows.filter (fun p => decide (p.DeletedAt = none))).map
            (fun p => convertToProjectResponse p none []))⟩)) ∧
      ((∃ p ∈ s.projects.rows, p.DeletedAt = none ∧ ∃ c, p.ClientID = some c ∧ 2 ^ 63 ≤ c) →
        GetProjects s env "" = (s, ⟨500, .error ⟨"Failed to fetch projects", "", 500⟩⟩))) := by
  have hfind : s.projects.find = s.projects.rows.filter (fun p => decide (p.DeletedAt = none)) := by
    unfold Table.find
    congr 1
    funext p
    cases h : p.DeletedAt <;> simp [Entity.model, h]
  have hsel : S ≠ "" → (if S ≠ "" then s.projects.find.filter (fun p => decide (p.Status = S))
      else s.projects.find) =
      s.projects.rows.filter (fun p => decide (p.DeletedAt = none ∧ p.Status = S)) := by
    intro hS
    rw [if_pos hS, hfind, List.filter_filter]
    congr 1
    funext p
    simp [Bool.and_comm]
  have hsel0 : (if ("" : String) ≠ "" then s.projects.find.filter (fun p => decide (p.Status = ""))
      else s.projects.find) =
      s.projects.rows.filter (fun p => decide (p.DeletedAt = none)) := by
    rw [if_neg (by simp), hfind]
  have hbad : ∀ p : Project, (∃ c, p.ClientID = some c ∧ 2 ^ 63 ≤ c) → Entity.scans p = false := by
    rintro p ⟨c, hc, hbig⟩
    rw [Bool.eq_false_iff]
    intro hs
    have := (scans_project_iff p).1 hs c hc
    omega
  refine ⟨?_, ?_, ?_⟩
  · intro he
    have hnone := @dbFind_eq_none_iff Project _ env 0
      (if S ≠ "" then s.projects.find.filter (fun p => decide (p.Status = S))
        else s.projects.find)
    simp only [GetProjects, hnone.2 (Or.inl he), errorJSON, StatusInternalServerError]
  · intro he hS
    constructor
    · intro hall
      have hsome : dbFind env 0 (if S ≠ "" then
          s.projects.find.filter (fun p => decide (p.Status = S)) else s.projects.find) =
          some (s.projects.rows.filter (fun p => decide (p.DeletedAt = none ∧ p.Status = S))) := by
        rw [hsel hS]
        refine dbFind_eq_some_iff.2 ⟨he, ?_, rfl⟩
        intro p hp
        rw [List.mem_filter] at hp
        have hp2 : p.DeletedAt = none ∧ p.Status = S := by simpa using hp.2
        exact (scans_project_iff p).2 (hall p hp.1 hp2.1 hp2.2)
      simp only [GetProjects, hsome, StatusOK]
      rfl
    · rintro ⟨p, hp, hd, hst, hc⟩
      have hnone : dbFind env 0 (if S ≠ "" then
          s.projects.find.filter (fun p => decide (p.Status = S)) else s.projects.find) = none := by
        rw [hsel hS]
        refine dbFind_eq_none_iff.2 (Or.inr ⟨p, ?_, hbad p hc⟩)
        rw [List.mem_filter]
        exact ⟨hp, by simp [hd, hst]⟩
      simp only [GetProjects, hnone, errorJSON, StatusInternalServerError]
  · intro he
    constructor
    · intro hall
      have hsome : dbFind env 0 (if ("" : String) ≠ "" then
          s.projects.find.filter (fun p => decide (p.Status = "")) else s.projects.find) =
          some (s.projects.rows.filter (fun p => decide (p.DeletedAt = none))) := by
        rw [hsel0]
        refine dbFind_eq_some_iff.2 ⟨he, ?_, rfl⟩
        intro p hp
        rw [List.mem_filter] at hp
        have hp2 : p.DeletedAt = none := by simpa using hp.2
        exact (scans_project_iff p).2 (hall p hp.1 hp2)
      simp only [GetProjects, hsome, StatusOK]
      rfl
    · rintro ⟨p, hp, hd, hc⟩
      have hnone : dbFind env 0 (if ("" : String) ≠ "" then
          s.projects.find.filter (fun p => decide (p.Status = "")) else s.projects.find) = none := by
        rw [hsel0]
        refine dbFind_eq_none_iff.2 (Or.inr ⟨p, ?_, hbad p hc⟩)
        rw [List.mem_filter]
        exact ⟨hp, by simp [hd]⟩
      simp only [GetProjects, hnone, errorJSON, StatusInternalServerError]

/-- Instance of the amended C26 on the sample store, whose projects all have
a readable client id: the status ARCHIVED selects project 2. -/
theorem get_projects_by_status_witness :
    GetProjects demoStore demoEnv "ARCHIVED" = (demoStore, ⟨200, .projects
      ((demoStore.projects.rows.filter
        (fun p => decide (p.DeletedAt = none ∧ p.Status = "ARCHIVED"))).map
        (fun p => convertToProjectResponse p none []))⟩) ∧
    (demoStore.projects.rows.filter
      (fun p => decide (p.DeletedAt = none ∧ p.Status = "ARCHIVED"))) =
      [⟨⟨2, 5, 5, none⟩, "Old Project", "Demo Client", "ARCHIVED", none⟩] :=
  ⟨((get_projects_by_status demoStore demoEnv "ARCHIVED").2.1 rfl (by decide)).1 (by decide),
    by decide⟩


/-! ## Issues of an audit task -/

/-- C21, as stated, fails.  From the empty store, a project, a requirement
under it, an audit task under that and two issues under the audit task are
created, every call answering 201; the store then holds two issues whose
`AuditTaskID` is 1. -/
theorem two_issues_for_one_task :
    (CreateIssue (CreateAuditTask (CreateRequirement (CreateProject emptyStore demoEnv
      (.ok ⟨"Site", "Acme", none⟩)).1 demoEnv "1" (.ok ⟨1, "Encrypt data", none, none⟩)).1
      demoEnv "1" (.ok ⟨"Check logs", none, none⟩)).1 demoEnv "1"
      (.ok ⟨"Crash", none, none, none, none, none, none⟩)).2.status = 201 ∧
    (CreateIssue (CreateIssue (CreateAuditTask (CreateRequirement (CreateProject emptyStore
      demoEnv (.ok ⟨"Site", "Acme", none⟩)).1 demoEnv "1"
      (.ok ⟨1, "Encrypt data", none, none⟩)).1 demoEnv "1"
      (.ok ⟨"Check logs", none, none⟩)).1 demoEnv "1"
      (.ok ⟨"Crash", none, none, none, none, none, none⟩)).1 demoEnv "1"
      (.ok ⟨"Freeze", none, none, none, none, none, none⟩)).2.status = 201 ∧
    issuesOfTask (CreateIssue (CreateIssue (CreateAuditTask (CreateRequirement (CreateProject
      emptyStore demoEnv (.ok ⟨"Site", "Acme", none⟩)).1 demoEnv "1"
      (.ok ⟨1, "Encrypt data", none, none⟩)).1 demoEnv "1"
      (.ok ⟨"Check logs", none, none⟩)).1 demoEnv "1"
      (.ok ⟨"Crash", none, none, none, none, none, none⟩)).1 demoEnv "1"
      (.ok ⟨"Freeze", none, none, none, none, none, none⟩)).1 1 =
      [⟨⟨1, 10, 10, none⟩, 1, "Crash", none, none, none, none, "OPEN", "DEFECT"⟩,
        ⟨⟨2, 10, 10, none⟩, 1, "Freeze", none, none, none, none, "OPEN", "DEFECT"⟩] := by
  refine ⟨by decide, by decide, by decide⟩

theorem find_create {α : Type} [Entity α] (t : Table α) (now : Nat) (x : α) :
    (t.create now x).find = t.find ++ [t.stamp now x] := by
  simp [Table.find, Table.create, List.filter_append, Table.stamp, Entity.model_withModel]

/-- C21, amended.  An audit task may own any number of issues.  For a
well-formed id of an existing audit task, a body that passes binding and an
engine that does not fail, `CreateIssue` answers 201 whatever issues the task
already has, and the issues of the task afterwards are its former issues
followed by one new issue. -/
theorem create_issue_adds_one (s : Store) (env : Env) (id : String) (n : Nat)
    (body : Except String CreateIssueRequest) (req : CreateIssueRequest)
    (hid : ParseUint id 32 = some n) (hb : bindCreateIssueRequest body = .ok req)
    (hp : s.auditTasks.has n) (he : env.dbErr 0 = false) :
    ∃ i : Issue, i.AuditTaskID = n ∧ i.Title = req.Title ∧
      (CreateIssue s env id body).2.status = 201 ∧
      issuesOfTask (CreateIssue s env id body).1 n = issuesOfTask s n ++ [i] ∧
      (issuesOfTask (CreateIssue s env id body).1 n).length =
        (issuesOfTask s n).length + 1 := by
  obtain ⟨task, htask⟩ := (has_iff_first _ _).1 hp
  have hstore : (CreateIssue s env id body).1.issues = s.issues.create (env.now 0)
      { toModel := Model.zero, AuditTaskID := n, Title := req.Title,
        Description := req.Description, Priority := req.Priority, Phase := req.Phase,
        EstimateHrs := req.EstimateHrs, Status := req.Status.getD "OPEN",
        IssueType := req.IssueType.getD "DEFECT" } := by
    cases hs : req.Status <;> cases ht : req.IssueType <;>
      simp [CreateIssue, hid, hb, htask, dbCreate, he, hs, ht]
  have hlist : issuesOfTask (CreateIssue s env id body).1 n = issuesOfTask s n ++
      [s.issues.stamp (env.now 0)
        { toModel := Model.zero, AuditTaskID := n, Title := req.Title,
          Description := req.Description, Priority := req.Priority, Phase := req.Phase,
          EstimateHrs := req.EstimateHrs, Status := req.Status.getD "OPEN",
          IssueType := req.IssueType.getD "DEFECT" }] := by
    unfold issuesOfTask
    rw [hstore, find_create, List.filter_append]
    simp [Table.stamp, Entity.withModel]
  refine ⟨_, rfl, rfl, ?_, hlist, by rw [hlist]; simp⟩
  cases hs : req.Status <;> cases ht : req.IssueType <;>
    simp [CreateIssue, hid, hb, htask, dbCreate, he, hs, ht, StatusCreated]

/-- Instance of the amended C21 on the sample store, whose audit task 1
already has issue 1. -/
theorem create_issue_adds_one_witness :
    (∃ i : Issue, i.AuditTaskID = 1 ∧ i.Title = "Crash" ∧
      (CreateIssue demoStore demoEnv "1"
        (.ok ⟨"Crash", none, none, none, none, none, none⟩)).2.status = 201 ∧
      issuesOfTask (CreateIssue demoStore demoEnv "1"
        (.ok ⟨"Crash", none, none, none, none, none, none⟩)).1 1 =
        issuesOfTask demoStore 1 ++ [i] ∧
      (issuesOfTask (CreateIssue demoStore demoEnv "1"
        (.ok ⟨"Crash", none, none, none, none, none, none⟩)).1 1).length =
        (issuesOfTask demoStore 1).length + 1) ∧
    (issuesOfTask demoStore 1).length = 1 :=
  ⟨create_issue_adds_one demoStore demoEnv "1" 1
      (.ok ⟨"Crash", none, none, none, none, none, none⟩)
      ⟨"Crash", none, none, none, none, none, none⟩ (by decide) rfl (by decide) rfl,
    by decide⟩

/-! ## Seeded rows -/

/-- C22 at boot.  Seeding the empty store creates a requirement whose
`ProjectID` is 0, an audit task whose `RequirementID` is 0 and an issue whose
`AuditTaskID` is 0, while the only project, the only requirement and the only
audit task have id 1: none of the three seeded children refers to an existing
parent. -/
theorem seeded_children_are_orphans :
    (InitDB emptyStore demoEnv).requirements.rows.map (fun r => r.ProjectID) = [0] ∧
    (InitDB emptyStore demoEnv).projects.rows.map (fun q => q.ID) = [1] ∧
    ¬ (InitDB emptyStore demoEnv).projects.has 0 ∧
    (InitDB emptyStore demoEnv).auditTasks.rows.map (fun t => t.RequirementID) = [0] ∧
    (InitDB emptyStore demoEnv).requirements.rows.map (fun r => r.ID) = [1] ∧
    ¬ (InitDB emptyStore demoEnv).requirements.has 0 ∧
    (InitDB emptyStore demoEnv).issues.rows.map (fun i => i.AuditTaskID) = [0] ∧
    (InitDB emptyStore demoEnv).auditTasks.rows.map (fun t => t.ID) = [1] ∧
    ¬ (InitDB emptyStore demoEnv).auditTasks.has 0 := by
  refine ⟨by decide, by decide, by decide, by decide, by decide, by decide, by decide,
    by decide, by decide⟩

/-! ## Login failures -/

/-- C23. Uniform login failure.  For every store and every two login bodies
that pass binding, the first naming an email that no visible user has and the
second naming the email of a user whose stored hash the password does not
match: both answers are 401 with the error "Invalid credentials", an empty
message and code 401, the store is not changed, and the two outcomes are
equal. -/
theorem login_failure_uniform (isEmail : String → Bool)
    (CheckPasswordHash : String → String → Bool) (s : Store)
    (body1 body2 : Except String LoginRequest) (req1 req2 : LoginRequest) (u : User)
    (hb1 : bindLoginRequest isEmail body1 = .ok req1)
    (hb2 : bindLoginRequest isEmail body2 = .ok req2)
    (hno : ∀ v ∈ s.users.find, v.Email ≠ req1.Email)
    (hu : firstUserByEmail s req2.Email = some u)
    (hpw : CheckPasswordHash req2.Password u.Password = false) :
    Login isEmail CheckPasswordHash s body1 =
      (s, ⟨401, .error ⟨"Invalid credentials", "", 401⟩⟩) ∧
    Login isEmail CheckPasswordHash s body2 =
      (s, ⟨401, .error ⟨"Invalid credentials", "", 401⟩⟩) ∧
    Login isEmail CheckPasswordHash s body1 = Login isEmail CheckPasswordHash s body2 := by
  have h1 : firstUserByEmail s req1.Email = none := by
    have hf : s.users.find.find? (fun u => decide (u.Email = req1.Email)) = none := by
      rw [List.find?_eq_none]
      intro v hv
      simpa using hno v hv
    simp [firstUserByEmail, hf]
  have r1 : Login isEmail CheckPasswordHash s body1 =
      (s, ⟨401, .error ⟨"Invalid credentials", "", 401⟩⟩) := by
    simp [Login, hb1, h1, errorJSON, StatusUnauthorized]
  have r2 : Login isEmail CheckPasswordHash s body2 =
      (s, ⟨401, .error ⟨"Invalid credentials", "", 401⟩⟩) := by
    simp [Login, hb2, hu, hpw, errorJSON, StatusUnauthorized]
  exact ⟨r1, r2, r1.trans r2.symm⟩

/-- Instance of C23 on the sample store, with a hash check that compares the
two strings: nobody has the email of the first request, and the password of
the second is not the hash stored for Alice. -/
theorem login_failure_uniform_witness :
    Login (fun _ => true) (fun pw hash => pw == hash) demoStore
        (.ok ⟨"bob@example.com", "hash"⟩) =
      (demoStore, ⟨401, .error ⟨"Invalid credentials", "", 401⟩⟩) ∧
    Login (fun _ => true) (fun pw hash => pw == hash) demoStore
        (.ok ⟨"alice@example.com", "guess"⟩) =
      (demoStore, ⟨401, .error ⟨"Invalid credentials", "", 401⟩⟩) ∧
    Login (fun _ => true) (fun pw hash => pw == hash) demoStore
        (.ok ⟨"bob@example.com", "hash"⟩) =
      Login (fun _ => true) (fun pw hash => pw == hash) demoStore
        (.ok ⟨"alice@example.com", "guess"⟩) :=
  login_failure_uniform (fun _ => true) (fun pw hash => pw == hash) demoStore
    (.ok ⟨"bob@example.com", "hash"⟩) (.ok ⟨"alice@example.com", "guess"⟩)
    ⟨"bob@example.com", "hash"⟩ ⟨"alice@example.com", "guess"⟩
    ⟨⟨1, 5, 5, none⟩, "Alice", "alice@example.com", "hash", RoleConsultant, none⟩
    rfl rfl (by decide) (by decide) (by decide)


/-! ## Malformed ids -/

theorem foldl_digits (l : List Char) :
    l.foldl (fun acc c => 10 * acc + (c.toNat - 48)) 0 =
      Nat.ofDigits 10 (l.reverse.map (fun c => c.toNat - 48)) := by
  induction l using List.reverseRecOn with
  | nil => rfl
  | append_singleton l a ih =>
    rw [List.foldl_append, List.reverse_append]
    simp only [List.foldl_cons, List.foldl_nil, List.reverse_cons, List.reverse_nil,
      List.nil_append, List.singleton_append, List.map_cons, Nat.ofDigits_cons, ih]
    omega

theorem uploadLoop_error_body (env : Env) (pid : Nat) (reads : List ReadResult) :
    ∀ (s s1 : Store) (created : List Requirement) (resp : Response),
      uploadLoop env pid reads s created = (s1, .error resp) →
      resp.body ≠ .error ⟨"Invalid project ID", "", 400⟩ := by
  induction reads with
  | nil =>
    intro s s1 created resp h
    simp [uploadLoop] at h
  | cons r rest ih =>
    intro s s1 created resp h
    cases r with
    | error msg =>
      simp only [uploadLoop, Prod.mk.injEq, Except.error.injEq] at h
      rw [← h.2]
      simp [errorJSONWith, StatusBadRequest]
    | ok record =>
      by_cases hlen : record.length = 0
      · simp only [uploadLoop, hlen, if_true] at h
        exact ih _ _ _ _ h
      · simp only [uploadLoop, hlen, if_false, dbCreate] at h
        cases he : env.dbErr created.length with
        | true =>
          simp only [he, if_true, Prod.mk.injEq, Except.error.injEq] at h
          rw [← h.2]
          simp [errorJSON, StatusInternalServerError]
        | false =>
          simp only [he, Bool.false_eq_true, if_false] at h
          exact ih _ _ _ _ h

theorem parsed_GetProject (s : Store) (id : String) (n : Nat)
    (hp : ParseUint id 32 = some n) :
    (GetProject s id).2.body ≠ .error ⟨"Invalid project ID", "", 400⟩ := by
  unfold GetProject
  simp only [hp]
  try unfold dbCreate
  try unfold dbSave
  try unfold dbDelete
  try unfold associationAppend
  try unfold associationDelete
  repeat' split
  all_goals simp_all [errorJSON, errorJSONWith, StatusOK, StatusCreated, StatusBadRequest, StatusUnauthorized,
    StatusNotFound, StatusInternalServerError]

theorem parsed_UpdateProject (s : Store) (env : Env) (id : String) (n : Nat) (body : Except String UpdateProjectRequest)
    (hp : ParseUint id 32 = some n) :
    (UpdateProject s env id body).2.body ≠ .error ⟨"Invalid project ID", "", 400⟩ := by
  unfold UpdateProject
  simp only [hp]
  try unfold dbCreate
  try unfold dbSave
  try unfold dbDelete
  try unfold associationAppend
  try unfold associationDelete
  repeat' split
  all_goals simp_all [errorJSON, errorJSONWith, StatusOK, StatusCreated, StatusBadRequest, StatusUnauthorized,
    StatusNotFound, StatusInternalServerError]

theorem parsed_DeleteProject (s : Store) (env : Env) (id : String) (n : Nat)
    (hp : ParseUint id 32 = some n) :
    (DeleteProject s env id).2.body ≠ .error ⟨"Invalid project ID", "", 400⟩ := by
  unfold DeleteProject
  simp only [hp]
  try unfold dbCreate
  try unfold dbSave
  try unfold dbDelete
  try unfold associationAppend
  try unfold associationDelete
  repeat' split
  all_goals simp_all [errorJSON, errorJSONWith, StatusOK, StatusCreated, StatusBadRequest, StatusUnauthorized,
    StatusNotFound, StatusInternalServerError]

theorem parsed_ArchiveProject (s : Store) (env : Env) (id : String) (n : Nat)
    (hp : ParseUint id 32 = some n) :
    (ArchiveProject s env id).2.body ≠ .error ⟨"Invalid project ID", "", 400⟩ := by
  unfold ArchiveProject
  simp only [hp]
  try unfold dbCreate
  try unfold dbSave
  try unfold dbDelete
  try unfold associationAppend
  try unfold associationDelete
  repeat' split
  all_goals simp_all [errorJSON, errorJSONWith, StatusOK, StatusCreated, StatusBadRequest, StatusUnauthorized,
    StatusNotFound, StatusInternalServerError]

theorem parsed_GetProjectRequirements (s : Store) (env : Env) (id : String) (n : Nat)
    (hp : ParseUint id 32 = some n) :
    (GetProjectRequirements s env id).2.body ≠ .error ⟨"Invalid project ID", "", 400⟩ := by
  unfold GetProjectRequirements
  simp only [hp]
  try unfold dbCreate
  try unfold dbSave
  try unfold dbDelete
  try unfold associationAppend
  try unfold associationDelete
  repeat' split
  all_goals simp_all [errorJSON, errorJSONWith, StatusOK, StatusCreated, StatusBadRequest, StatusUnauthorized,
    StatusNotFound, StatusInternalServerError]

theorem parsed_CreateRequirement (s : Store) (env : Env) (id : String) (n : Nat) (body : Except String CreateRequirementRequest)
    (hp : ParseUint id 32 = some n) :
    (CreateRequirement s env id body).2.body ≠ .error ⟨"Invalid project ID", "", 400⟩ := by
  unfold CreateRequirement
  simp only [hp]
  try unfold dbCreate
  try unfold dbSave
  try unfold dbDelete
  try unfold associationAppend
  try unfold associationDelete
  repeat' split
  all_goals simp_all [errorJSON, errorJSONWith, StatusOK, StatusCreated, StatusBadRequest, StatusUnauthorized,
    StatusNotFound, StatusInternalServerError]

theorem parsed_GetProjectUsers (s : Store) (id : String) (n : Nat)
    (hp : ParseUint id 32 = some n) :
    (GetProjectUsers s id).2.body ≠ .error ⟨"Invalid project ID", "", 400⟩ := by
  unfold GetProjectUsers
  simp only [hp]
  try unfold dbCreate
  try unfold dbSave
  try unfold dbDelete
  try unfold associationAppend
  try unfold associationDelete
  repeat' split
  all_goals simp_all [errorJSON, errorJSONWith, StatusOK, StatusCreated, StatusBadRequest, StatusUnauthorized,
    StatusNotFound, StatusInternalServerError]

theorem parsed_AssignUserToProject (s : Store) (env : Env) (id : String) (n : Nat) (userId : String)
    (hp : ParseUint id 32 = some n) :
    (AssignUserToProject s env id userId).2.body ≠ .error ⟨"Invalid project ID", "", 400⟩ := by
  unfold AssignUserToProject
  simp only [hp]
  try unfold dbCreate
  try unfold dbSave
  try unfold dbDelete
  try unfold associationAppend
  try unfold associationDelete
  repeat' split
  all_goals simp_all [errorJSON, errorJSONWith, StatusOK, StatusCreated, StatusBadRequest, StatusUnauthorized,
    StatusNotFound, StatusInternalServerError]

theorem parsed_RemoveUserFromProject (s : Store) (env : Env) (id : String) (n : Nat) (userId : String)
    (hp : ParseUint id 32 = some n) :
    (RemoveUserFromProject s env id userId).2.body ≠ .error ⟨"Invalid project ID", "", 400⟩ := by
  unfold RemoveUserFromProject
  simp only [hp]
  try unfold dbCreate
  try unfold dbSave
  try unfold dbDelete
  try unfold associationAppend
  try unfold associationDelete
  repeat' split
  all_goals simp_all [errorJSON, errorJSONWith, StatusOK, StatusCreated, StatusBadRequest, StatusUnauthorized,
    StatusNotFound, StatusInternalServerError]

theorem parsed_AssignUserToProject_second (s : Store) (env : Env) (id : String) (n : Nat) (projectId : String) (m : Nat)
    (hq : ParseUint projectId 32 = some m) (hp : ParseUint id 32 = some n) :
    (AssignUserToProject s env projectId id).2.body ≠ .error ⟨"Invalid user ID", "", 400⟩ := by
  unfold AssignUserToProject
  simp only [hq, hp]
  try unfold dbCreate
  try unfold dbSave
  try unfold dbDelete
  try unfold associationAppend
  try unfold associationDelete
  repeat' split
  all_goals simp_all [errorJSON, errorJSONWith, StatusOK, StatusCreated, StatusBadRequest, StatusUnauthorized,
    StatusNotFound, StatusInternalServerError]

theorem parsed_RemoveUserFromProject_second (s : Store) (env : Env) (id : String) (n : Nat) (projectId : String) (m : Nat)
    (hq : ParseUint projectId 32 = some m) (hp : ParseUint id 32 = some n) :
    (RemoveUserFromProject s env projectId id).2.body ≠ .error ⟨"Invalid user ID", "", 400⟩ := by
  unfold RemoveUserFromProject
  simp only [hq, hp]
  try unfold dbCreate
  try unfold dbSave
  try unfold dbDelete
  try unfold associationAppend
  try unfold associationDelete
  repeat' split
  all_goals simp_all [errorJSON, errorJSONWith, StatusOK, StatusCreated, StatusBadRequest, StatusUnauthorized,
    StatusNotFound, StatusInternalServerError]

theorem parsed_GetProjectIssues (s : Store) (env : Env) (id : String) (n : Nat)
    (hp : ParseUint id 32 = some n) :
    (GetProjectIssues s env id).2.body ≠ .error ⟨"Invalid project ID", "", 400⟩ := by
  unfold GetProjectIssues
  simp only [hp]
  try unfold dbCreate
  try unfold dbSave
  try unfold dbDelete
  try unfold associationAppend
  try unfold associationDelete
  repeat' split
  all_goals simp_all [errorJSON, errorJSONWith, StatusOK, StatusCreated, StatusBadRequest, StatusUnauthorized,
    StatusNotFound, StatusInternalServerError]

theorem parsed_GetUser (s : Store) (id : String) (n : Nat)
    (hp : ParseUint id 32 = some n) :
    (GetUser s id).2.body ≠ .error ⟨"Invalid user ID", "", 400⟩ := by
  unfold GetUser
  simp only [hp]
  try unfold dbCreate
  try unfold dbSave
  try unfold dbDelete
  try unfold associationAppend
  try unfold associationDelete
  repeat' split
  all_goals simp_all [errorJSON, errorJSONWith, StatusOK, StatusCreated, StatusBadRequest, StatusUnauthorized,
    StatusNotFound, StatusInternalServerError]

theorem parsed_UpdateUser (s : Store) (env : Env) (id : String) (n : Nat) (body : Except String UpdateUserRequest)
    (hp : ParseUint id 32 = some n) :
    (UpdateUser s env id body).2.body ≠ .error ⟨"Invalid user ID", "", 400⟩ := by
  unfold UpdateUser
  simp only [hp]
  try unfold dbCreate
  try unfold dbSave
  try unfold dbDelete
  try unfold associationAppend
  try unfold associationDelete
  repeat' split
  all_goals simp_all [errorJSON, errorJSONWith, StatusOK, StatusCreated, StatusBadRequest, StatusUnauthorized,
    StatusNotFound, StatusInternalServerError]

theorem parsed_DeleteUser (s : Store) (env : Env) (id : String) (n : Nat)
    (hp : ParseUint id 32 = some n) :
    (DeleteUser s env id).2.body ≠ .error ⟨"Invalid user ID", "", 400⟩ := by
  unfold DeleteUser
  simp only [hp]
  try unfold dbCreate
  try unfold dbSave
  try unfold dbDelete
  try unfold associationAppend
  try unfold associationDelete
  repeat' split
  all_goals simp_all [errorJSON, errorJSONWith, StatusOK, StatusCreated, StatusBadRequest, StatusUnauthorized,
    StatusNotFound, StatusInternalServerError]

theorem parsed_GetUserProjects (s : Store) (id : String) (n : Nat)
    (hp : ParseUint id 32 = some n) :
    (GetUserProjects s id).2.body ≠ .error ⟨"Invalid user ID", "", 400⟩ := by
  unfold GetUserProjects
  simp only [hp]
  try unfold dbCreate
  try unfold dbSave
  try unfold dbDelete
  try unfold associationAppend
  try unfold associationDelete
  repeat' split
  all_goals simp_all [errorJSON, errorJSONWith, StatusOK, StatusCreated, StatusBadRequest, StatusUnauthorized,
    StatusNotFound, StatusInternalServerError]

theorem parsed_GetClient (s : Store) (id : String) (n : Nat)
    (hp : ParseUint id 32 = some n) :
    (GetClient s id).2.body ≠ .error ⟨"Invalid client ID", "", 400⟩ := by
  unfold GetClient
  simp only [hp]
  try unfold dbCreate
  try unfold dbSave
  try unfold dbDelete
  try unfold associationAppend
  try unfold associationDelete
  repeat' split
  all_goals simp_all [errorJSON, errorJSONWith, StatusOK, StatusCreated, StatusBadRequest, StatusUnauthorized,
    StatusNotFound, StatusInternalServerError]

theorem parsed_UpdateClient (s : Store) (env : Env) (id : String) (n : Nat) (body : Except String UpdateClientRequest)
    (hp : ParseUint id 32 = some n) :
    (UpdateClient s env id body).2.body ≠ .error ⟨"Invalid client ID", "", 400⟩ := by
  unfold UpdateClient
  simp only [hp]
  try unfold dbCreate
  try unfold dbSave
  try unfold dbDelete
  try unfold associationAppend
  try unfold associationDelete
  repeat' split
  all_goals simp_all [errorJSON, errorJSONWith, StatusOK, StatusCreated, StatusBadRequest, StatusUnauthorized,
    StatusNotFound, StatusInternalServerError]

theorem parsed_DeleteClient (s : Store) (env : Env) (id : String) (n : Nat)
    (hp : ParseUint id 32 = some n) :
    (DeleteClient s env id).2.body ≠ .error ⟨"Invalid client ID", "", 400⟩ := by
  unfold DeleteClient
  simp only [hp]
  try unfold dbCreate
  try unfold dbSave
  try unfold dbDelete
  try unfold associationAppend
  try unfold associationDelete
  repeat' split
  all_goals simp_all [errorJSON, errorJSONWith, StatusOK, StatusCreated, StatusBadRequest, StatusUnauthorized,
    StatusNotFound, StatusInternalServerError]

theorem parsed_GetClientUsers (s : Store) (env : Env) (id : String) (n : Nat)
    (hp : ParseUint id 32 = some n) :
    (GetClientUsers s env id).2.body ≠ .error ⟨"Invalid client ID", "", 400⟩ := by
  unfold GetClientUsers
  simp only [hp]
  try unfold dbCreate
  try unfold dbSave
  try unfold dbDelete
  try unfold associationAppend
  try unfold associationDelete
  repeat' split
  all_goals simp_all [errorJSON, errorJSONWith, StatusOK, StatusCreated, StatusBadRequest, StatusUnauthorized,
    StatusNotFound, StatusInternalServerError]

theorem parsed_GetClientProjects (s : Store) (env : Env) (id : String) (n : Nat)
    (hp : ParseUint id 32 = some n) :
    (GetClientProjects s env id).2.body ≠ .error ⟨"Invalid client ID", "", 400⟩ := by
  unfold GetClientProjects
  simp only [hp]
  try unfold dbCreate
  try unfold dbSave
  try unfold dbDelete
  try unfold associationAppend
  try unfold associationDelete
  repeat' split
  all_goals simp_all [errorJSON, errorJSONWith, StatusOK, StatusCreated, StatusBadRequest, StatusUnauthorized,
    StatusNotFound, StatusInternalServerError]

theorem parsed_GetRequirement (s : Store) (id : String) (n : Nat)
    (hp : ParseUint id 32 = some n) :
    (GetRequirement s id).2.body ≠ .error ⟨"Invalid requirement ID", "", 400⟩ := by
  unfold GetRequirement
  simp only [hp]
  try unfold dbCreate
  try unfold dbSave
  try unfold dbDelete
  try unfold associationAppend
  try unfold associationDelete
  repeat' split
  all_goals simp_all [errorJSON, errorJSONWith, StatusOK, StatusCreated, StatusBadRequest, StatusUnauthorized,
    StatusNotFound, StatusInternalServerError]

theorem parsed_UpdateRequirement (s : Store) (env : Env) (id : String) (n : Nat) (body : Except String UpdateRequirementRequest)
    (hp : ParseUint id 32 = some n) :
    (UpdateRequirement s env id body).2.body ≠ .error ⟨"Invalid requirement ID", "", 400⟩ := by
  unfold UpdateRequirement
  simp only [hp]
  try unfold dbCreate
  try unfold dbSave
  try unfold dbDelete
  try unfold associationAppend
  try unfold associationDelete
  repeat' split
  all_goals simp_all [errorJSON, errorJSONWith, StatusOK, StatusCreated, StatusBadRequest, StatusUnauthorized,
    StatusNotFound, StatusInternalServerError]

theorem parsed_DeleteRequirement (s : Store) (env : Env) (id : String) (n : Nat)
    (hp : ParseUint id 32 = some n) :
    (DeleteRequirement s env id).2.body ≠ .error ⟨"Invalid requirement ID", "", 400⟩ := by
  unfold DeleteRequirement
  simp only [hp]
  try unfold dbCreate
  try unfold dbSave
  try unfold dbDelete
  try unfold associationAppend
  try unfold associationDelete
  repeat' split
  all_goals simp_all [errorJSON, errorJSONWith, StatusOK, StatusCreated, StatusBadRequest, StatusUnauthorized,
    StatusNotFound, StatusInternalServerError]

theorem parsed_GetRequirementAuditTasks (s : Store) (env : Env) (id : String) (n : Nat)
    (hp : ParseUint id 32 = some n) :
    (GetRequirementAuditTasks s env id).2.body ≠ .error ⟨"Invalid requirement ID", "", 400⟩ := by
  unfold GetRequirementAuditTasks
  simp only [hp]
  try unfold dbCreate
  try unfold dbSave
  try unfold dbDelete
  try unfold associationAppend
  try unfold associationDelete
  repeat' split
  all_goals simp_all [errorJSON, errorJSONWith, StatusOK, StatusCreated, StatusBadRequest, StatusUnauthorized,
    StatusNotFound, StatusInternalServerError]

theorem parsed_CreateAuditTask (s : Store) (env : Env) (id : String) (n : Nat) (body : Except String CreateAuditTaskRequest)
    (hp : ParseUint id 32 = some n) :
    (CreateAuditTask s env id body).2.body ≠ .error ⟨"Invalid requirement ID", "", 400⟩ := by
  unfold CreateAuditTask
  simp only [hp]
  try unfold dbCreate
  try unfold dbSave
  try unfold dbDelete
  try unfold associationAppend
  try unfold associationDelete
  repeat' split
  all_goals simp_all [errorJSON, errorJSONWith, StatusOK, StatusCreated, StatusBadRequest, StatusUnauthorized,
    StatusNotFound, StatusInternalServerError]

theorem parsed_GetAuditTask (s : Store) (id : String) (n : Nat)
    (hp : ParseUint id 32 = some n) :
    (GetAuditTask s id).2.body ≠ .error ⟨"Invalid audit task ID", "", 400⟩ := by
  unfold GetAuditTask
  simp only [hp]
  try unfold dbCreate
  try unfold dbSave
  try unfold dbDelete
  try unfold associationAppend
  try unfold associationDelete
  repeat' split
  all_goals simp_all [errorJSON, errorJSONWith, StatusOK, StatusCreated, StatusBadRequest, StatusUnauthorized,
    StatusNotFound, StatusInternalServerError]

theorem parsed_UpdateAuditTask (s : Store) (env : Env) (id : String) (n : Nat) (body : Except String UpdateAuditTaskRequest)
    (hp : ParseUint id 32 = some n) :
    (UpdateAuditTask s env id body).2.body ≠ .error ⟨"Invalid audit task ID", "", 400⟩ := by
  unfold UpdateAuditTask
  simp only [hp]
  try unfold dbCreate
  try unfold dbSave
  try unfold dbDelete
  try unfold associationAppend
  try unfold associationDelete
  repeat' split
  all_goals simp_all [errorJSON, errorJSONWith, StatusOK, StatusCreated, StatusBadRequest, StatusUnauthorized,
    StatusNotFound, StatusInternalServerError]

theorem parsed_DeleteAuditTask (s : Store) (env : Env) (id : String) (n : Nat)
    (hp : ParseUint id 32 = some n) :
    (DeleteAuditTask s env id).2.body ≠ .error ⟨"Invalid audit task ID", "", 400⟩ := by
  unfold DeleteAuditTask
  simp only [hp]
  try unfold dbCreate
  try unfold dbSave
  try unfold dbDelete
  try unfold associationAppend
  try unfold associationDelete
  repeat' split
  all_goals simp_all [errorJSON, errorJSONWith, StatusOK, StatusCreated, StatusBadRequest, StatusUnauthorized,
    StatusNotFound, StatusInternalServerError]

theorem parsed_GetAuditTaskIssues (s : Store) (env : Env) (id : String) (n : Nat)
    (hp : ParseUint id 32 = some n) :
    (GetAuditTaskIssues s env id).2.body ≠ .error ⟨"Invalid audit task ID", "", 400⟩ := by
  unfold GetAuditTaskIssues
  simp only [hp]
  try unfold dbCreate
  try unfold dbSave
  try unfold dbDelete
  try unfold associationAppend
  try unfold associationDelete
  repeat' split
  all_goals simp_all [errorJSON, errorJSONWith, StatusOK, StatusCreated, StatusBadRequest, StatusUnauthorized,
    StatusNotFound, StatusInternalServerError]

theorem parsed_CreateIssue (s : Store) (env : Env) (id : String) (n : Nat) (body : Except String CreateIssueRequest)
    (hp : ParseUint id 32 = some n) :
    (CreateIssue s env id body).2.body ≠ .error ⟨"Invalid audit task ID", "", 400⟩ := by
  unfold CreateIssue
  simp only [hp]
  try unfold dbCreate
  try unfold dbSave
  try unfold dbDelete
  try unfold associationAppend
  try unfold associationDelete
  repeat' split
  all_goals simp_all [errorJSON, errorJSONWith, StatusOK, StatusCreated, StatusBadRequest, StatusUnauthorized,
    StatusNotFound, StatusInternalServerError]

theorem parsed_GetIssue (s : Store) (id : String) (n : Nat)
    (hp : ParseUint id 32 = some n) :
    (GetIssue s id).2.body ≠ .error ⟨"Invalid issue ID", "", 400⟩ := by
  unfold GetIssue
  simp only [hp]
  try unfold dbCreate
  try unfold dbSave
  try unfold dbDelete
  try unfold associationAppend
  try unfold associationDelete
  repeat' split
  all_goals simp_all [errorJSON, errorJSONWith, StatusOK, StatusCreated, StatusBadRequest, StatusUnauthorized,
    StatusNotFound, StatusInternalServerError]

theorem parsed_UpdateIssue (s : Store) (env : Env) (id : String) (n : Nat) (body : Except String UpdateIssueRequest)
    (hp : ParseUint id 32 = some n) :
    (UpdateIssue s env id body).2.body ≠ .error ⟨"Invalid issue ID", "", 400⟩ := by
  unfold UpdateIssue
  simp only [hp]
  try unfold dbCreate
  try unfold dbSave
  try unfold dbDelete
  try unfold associationAppend
  try unfold associationDelete
  repeat' split
  all_goals simp_all [errorJSON, errorJSONWith, StatusOK, StatusCreated, StatusBadRequest, StatusUnauthorized,
    StatusNotFound, StatusInternalServerError]

theorem parsed_DeleteIssue (s : Store) (env : Env) (id : String) (n : Nat)
    (hp : ParseUint id 32 = some n) :
    (DeleteIssue s env id).2.body ≠ .error ⟨"Invalid issue ID", "", 400⟩ := by
  unfold DeleteIssue
  simp only [hp]
  try unfold dbCreate
  try unfold dbSave
  try unfold dbDelete
  try unfold associationAppend
  try unfold associationDelete
  repeat' split
  all_goals simp_all [errorJSON, errorJSONWith, StatusOK, StatusCreated, StatusBadRequest, StatusUnauthorized,
    StatusNotFound, StatusInternalServerError]

theorem parsed_UploadRequirementsCSV (s : Store) (env : Env) (id : String) (n : Nat) (file : Option (List ReadResult))
    (hp : ParseUint id 32 = some n) :
    (UploadRequirementsCSV s env id file).2.body ≠ .error ⟨"Invalid project ID", "", 400⟩ := by
  unfold UploadRequirementsCSV
  simp only [hp]
  split
  · simp [errorJSON, StatusNotFound]
  · split
    · simp [errorJSON, StatusBadRequest]
    · split
      · next h => exact uploadLoop_error_body _ _ _ _ _ _ _ h
      · simp

/-- C24. Malformed ids.  An id string is parsed, to the number `n`, exactly
when it is not empty, all its characters are decimal digits (so it has no
sign), its decimal value is `n` and `n` is at most 4294967295.  For every
handler that takes an id from the path, whatever the store and the other
inputs are, the handler answers 400 with the error that names the id and
returns the store unchanged if and only if the id string is not parsed: an id
that is parsed is accepted, that is, never answered with that error, and any
other id string is rejected with it before the store is read or written.  For
the two handlers that take a second id the same equivalence holds for the
second id when the first one is parsed. -/
theorem malformed_id :
    (∀ (id : String) (n : Nat), ParseUint id 32 = some n ↔
      id.data ≠ [] ∧ (∀ c ∈ id.data, c.isDigit = true) ∧
        Nat.ofDigits 10 (id.data.reverse.map (fun c => c.toNat - 48)) = n ∧
        n ≤ 4294967295) ∧
    (∀ (s : Store) (env : Env) (id : String),
      (GetProject s id =
        (s, ⟨400, .error ⟨"Invalid project ID", "", 400⟩⟩) ↔ ParseUint id 32 = none) ∧
      (∀ body, UpdateProject s env id body =
        (s, ⟨400, .error ⟨"Invalid project ID", "", 400⟩⟩) ↔ ParseUint id 32 = none) ∧
      (DeleteProject s env id =
        (s, ⟨400, .error ⟨"Invalid project ID", "", 400⟩⟩) ↔ ParseUint id 32 = none) ∧
      (ArchiveProject s env id =
        (s, ⟨400, .error ⟨"Invalid project ID", "", 400⟩⟩) ↔ ParseUint id 32 = none) ∧
      (GetProjectRequirements s env id =
        (s, ⟨400, .error ⟨"Invalid project ID", "", 400⟩⟩) ↔ ParseUint id 32 = none) ∧
      (∀ body, CreateRequirement s env id body =
        (s, ⟨400, .error ⟨"Invalid project ID", "", 400⟩⟩) ↔ ParseUint id 32 = none) ∧
      (GetProjectUsers s id =
        (s, ⟨400, .error ⟨"Invalid project ID", "", 400⟩⟩) ↔ ParseUint id 32 = none) ∧
      (∀ userId, AssignUserToProject s env id userId =
        (s, ⟨400, .error ⟨"Invalid project ID", "", 400⟩⟩) ↔ ParseUint id 32 = none) ∧
      (∀ userId, RemoveUserFromProject s env id userId =
        (s, ⟨400, .error ⟨"Invalid project ID", "", 400⟩⟩) ↔ ParseUint id 32 = none) ∧
      (∀ projectId m, ParseUint projectId 32 = some m →
        (AssignUserToProject s env projectId id =
          (s, ⟨400, .error ⟨"Invalid user ID", "", 400⟩⟩) ↔ ParseUint id 32 = none)) ∧
      (∀ projectId m, ParseUint projectId 32 = some m →
        (RemoveUserFromProject s env projectId id =
          (s, ⟨400, .error ⟨"Invalid user ID", "", 400⟩⟩) ↔ ParseUint id 32 = none)) ∧
      (GetProjectIssues s env id =
        (s, ⟨400, .error ⟨"Invalid project ID", "", 400⟩⟩) ↔ ParseUint id 32 = none) ∧
      (GetUser s id =
        (s, ⟨400, .error ⟨"Invalid user ID", "", 400⟩⟩) ↔ ParseUint id 32 = none) ∧
      (∀ body, UpdateUser s env id body =
        (s, ⟨400, .error ⟨"Invalid user ID", "", 400⟩⟩) ↔ ParseUint id 32 = none) ∧
      (DeleteUser s env id =
        (s, ⟨400, .error ⟨"Invalid user ID", "", 400⟩⟩) ↔ ParseUint id 32 = none) ∧
      (GetUserProjects s id =
        (s, ⟨400, .error ⟨"Invalid user ID", "", 400⟩⟩) ↔ ParseUint id 32 = none) ∧
      (GetClient s id =
        (s, ⟨400, .error ⟨"Invalid client ID", "", 400⟩⟩) ↔ ParseUint id 32 = none) ∧
      (∀ body, UpdateClient s env id body =
        (s, ⟨400, .error ⟨"Invalid client ID", "", 400⟩⟩) ↔ ParseUint id 32 = none) ∧
      (DeleteClient s env id =
        (s, ⟨400, .error ⟨"Invalid client ID", "", 400⟩⟩) ↔ ParseUint id 32 = none) ∧
      (GetClientUsers s env id =
        (s, ⟨400, .error ⟨"Invalid client ID", "", 400⟩⟩) ↔ ParseUint id 32 = none) ∧
      (GetClientProjects s env id =
        (s, ⟨400, .error ⟨"Invalid client ID", "", 400⟩⟩) ↔ ParseUint id 32 = none) ∧
      (GetRequirement s id =
        (s, ⟨400, .error ⟨"Invalid requirement ID", "", 400⟩⟩) ↔ ParseUint id 32 = none) ∧
      (∀ body, UpdateRequirement s env id body =
        (s, ⟨400, .error ⟨"Invalid requirement ID", "", 400⟩⟩) ↔ ParseUint id 32 = none) ∧
      (DeleteRequirement s env id =
        (s, ⟨400, .error ⟨"Invalid requirement ID", "", 400⟩⟩) ↔ ParseUint id 32 = none) ∧
      (GetRequirementAuditTasks s env id =
        (s, ⟨400, .error ⟨"Invalid requirement ID", "", 400⟩⟩) ↔ ParseUint id 32 = none) ∧
      (∀ body, CreateAuditTask s env id body =
        (s, ⟨400, .error ⟨"Invalid requirement ID", "", 400⟩⟩) ↔ ParseUint id 32 = none) ∧
      (GetAuditTask s id =
        (s, ⟨400, .error ⟨"Invalid audit task ID", "", 400⟩⟩) ↔ ParseUint id 32 = none) ∧
      (∀ body, UpdateAuditTask s env id body =
        (s, ⟨400, .error ⟨"Invalid audit task ID", "", 400⟩⟩) ↔ ParseUint id 32 = none) ∧
      (DeleteAuditTask s env id =
        (s, ⟨400, .error ⟨"Invalid audit task ID", "", 400⟩⟩) ↔ ParseUint id 32 = none) ∧
      (GetAuditTaskIssues s env id =
        (s, ⟨400, .error ⟨"Invalid audit task ID", "", 400⟩⟩) ↔ ParseUint id 32 = none) ∧
      (∀ body, CreateIssue s env id body =
        (s, ⟨400, .error ⟨"Invalid audit task ID", "", 400⟩⟩) ↔ ParseUint id 32 = none) ∧
      (GetIssue s id =
        (s, ⟨400, .error ⟨"Invalid issue ID", "", 400⟩⟩) ↔ ParseUint id 32 = none) ∧
      (∀ body, UpdateIssue s env id body =
        (s, ⟨400, .error ⟨"Invalid issue ID", "", 400⟩⟩) ↔ ParseUint id 32 = none) ∧
      (DeleteIssue s env id =
        (s, ⟨400, .error ⟨"Invalid issue ID", "", 400⟩⟩) ↔ ParseUint id 32 = none) ∧
      (∀ file, UploadRequirementsCSV s env id file =
        (s, ⟨400, .error ⟨"Invalid project ID", "", 400⟩⟩) ↔ ParseUint id 32 = none)) := by
  constructor
  · intro id n
    unfold ParseUint
    rw [foldl_digits]
    by_cases he : id.data = []
    · simp [he]
    · by_cases hd : id.data.all Char.isDigit = true
      · have hd2 : ∀ c ∈ id.data, c.isDigit = true := by simpa using hd
        simp only [List.isEmpty_iff, he, if_false, hd, if_true, ne_eq, not_false_eq_true,
          true_and]
        constructor
        · intro h
          split at h
          · next hlt =>
            injection h with h
            exact ⟨hd2, h, by omega⟩
          · simp at h
        · rintro ⟨-, hv, hn⟩
          rw [if_pos (by omega), hv]
      · have hd2 : ¬ ∀ c ∈ id.data, c.isDigit = true := by simpa using hd
        simp [he, hd, hd2]
  · intro s env id
    refine ⟨?_, ?_, ?_, ?_, ?_, ?_, ?_, ?_, ?_, ?_, ?_, ?_, ?_, ?_, ?_, ?_, ?_, ?_, ?_, ?_, ?_, ?_, ?_, ?_, ?_, ?_, ?_, ?_, ?_, ?_, ?_, ?_, ?_, ?_, ?_⟩
    · constructor
      · intro h
        cases hp : ParseUint id 32 with
        | none => rfl
        | some n => exact absurd (congrArg (fun p => p.2.body) h) (parsed_GetProject s id n hp)
      · intro h
        simp [GetProject, h, errorJSON, StatusBadRequest]
    · intro body
      constructor
      · intro h
        cases hp : ParseUint id 32 with
        | none => rfl
        | some n => exact absurd (congrArg (fun p => p.2.body) h) (parsed_UpdateProject s env id n body hp)
      · intro h
        simp [UpdateProject, h, errorJSON, StatusBadRequest]
    · constructor
      · intro h
        cases hp : ParseUint id 32 with
        | none => rfl
        | some n => exact absurd (congrArg (fun p => p.2.body) h) (parsed_DeleteProject s env id n hp)
      · intro h
        simp [DeleteProject, h, errorJSON, StatusBadRequest]
    · constructor
      · intro h
        cases hp : ParseUint id 32 with
        | none => rfl
        | some n => exact absurd (congrArg (fun p => p.2.body) h) (parsed_ArchiveProject s env id n hp)
      · intro h
        simp [ArchiveProject, h, errorJSON, StatusBadRequest]
    · constructor
      · intro h
        cases hp : ParseUint id 32 with
        | none => rfl
        | some n => exact absurd (congrArg (fun p => p.2.body) h) (parsed_GetProjectRequirements s env id n hp)
      · intro h
        simp [GetProjectRequirements, h, errorJSON, StatusBadRequest]
    · intro body
      constructor
      · intro h
        cases hp : ParseUint id 32 with
        | none => rfl
        | some n => exact absurd (congrArg (fun p => p.2.body) h) (parsed_CreateRequirement s env id n body hp)
      · intro h
        simp [CreateRequirement, h, errorJSON, StatusBadRequest]
    · constructor
      · intro h
        cases hp : ParseUint id 32 with
        | none => rfl
        | some n => exact absurd (congrArg (fun p => p.2.body) h) (parsed_GetProjectUsers s id n hp)
      · intro h
        simp [GetProjectUsers, h, errorJSON, StatusBadRequest]
    · intro userId
      constructor
      · intro h
        cases hp : ParseUint id 32 with
        | none => rfl
        | some n => exact absurd (congrArg (fun p => p.2.body) h) (parsed_AssignUserToProject s env id n userId hp)
      · intro h
        simp [AssignUserToProject, h, errorJSON, StatusBadRequest]
    · intro userId
      constructor
      · intro h
        cases hp : ParseUint id 32 with
        | none => rfl
        | some n => exact absurd (congrArg (fun p => p.2.body) h) (parsed_RemoveUserFromProject s env id n userId hp)
      · intro h
        simp [RemoveUserFromProject, h, errorJSON, StatusBadRequest]
    · intro projectId m hq
      constructor
      · intro h
        cases hp : ParseUint id 32 with
        | none => rfl
        | some n =>
          exact absurd (congrArg (fun p => p.2.body) h) (parsed_AssignUserToProject_second s env id n projectId m hq hp)
      · intro h
        simp [AssignUserToProject, hq, h, errorJSON, StatusBadRequest]
    · intro projectId m hq
      constructor
      · intro h
        cases hp : ParseUint id 32 with
        | none => rfl
        | some n =>
          exact absurd (congrArg (fun p => p.2.body) h) (parsed_RemoveUserFromProject_second s env id n projectId m hq hp)
      · intro h
        simp [RemoveUserFromProject, hq, h, errorJSON, StatusBadRequest]
    · constructor
      · intro h
        cases hp : ParseUint id 32 with
        | none => rfl
        | some n => exact absurd (congrArg (fun p => p.2.body) h) (parsed_GetProjectIssues s env id n hp)
      · intro h
        simp [GetProjectIssues, h, errorJSON, StatusBadRequest]
    · constructor
      · intro h
        cases hp : ParseUint id 32 with
        | none => rfl
        | some n => exact absurd (congrArg (fun p => p.2.body) h) (parsed_GetUser s id n hp)
      · intro h
        simp [GetUser, h, errorJSON, StatusBadRequest]
    · intro body
      constructor
      · intro h
        cases hp : ParseUint id 32 with
        | none => rfl
        | some n => exact absurd (congrArg (fun p => p.2.body) h) (parsed_UpdateUser s env id n body hp)
      · intro h
        simp [UpdateUser, h, errorJSON, StatusBadRequest]
    · constructor
      · intro h
        cases hp : ParseUint id 32 with
        | none => rfl
        | some n => exact absurd (congrArg (fun p => p.2.body) h) (parsed_DeleteUser s env id n hp)
      · intro h
        simp [DeleteUser, h, errorJSON, StatusBadRequest]
    · constructor
      · intro h
        cases hp : ParseUint id 32 with
        | none => rfl
        | some n => exact absurd (congrArg (fun p => p.2.body) h) (parsed_GetUserProjects s id n hp)
      · intro h
        simp [GetUserProjects, h, errorJSON, StatusBadRequest]
    · constructor
      · intro h
        cases hp : ParseUint id 32 with
        | none => rfl
        | some n => exact absurd (congrArg (fun p => p.2.body) h) (parsed_GetClient s id n hp)
      · intro h
        simp [GetClient, h, errorJSON, StatusBadRequest]
    · intro body
      constructor
      · intro h
        cases hp : ParseUint id 32 with
        | none => rfl
        | some n => exact absurd (congrArg (fun p => p.2.body) h) (parsed_UpdateClient s env id n body hp)
      · intro h
        simp [UpdateClient, h, errorJSON, StatusBadRequest]
    · constructor
      · intro h
        cases hp : ParseUint id 32 with
        | none => rfl
        | some n => exact absurd (congrArg (fun p => p.2.body) h) (parsed_DeleteClient s env id n hp)
      · intro h
        simp [DeleteClient, h, errorJSON, StatusBadRequest]
    · constructor
      · intro h
        cases hp : ParseUint id 32 with
        | none => rfl
        | some n => exact absurd (congrArg (fun p => p.2.body) h) (parsed_GetClientUsers s env id n hp)
      · intro h
        simp [GetClientUsers, h, errorJSON, StatusBadRequest]
    · constructor
      · intro h
        cases hp : ParseUint id 32 with
        | none => rfl
        | some n => exact absurd (congrArg (fun p => p.2.body) h) (parsed_GetClientProjects s env id n hp)
      · intro h
        simp [GetClientProjects, h, errorJSON, StatusBadRequest]
    · constructor
      · intro h
        cases hp : ParseUint id 32 with
        | none => rfl
        | some n => exact absurd (congrArg (fun p => p.2.body) h) (parsed_GetRequirement s id n hp)
      · intro h
        simp [GetRequirement, h, errorJSON, StatusBadRequest]
    · intro body
      constructor
      · intro h
        cases hp : ParseUint id 32 with
        | none => rfl
        | some n => exact absurd (congrArg (fun p => p.2.body) h) (parsed_UpdateRequirement s env id n body hp)
      · intro h
        simp [UpdateRequirement, h, errorJSON, StatusBadRequest]
    · constructor
      · intro h
        cases hp : ParseUint id 32 with
        | none => rfl
        | some n => exact absurd (congrArg (fun p => p.2.body) h) (parsed_DeleteRequirement s env id n hp)
      · intro h
        simp [DeleteRequirement, h, errorJSON, StatusBadRequest]
    · constructor
      · intro h
        cases hp : ParseUint id 32 with
        | none => rfl
        | some n => exact absurd (congrArg (fun p => p.2.body) h) (parsed_GetRequirementAuditTasks s env id n hp)
      · intro h
        simp [GetRequirementAuditTasks, h, errorJSON, StatusBadRequest]
    · intro body
      constructor
      · intro h
        cases hp : ParseUint id 32 with
        | none => rfl
        | some n => exact absurd (congrArg (fun p => p.2.body) h) (parsed_CreateAuditTask s env id n body hp)
      · intro h
        simp [CreateAuditTask, h, errorJSON, StatusBadRequest]
    · constructor
      · intro h
        cases hp : ParseUint id 32 with
        | none => rfl
        | some n => exact absurd (congrArg (fun p => p.2.body) h) (parsed_GetAuditTask s id n hp)
      · intro h
        simp [GetAuditTask, h, errorJSON, StatusBadRequest]
    · intro body
      constructor
      · intro h
        cases hp : ParseUint id 32 with
        | none => rfl
        | some n => exact absurd (congrArg (fun p => p.2.body) h) (parsed_UpdateAuditTask s env id n body hp)
      · intro h
        simp [UpdateAuditTask, h, errorJSON, StatusBadRequest]
    · constructor
      · intro h
        cases hp : ParseUint id 32 with
        | none => rfl
        | some n => exact absurd (congrArg (fun p => p.2.body) h) (parsed_DeleteAuditTask s env id n hp)
      · intro h
        simp [DeleteAuditTask, h, errorJSON, StatusBadRequest]
    · constructor
      · intro h
        cases hp : ParseUint id 32 with
        | none => rfl
        | some n => exact absurd (congrArg (fun p => p.2.body) h) (parsed_GetAuditTaskIssues s env id n hp)
      · intro h
        simp [GetAuditTaskIssues, h, errorJSON, StatusBadRequest]
    · intro body
      constructor
      · intro h
        cases hp : ParseUint id 32 with
        | none => rfl
        | some n => exact absurd (congrArg (fun p => p.2.body) h) (parsed_CreateIssue s env id n body hp)
      · intro h
        simp [CreateIssue, h, errorJSON, StatusBadRequest]
    · constructor
      · intro h
        cases hp : ParseUint id 32 with
        | none => rfl
        | some n => exact absurd (congrArg (fun p => p.2.body) h) (parsed_GetIssue s id n hp)
      · intro h
        simp [GetIssue, h, errorJSON, StatusBadRequest]
    · intro body
      constructor
      · intro h
        cases hp : ParseUint id 32 with
        | none => rfl
        | some n => exact absurd (congrArg (fun p => p.2.body) h) (parsed_UpdateIssue s env id n body hp)
      · intro h
        simp [UpdateIssue, h, errorJSON, StatusBadRequest]
    · constructor
      · intro h
        cases hp : ParseUint id 32 with
        | none => rfl
        | some n => exact absurd (congrArg (fun p => p.2.body) h) (parsed_DeleteIssue s env id n hp)
      · intro h
        simp [DeleteIssue, h, errorJSON, StatusBadRequest]
    · intro file
      constructor
      · intro h
        cases hp : ParseUint id 32 with
        | none => rfl
        | some n => exact absurd (congrArg (fun p => p.2.body) h) (parsed_UploadRequirementsCSV s env id n file hp)
      · intro h
        simp [UploadRequirementsCSV, h, errorJSON, StatusBadRequest]

/-- Instance of C24: the string 4294967295 is parsed and 4294967296, a signed
number, a word and the empty string are not, so that the handlers answer 400
for them on the sample store, whereas the ids 1 and 007 are parsed and are
not answered with the error that names the id. -/
theorem malformed_id_witness :
    ParseUint "4294967295" 32 = some 4294967295 ∧
    GetProject demoStore "4294967296" =
      (demoStore, ⟨400, .error ⟨"Invalid project ID", "", 400⟩⟩) ∧
    (∀ userId, AssignUserToProject demoStore demoEnv "+1" userId =
      (demoStore, ⟨400, .error ⟨"Invalid project ID", "", 400⟩⟩)) ∧
    RemoveUserFromProject demoStore demoEnv "1" "abc" =
      (demoStore, ⟨400, .error ⟨"Invalid user ID", "", 400⟩⟩) ∧
    (∀ file, UploadRequirementsCSV demoStore demoEnv "" file =
      (demoStore, ⟨400, .error ⟨"Invalid project ID", "", 400⟩⟩)) ∧
    GetProject demoStore "1" ≠
      (demoStore, ⟨400, .error ⟨"Invalid project ID", "", 400⟩⟩) ∧
    GetProjectUsers demoStore "007" ≠
      (demoStore, ⟨400, .error ⟨"Invalid project ID", "", 400⟩⟩) ∧
    (GetProject demoStore "1").2.status = 200 ∧
    (GetProjectUsers demoStore "007").2.status = 404 :=
  ⟨(malformed_id.1 "4294967295" 4294967295).2
      ⟨by decide, by decide, by decide, by decide⟩,
    ((malformed_id.2 demoStore demoEnv "4294967296").1).2 (by decide),
    fun userId => ((malformed_id.2 demoStore demoEnv "+1").2.2.2.2.2.2.2.1 userId).2 (by decide),
    (((malformed_id.2 demoStore demoEnv "abc").2.2.2.2.2.2.2.2.2.2.1 "1" 1 (by decide))).2 (by decide),
    fun file => ((malformed_id.2 demoStore demoEnv "").2.2.2.2.2.2.2.2.2.2.2.2.2.2.2.2.2.2.2.2.2.2.2.2.2.2.2.2.2.2.2.2.2.2 file).2 (by decide),
    fun h => absurd (((malformed_id.2 demoStore demoEnv "1").1).1 h) (by decide),
    fun h => absurd (((malformed_id.2 demoStore demoEnv "007").2.2.2.2.2.2.1).1 h) (by decide),
    by decide, by decide⟩


/-! ## Shape of the answers -/

theorem shaped_GetProjects (s : Store) (env : Env) (status : String) :
    (GetProjects s env status).2.shaped := by
  unfold GetProjects
  dsimp only
  generalize (dbFind env 0 _ : Option (List Project)) = r
  cases r <;> simp [Response.shaped, errorJSON, StatusOK, StatusInternalServerError]

theorem shaped_CreateProject (s : Store) (env : Env) (body : Except String CreateProjectRequest) :
    (CreateProject s env body).2.shaped := by
  unfold CreateProject
  try unfold dbCreate
  try unfold dbSave
  try unfold dbDelete
  try unfold associationAppend
  try unfold associationDelete
  repeat' split
  all_goals simp_all [Response.shaped, errorJSON, errorJSONWith, StatusOK, StatusCreated,
    StatusBadRequest, StatusUnauthorized, StatusNotFound, StatusInternalServerError]

theorem shaped_GetProject (s : Store) (id : String) :
    (GetProject s id).2.shaped := by
  unfold GetProject
  try unfold dbCreate
  try unfold dbSave
  try unfold dbDelete
  try unfold associationAppend
  try unfold associationDelete
  repeat' split
  all_goals simp_all [Response.shaped, errorJSON, errorJSONWith, StatusOK, StatusCreated,
    StatusBadRequest, StatusUnauthorized, StatusNotFound, StatusInternalServerError]

theorem shaped_UpdateProject (s : Store) (env : Env) (id : String) (body : Except String UpdateProjectRequest) :
    (UpdateProject s env id body).2.shaped := by
  unfold UpdateProject
  try unfold dbCreate
  try unfold dbSave
  try unfold dbDelete
  try unfold associationAppend
  try unfold associationDelete
  repeat' split
  all_goals simp_all [Response.shaped, errorJSON, errorJSONWith, StatusOK, StatusCreated,
    StatusBadRequest, StatusUnauthorized, StatusNotFound, StatusInternalServerError]

theorem shaped_DeleteProject (s : Store) (env : Env) (id : String) :
    (DeleteProject s env id).2.shaped := by
  unfold DeleteProject
  try unfold dbCreate
  try unfold dbSave
  try unfold dbDelete
  try unfold associationAppend
  try unfold associationDelete
  repeat' split
  all_goals simp_all [Response.shaped, errorJSON, errorJSONWith, StatusOK, StatusCreated,
    StatusBadRequest, StatusUnauthorized, StatusNotFound, StatusInternalServerError]

theorem shaped_ArchiveProject (s : Store) (env : Env) (id : String) :
    (ArchiveProject s env id).2.shaped := by
  unfold ArchiveProject
  try unfold dbCreate
  try unfold dbSave
  try unfold dbDelete
  try unfold associationAppend
  try unfold associationDelete
  repeat' split
  all_goals simp_all [Response.shaped, errorJSON, errorJSONWith, StatusOK, StatusCreated,
    StatusBadRequest, StatusUnauthorized, StatusNotFound, StatusInternalServerError]

theorem shaped_GetProjectRequirements (s : Store) (env : Env) (id : String) :
    (GetProjectRequirements s env id).2.shaped := by
  unfold GetProjectRequirements
  try unfold dbCreate
  try unfold dbSave
  try unfold dbDelete
  try unfold associationAppend
  try unfold associationDelete
  repeat' split
  all_goals simp_all [Response.shaped, errorJSON, errorJSONWith, StatusOK, StatusCreated,
    StatusBadRequest, StatusUnauthorized, StatusNotFound, StatusInternalServerError]

theorem shaped_CreateRequirement (s : Store) (env : Env) (id : String) (body : Except String CreateRequirementRequest) :
    (CreateRequirement s env id body).2.shaped := by
  unfold CreateRequirement
  try unfold dbCreate
  try unfold dbSave
  try unfold dbDelete
  try unfold associationAppend
  try unfold associationDelete
  repeat' split
  all_goals simp_all [Response.shaped, errorJSON, errorJSONWith, StatusOK, StatusCreated,
    StatusBadRequest, StatusUnauthorized, StatusNotFound, StatusInternalServerError]

theorem shaped_GetProjectUsers (s : Store) (id : String) :
    (GetProjectUsers s id).2.shaped := by
  unfold GetProjectUsers
  try unfold dbCreate
  try unfold dbSave
  try unfold dbDelete
  try unfold associationAppend
  try unfold associationDelete
  repeat' split
  all_goals simp_all [Response.shaped, errorJSON, errorJSONWith, StatusOK, StatusCreated,
    StatusBadRequest, StatusUnauthorized, StatusNotFound, StatusInternalServerError]

theorem shaped_AssignUserToProject (s : Store) (env : Env) (id userId : String) :
    (AssignUserToProject s env id userId).2.shaped := by
  unfold AssignUserToProject
  try unfold dbCreate
  try unfold dbSave
  try unfold dbDelete
  try unfold associationAppend
  try unfold associationDelete
  repeat' split
  all_goals simp_all [Response.shaped, errorJSON, errorJSONWith, StatusOK, StatusCreated,
    StatusBadRequest, StatusUnauthorized, StatusNotFound, StatusInternalServerError]

theorem shaped_RemoveUserFromProject (s : Store) (env : Env) (id userId : String) :
    (RemoveUserFromProject s env id userId).2.shaped := by
  unfold RemoveUserFromProject
  try unfold dbCreate
  try unfold dbSave
  try unfold dbDelete
  try unfold associationAppend
  try unfold associationDelete
  repeat' split
  all_goals simp_all [Response.shaped, errorJSON, errorJSONWith, StatusOK, StatusCreated,
    StatusBadRequest, StatusUnauthorized, StatusNotFound, StatusInternalServerError]

theorem shaped_GetProjectIssues (s : Store) (env : Env) (id : String) :
    (GetProjectIssues s env id).2.shaped := by
  unfold GetProjectIssues
  split
  · simp [Response.shaped, errorJSON, StatusBadRequest]
  · dsimp only
    generalize (dbFind env 0 _ : Option (List Issue)) = r
    cases r <;> simp [Response.shaped, errorJSON, StatusOK, StatusInternalServerError]

theorem shaped_GetUsers (s : Store) (env : Env) :
    (GetUsers s env).2.shaped := by
  unfold GetUsers
  try unfold dbCreate
  try unfold dbSave
  try unfold dbDelete
  try unfold associationAppend
  try unfold associationDelete
  repeat' split
  all_goals simp_all [Response.shaped, errorJSON, errorJSONWith, StatusOK, StatusCreated,
    StatusBadRequest, StatusUnauthorized, StatusNotFound, StatusInternalServerError]

theorem shaped_CreateUser (s : Store) (isEmail : String → Bool) (env : Env) (body : Except String CreateUserRequest) :
    (CreateUser isEmail s env body).2.shaped := by
  unfold CreateUser
  try unfold dbCreate
  try unfold dbSave
  try unfold dbDelete
  try unfold associationAppend
  try unfold associationDelete
  repeat' split
  all_goals simp_all [Response.shaped, errorJSON, errorJSONWith, StatusOK, StatusCreated,
    StatusBadRequest, StatusUnauthorized, StatusNotFound, StatusInternalServerError]

theorem shaped_GetUser (s : Store) (id : String) :
    (GetUser s id).2.shaped := by
  unfold GetUser
  try unfold dbCreate
  try unfold dbSave
  try unfold dbDelete
  try unfold associationAppend
  try unfold associationDelete
  repeat' split
  all_goals simp_all [Response.shaped, errorJSON, errorJSONWith, StatusOK, StatusCreated,
    StatusBadRequest, StatusUnauthorized, StatusNotFound, StatusInternalServerError]

theorem shaped_UpdateUser (s : Store) (env : Env) (id : String) (body : Except String UpdateUserRequest) :
    (UpdateUser s env id body).2.shaped := by
  unfold UpdateUser
  try unfold dbCreate
  try unfold dbSave
  try unfold dbDelete
  try unfold associationAppend
  try unfold associationDelete
  repeat' split
  all_goals simp_all [Response.shaped, errorJSON, errorJSONWith, StatusOK, StatusCreated,
    StatusBadRequest, StatusUnauthorized, StatusNotFound, StatusInternalServerError]

theorem shaped_DeleteUser (s : Store) (env : Env) (id : String) :
    (DeleteUser s env id).2.shaped := by
  unfold DeleteUser
  try unfold dbCreate
  try unfold dbSave
  try unfold dbDelete
  try unfold associationAppend
  try unfold associationDelete
  repeat' split
  all_goals simp_all [Response.shaped, errorJSON, errorJSONWith, StatusOK, StatusCreated,
    StatusBadRequest, StatusUnauthorized, StatusNotFound, StatusInternalServerError]

theorem shaped_GetUserProjects (s : Store) (id : String) :
    (GetUserProjects s id).2.shaped := by
  unfold GetUserProjects
  try unfold dbCreate
  try unfold dbSave
  try unfold dbDelete
  try unfold associationAppend
  try unfold associationDelete
  repeat' split
  all_goals simp_all [Response.shaped, errorJSON, errorJSONWith, StatusOK, StatusCreated,
    StatusBadRequest, StatusUnauthorized, StatusNotFound, StatusInternalServerError]

theorem shaped_GetClients (s : Store) (env : Env) :
    (GetClients s env).2.shaped := by
  unfold GetClients
  try unfold dbCreate
  try unfold dbSave
  try unfold dbDelete
  try unfold associationAppend
  try unfold associationDelete
  repeat' split
  all_goals simp_all [Response.shaped, errorJSON, errorJSONWith, StatusOK, StatusCreated,
    StatusBadRequest, StatusUnauthorized, StatusNotFound, StatusInternalServerError]

theorem shaped_CreateClient (s : Store) (env : Env) (body : Except String CreateClientRequest) :
    (CreateClient s env body).2.shaped := by
  unfold CreateClient
  try unfold dbCreate
  try unfold dbSave
  try unfold dbDelete
  try unfold associationAppend
  try unfold associationDelete
  repeat' split
  all_goals simp_all [Response.shaped, errorJSON, errorJSONWith, StatusOK, StatusCreated,
    StatusBadRequest, StatusUnauthorized, StatusNotFound, StatusInternalServerError]

theorem shaped_GetClient (s : Store) (id : String) :
    (GetClient s id).2.shaped := by
  unfold GetClient
  try unfold dbCreate
  try unfold dbSave
  try unfold dbDelete
  try unfold associationAppend
  try unfold associationDelete
  repeat' split
  all_goals simp_all [Response.shaped, errorJSON, errorJSONWith, StatusOK, StatusCreated,
    StatusBadRequest, StatusUnauthorized, StatusNotFound, StatusInternalServerError]

theorem shaped_UpdateClient (s : Store) (env : Env) (id : String) (body : Except String UpdateClientRequest) :
    (UpdateClient s env id body).2.shaped := by
  unfold UpdateClient
  try unfold dbCreate
  try unfold dbSave
  try unfold dbDelete
  try unfold associationAppend
  try unfold associationDelete
  repeat' split
  all_goals simp_all [Response.shaped, errorJSON, errorJSONWith, StatusOK, StatusCreated,
    StatusBadRequest, StatusUnauthorized, StatusNotFound, StatusInternalServerError]

theorem shaped_DeleteClient (s : Store) (env : Env) (id : String) :
    (DeleteClient s env id).2.shaped := by
  unfold DeleteClient
  try unfold dbCreate
  try unfold dbSave
  try unfold dbDelete
  try unfold associationAppend
  try unfold associationDelete
  repeat' split
  all_goals simp_all [Response.shaped, errorJSON, errorJSONWith, StatusOK, StatusCreated,
    StatusBadRequest, StatusUnauthorized, StatusNotFound, StatusInternalServerError]

theorem shaped_GetClientUsers (s : Store) (env : Env) (id : String) :
    (GetClientUsers s env id).2.shaped := by
  unfold GetClientUsers
  try unfold dbCreate
  try unfold dbSave
  try unfold dbDelete
  try unfold associationAppend
  try unfold associationDelete
  repeat' split
  all_goals simp_all [Response.shaped, errorJSON, errorJSONWith, StatusOK, StatusCreated,
    StatusBadRequest, StatusUnauthorized, StatusNotFound, StatusInternalServerError]

theorem shaped_GetClientProjects (s : Store) (env : Env) (id : String) :
    (GetClientProjects s env id).2.shaped := by
  unfold GetClientProjects
  try unfold dbCreate
  try unfold dbSave
  try unfold dbDelete
  try unfold associationAppend
  try unfold associationDelete
  repeat' split
  all_goals simp_all [Response.shaped, errorJSON, errorJSONWith, StatusOK, StatusCreated,
    StatusBadRequest, StatusUnauthorized, StatusNotFound, StatusInternalServerError]

theorem shaped_GetRequirements (s : Store) (colEq : Nat → String → Bool) (env : Env)
    (projectID : String) :
    (GetRequirements colEq s env projectID).2.shaped := by
  unfold GetRequirements
  dsimp only
  generalize (dbFind env 0 _ : Option (List Requirement)) = r
  cases r <;> simp [Response.shaped, errorJSON, StatusOK, StatusInternalServerError]

theorem shaped_GetRequirement (s : Store) (id : String) :
    (GetRequirement s id).2.shaped := by
  unfold GetRequirement
  try unfold dbCreate
  try unfold dbSave
  try unfold dbDelete
  try unfold associationAppend
  try unfold associationDelete
  repeat' split
  all_goals simp_all [Response.shaped, errorJSON, errorJSONWith, StatusOK, StatusCreated,
    StatusBadRequest, StatusUnauthorized, StatusNotFound, StatusInternalServerError]

theorem shaped_UpdateRequirement (s : Store) (env : Env) (id : String) (body : Except String UpdateRequirementRequest) :
    (UpdateRequirement s env id body).2.shaped := by
  unfold UpdateRequirement
  try unfold dbCreate
  try unfold dbSave
  try unfold dbDelete
  try unfold associationAppend
  try unfold associationDelete
  repeat' split
  all_goals simp_all [Response.shaped, errorJSON, errorJSONWith, StatusOK, StatusCreated,
    StatusBadRequest, StatusUnauthorized, StatusNotFound, StatusInternalServerError]

theorem shaped_DeleteRequirement (s : Store) (env : Env) (id : String) :
    (DeleteRequirement s env id).2.shaped := by
  unfold DeleteRequirement
  try unfold dbCreate
  try unfold dbSave
  try unfold dbDelete
  try unfold associationAppend
  try unfold associationDelete
  repeat' split
  all_goals simp_all [Response.shaped, errorJSON, errorJSONWith, StatusOK, StatusCreated,
    StatusBadRequest, StatusUnauthorized, StatusNotFound, StatusInternalServerError]

theorem shaped_GetRequirementAuditTasks (s : Store) (env : Env) (id : String) :
    (GetRequirementAuditTasks s env id).2.shaped := by
  unfold GetRequirementAuditTasks
  try unfold dbCreate
  try unfold dbSave
  try unfold dbDelete
  try unfold associationAppend
  try unfold associationDelete
  repeat' split
  all_goals simp_all [Response.shaped, errorJSON, errorJSONWith, StatusOK, StatusCreated,
    StatusBadRequest, StatusUnauthorized, StatusNotFound, StatusInternalServerError]

theorem shaped_CreateAuditTask (s : Store) (env : Env) (id : String) (body : Except String CreateAuditTaskRequest) :
    (CreateAuditTask s env id body).2.shaped := by
  unfold CreateAuditTask
  try unfold dbCreate
  try unfold dbSave
  try unfold dbDelete
  try unfold associationAppend
  try unfold associationDelete
  repeat' split
  all_goals simp_all [Response.shaped, errorJSON, errorJSONWith, StatusOK, StatusCreated,
    StatusBadRequest, StatusUnauthorized, StatusNotFound, StatusInternalServerError]

theorem shaped_GetAuditTasks (s : Store) (colEq : Nat → String → Bool) (env : Env)
    (requirementID : String) :
    (GetAuditTasks colEq s env requirementID).2.shaped := by
  unfold GetAuditTasks
  dsimp only
  generalize (dbFind env 0 _ : Option (List AuditTask)) = r
  cases r <;> simp [Response.shaped, errorJSON, StatusOK, StatusInternalServerError]

theorem shaped_GetAuditTask (s : Store) (id : String) :
    (GetAuditTask s id).2.shaped := by
  unfold GetAuditTask
  try unfold dbCreate
  try unfold dbSave
  try unfold dbDelete
  try unfold associationAppend
  try unfold associationDelete
  repeat' split
  all_goals simp_all [Response.shaped, errorJSON, errorJSONWith, StatusOK, StatusCreated,
    StatusBadRequest, StatusUnauthorized, StatusNotFound, StatusInternalServerError]

theorem shaped_UpdateAuditTask (s : Store) (env : Env) (id : String) (body : Except String UpdateAuditTaskRequest) :
    (UpdateAuditTask s env id body).2.shaped := by
  unfold UpdateAuditTask
  try unfold dbCreate
  try unfold dbSave
  try unfold dbDelete
  try unfold associationAppend
  try unfold associationDelete
  repeat' split
  all_goals simp_all [Response.shaped, errorJSON, errorJSONWith, StatusOK, StatusCreated,
    StatusBadRequest, StatusUnauthorized, StatusNotFound, StatusInternalServerError]

theorem shaped_DeleteAuditTask (s : Store) (env : Env) (id : String) :
    (DeleteAuditTask s env id).2.shaped := by
  unfold DeleteAuditTask
  try unfold dbCreate
  try unfold dbSave
  try unfold dbDelete
  try unfold associationAppend
  try unfold associationDelete
  repeat' split
  all_goals simp_all [Response.shaped, errorJSON, errorJSONWith, StatusOK, StatusCreated,
    StatusBadRequest, StatusUnauthorized, StatusNotFound, StatusInternalServerError]

theorem shaped_GetAuditTaskIssues (s : Store) (env : Env) (id : String) :
    (GetAuditTaskIssues s env id).2.shaped := by
  unfold GetAuditTaskIssues
  try unfold dbCreate
  try unfold dbSave
  try unfold dbDelete
  try unfold associationAppend
  try unfold associationDelete
  repeat' split
  all_goals simp_all [Response.shaped, errorJSON, errorJSONWith, StatusOK, StatusCreated,
    StatusBadRequest, StatusUnauthorized, StatusNotFound, StatusInternalServerError]

theorem shaped_CreateIssue (s : Store) (env : Env) (id : String) (body : Except String CreateIssueRequest) :
    (CreateIssue s env id body).2.shaped := by
  unfold CreateIssue
  try unfold dbCreate
  try unfold dbSave
  try unfold dbDelete
  try unfold associationAppend
  try unfold associationDelete
  repeat' split
  all_goals simp_all [Response.shaped, errorJSON, errorJSONWith, StatusOK, StatusCreated,
    StatusBadRequest, StatusUnauthorized, StatusNotFound, StatusInternalServerError]

theorem shaped_GetIssues (s : Store) (colEq : Nat → String → Bool) (env : Env)
    (auditTaskID : String) :
    (GetIssues colEq s env auditTaskID).2.shaped := by
  unfold GetIssues
  dsimp only
  generalize (dbFind env 0 _ : Option (List Issue)) = r
  cases r <;> simp [Response.shaped, errorJSON, StatusOK, StatusInternalServerError]

theorem shaped_GetIssue (s : Store) (id : String) :
    (GetIssue s id).2.shaped := by
  unfold GetIssue
  try unfold dbCreate
  try unfold dbSave
  try unfold dbDelete
  try unfold associationAppend
  try unfold associationDelete
  repeat' split
  all_goals simp_all [Response.shaped, errorJSON, errorJSONWith, StatusOK, StatusCreated,
    StatusBadRequest, StatusUnauthorized, StatusNotFound, StatusInternalServerError]

theorem shaped_UpdateIssue (s : Store) (env : Env) (id : String) (body : Except String UpdateIssueRequest) :
    (UpdateIssue s env id body).2.shaped := by
  unfold UpdateIssue
  try unfold dbCreate
  try unfold dbSave
  try unfold dbDelete
  try unfold associationAppend
  try unfold associationDelete
  repeat' split
  all_goals simp_all [Response.shaped, errorJSON, errorJSONWith, StatusOK, StatusCreated,
    StatusBadRequest, StatusUnauthorized, StatusNotFound, StatusInternalServerError]

theorem shaped_DeleteIssue (s : Store) (env : Env) (id : String) :
    (DeleteIssue s env id).2.shaped := by
  unfold DeleteIssue
  try unfold dbCreate
  try unfold dbSave
  try unfold dbDelete
  try unfold associationAppend
  try unfold associationDelete
  repeat' split
  all_goals simp_all [Response.shaped, errorJSON, errorJSONWith, StatusOK, StatusCreated,
    StatusBadRequest, StatusUnauthorized, StatusNotFound, StatusInternalServerError]

theorem shaped_Login (s : Store) (isEmail : String → Bool) (CheckPasswordHash : String → String → Bool) (body : Except String LoginRequest) :
    (Login isEmail CheckPasswordHash s body).2.shaped := by
  unfold Login
  try unfold dbCreate
  try unfold dbSave
  try unfold dbDelete
  try unfold associationAppend
  try unfold associationDelete
  repeat' split
  all_goals simp_all [Response.shaped, errorJSON, errorJSONWith, StatusOK, StatusCreated,
    StatusBadRequest, StatusUnauthorized, StatusNotFound, StatusInternalServerError]

theorem shaped_apiInfo (s : Store) :
    (apiInfo s).2.shaped := by
  simp [apiInfo, Response.shaped, StatusOK]


theorem shaped_uploadLoop (env : Env) (pid : Nat) (reads : List ReadResult) :
    ∀ (s s1 : Store) (created : List Requirement) (resp : Response),
      uploadLoop env pid reads s created = (s1, .error resp) → resp.shaped := by
  induction reads with
  | nil =>
    intro s s1 created resp h
    simp [uploadLoop] at h
  | cons r rest ih =>
    intro s s1 created resp h
    cases r with
    | error msg =>
      simp only [uploadLoop, Prod.mk.injEq, Except.error.injEq] at h
      rw [← h.2]
      simp [Response.shaped, errorJSONWith, StatusBadRequest]
    | ok record =>
      by_cases hlen : record.length = 0
      · simp only [uploadLoop, hlen, if_true] at h
        exact ih _ _ _ _ h
      · simp only [uploadLoop, hlen, if_false, dbCreate] at h
        cases he : env.dbErr created.length with
        | true =>
          simp only [he, if_true, Prod.mk.injEq, Except.error.injEq] at h
          rw [← h.2]
          simp [Response.shaped, errorJSON, StatusInternalServerError]
        | false =>
          simp only [he, Bool.false_eq_true, if_false] at h
          exact ih _ _ _ _ h

theorem shaped_UploadRequirementsCSV (s : Store) (env : Env) (projectId : String)
    (file : Option (List ReadResult)) :
    (UploadRequirementsCSV s env projectId file).2.shaped := by
  unfold UploadRequirementsCSV
  split
  · simp [Response.shaped, errorJSON, StatusBadRequest]
  · split
    · simp [Response.shaped, errorJSON, StatusNotFound]
    · split
      · simp [Response.shaped, errorJSON, StatusBadRequest]
      · split
        · next h => exact shaped_uploadLoop _ _ _ _ _ _ _ h
        · simp [Response.shaped, StatusCreated]

/-- C25. Every answer of every route of `SetupRoutes`, for every store and
every input, the answers that the list handlers give when `Find` fails
included: when the body is an error, its code equals the status the answer is
sent with and that status is one of 400, 401, 404 and 500; when the body is
not an error, the status is 200 or 201. -/
theorem error_answers_shaped (isEmail : String → Bool)
    (CheckPasswordHash : String → String → Bool) (colEq : Nat → String → Bool)
    (s : Store) (req : Request) :
    (∀ e, (SetupRoutes isEmail CheckPasswordHash colEq s req).2.body = .error e →
      e.Code = (SetupRoutes isEmail CheckPasswordHash colEq s req).2.status ∧
      (SetupRoutes isEmail CheckPasswordHash colEq s req).2.status ∈ [400, 401, 404, 500]) ∧
    ((∀ e, (SetupRoutes isEmail CheckPasswordHash colEq s req).2.body ≠ .error e) →
      (SetupRoutes isEmail CheckPasswordHash colEq s req).2.status ∈ [200, 201]) := by
  have key : (SetupRoutes isEmail CheckPasswordHash colEq s req).2.shaped := by
    cases req with
    | GetProjects env status => exact shaped_GetProjects _ _ _
    | CreateProject env body => exact shaped_CreateProject _ _ _
    | GetProject id => exact shaped_GetProject _ _
    | UpdateProject env id body => exact shaped_UpdateProject _ _ _ _
    | DeleteProject env id => exact shaped_DeleteProject _ _ _
    | ArchiveProject env id => exact shaped_ArchiveProject _ _ _
    | GetProjectRequirements env id => exact shaped_GetProjectRequirements _ _ _
    | CreateRequirement env id body => exact shaped_CreateRequirement _ _ _ _
    | GetProjectUsers id => exact shaped_GetProjectUsers _ _
    | AssignUserToProject env id userId => exact shaped_AssignUserToProject _ _ _ _
    | RemoveUserFromProject env id userId => exact shaped_RemoveUserFromProject _ _ _ _
    | GetProjectIssues env id => exact shaped_GetProjectIssues _ _ _
    | GetUsers env => exact shaped_GetUsers _ _
    | CreateUser env body => exact shaped_CreateUser _ _ _ _
    | GetUser id => exact shaped_GetUser _ _
    | UpdateUser env id body => exact shaped_UpdateUser _ _ _ _
    | DeleteUser env id => exact shaped_DeleteUser _ _ _
    | GetUserProjects id => exact shaped_GetUserProjects _ _
    | GetClients env => exact shaped_GetClients _ _
    | CreateClient env body => exact shaped_CreateClient _ _ _
    | GetClient id => exact shaped_GetClient _ _
    | UpdateClient env id body => exact shaped_UpdateClient _ _ _ _
    | DeleteClient env id => exact shaped_DeleteClient _ _ _
    | GetClientUsers env id => exact shaped_GetClientUsers _ _ _
    | GetClientProjects env id => exact shaped_GetClientProjects _ _ _
    | GetRequirements env projectID => exact shaped_GetRequirements _ _ _ _
    | GetRequirement id => exact shaped_GetRequirement _ _
    | UpdateRequirement env id body => exact shaped_UpdateRequirement _ _ _ _
    | DeleteRequirement env id => exact shaped_DeleteRequirement _ _ _
    | GetRequirementAuditTasks env id => exact shaped_GetRequirementAuditTasks _ _ _
    | CreateAuditTask env id body => exact shaped_CreateAuditTask _ _ _ _
    | GetAuditTasks env requirementID => exact shaped_GetAuditTasks _ _ _ _
    | GetAuditTask id => exact shaped_GetAuditTask _ _
    | UpdateAuditTask env id body => exact shaped_UpdateAuditTask _ _ _ _
    | DeleteAuditTask env id => exact shaped_DeleteAuditTask _ _ _
    | GetAuditTaskIssues env id => exact shaped_GetAuditTaskIssues _ _ _
    | CreateIssue env id body => exact shaped_CreateIssue _ _ _ _
    | GetIssues env auditTaskID => exact shaped_GetIssues _ _ _ _
    | GetIssue id => exact shaped_GetIssue _ _
    | UpdateIssue env id body => exact shaped_UpdateIssue _ _ _ _
    | DeleteIssue env id => exact shaped_DeleteIssue _ _ _
    | UploadRequirementsCSV env projectId file => exact shaped_UploadRequirementsCSV _ _ _ _
    | Login body => exact shaped_Login _ _ _ _
    | apiInfo => exact shaped_apiInfo _
  unfold Response.shaped at key
  constructor
  · intro e he
    rw [he] at key
    simpa using key
  · intro hne
    split at key
    · next e he => exact absurd he (hne e)
    · simpa using key


/-- Instance of C25 on the sample store: the answer to a get of project 9,
which does not exist, is an error body with code 404 sent with status 404;
the answer to a failed login has code 401 and status 401; and the answers of
`GetClients` and of `GetUsers` when the engine fails the query are error
bodies with code 500 sent with status 500, as is the answer of `GetUsers`
once user 1 has been given the client id 2 ^ 63. -/
theorem error_answers_shaped_witness :
    ((⟨"Project not found", "", 404⟩ : ErrorResponse).Code =
        (SetupRoutes (fun _ => true) (fun pw hash => pw == hash) (fun _ _ => false) demoStore
          (.GetProject "9")).2.status ∧
      (SetupRoutes (fun _ => true) (fun pw hash => pw == hash) (fun _ _ => false) demoStore
        (.GetProject "9")).2.status ∈ [400, 401, 404, 500]) ∧
    ((⟨"Invalid credentials", "", 401⟩ : ErrorResponse).Code =
        (SetupRoutes (fun _ => true) (fun pw hash => pw == hash) (fun _ _ => false) demoStore
          (.Login (.ok ⟨"alice@example.com", "guess"⟩))).2.status ∧
      (SetupRoutes (fun _ => true) (fun pw hash => pw == hash) (fun _ _ => false) demoStore
        (.Login (.ok ⟨"alice@example.com", "guess"⟩))).2.status ∈ [400, 401, 404, 500]) ∧
    ((⟨"Failed to fetch clients", "", 500⟩ : ErrorResponse).Code =
        (SetupRoutes (fun _ => true) (fun pw hash => pw == hash) (fun _ _ => false) demoStore
          (.GetClients ⟨fun k => 10 + k, fun _ => true⟩)).2.status ∧
      (SetupRoutes (fun _ => true) (fun pw hash => pw == hash) (fun _ _ => false) demoStore
        (.GetClients ⟨fun k => 10 + k, fun _ => true⟩)).2.status ∈ [400, 401, 404, 500]) ∧
    ((⟨"Failed to fetch users", "", 500⟩ : ErrorResponse).Code =
        (SetupRoutes (fun _ => true) (fun pw hash => pw == hash) (fun _ _ => false) demoStore
          (.GetUsers ⟨fun k => 10 + k, fun _ => true⟩)).2.status ∧
      (SetupRoutes (fun _ => true) (fun pw hash => pw == hash) (fun _ _ => false) demoStore
        (.GetUsers ⟨fun k => 10 + k, fun _ => true⟩)).2.status ∈ [400, 401, 404, 500]) ∧
    ((⟨"Failed to fetch users", "", 500⟩ : ErrorResponse).Code =
        (SetupRoutes (fun _ => true) (fun pw hash => pw == hash) (fun _ _ => false)
          (UpdateUser demoStore demoEnv "1"
            (.ok ⟨none, none, none, some 9223372036854775808⟩)).1
          (.GetUsers demoEnv)).2.status ∧
      (SetupRoutes (fun _ => true) (fun pw hash => pw == hash) (fun _ _ => false)
        (UpdateUser demoStore demoEnv "1"
          (.ok ⟨none, none, none, some 9223372036854775808⟩)).1
        (.GetUsers demoEnv)).2.status ∈ [400, 401, 404, 500]) ∧
    (SetupRoutes (fun _ => true) (fun pw hash => pw == hash) (fun _ _ => false) demoStore
      (.GetUsers demoEnv)).2.status = 200 :=
  ⟨(error_answers_shaped (fun _ => true) (fun pw hash => pw == hash) (fun _ _ => false)
      demoStore (.GetProject "9")).1 ⟨"Project not found", "", 404⟩ rfl,
    (error_answers_shaped (fun _ => true) (fun pw hash => pw == hash) (fun _ _ => false)
      demoStore (.Login (.ok ⟨"alice@example.com", "guess"⟩))).1
      ⟨"Invalid credentials", "", 401⟩ rfl,
    (error_answers_shaped (fun _ => true) (fun pw hash => pw == hash) (fun _ _ => false)
      demoStore (.GetClients ⟨fun k => 10 + k, fun _ => true⟩)).1
      ⟨"Failed to fetch clients", "", 500⟩ rfl,
    (error_answers_shaped (fun _ => true) (fun pw hash => pw == hash) (fun _ _ => false)
      demoStore (.GetUsers ⟨fun k => 10 + k, fun _ => true⟩)).1
      ⟨"Failed to fetch users", "", 500⟩ rfl,
    (error_answers_shaped (fun _ => true) (fun pw hash => pw == hash) (fun _ _ => false)
      (UpdateUser demoStore demoEnv "1" (.ok ⟨none, none, none, some 9223372036854775808⟩)).1
      (.GetUsers demoEnv)).1 ⟨"Failed to fetch users", "", 500⟩ rfl,
    by decide⟩


end Tessellate
